import Mathlib

/-! # go-gtp: GTPv2 Information Element codec and message dispatch

A shallow embedding of `gtpv2/ie/ie.go`, `gtpv2/message/message.go` and
`gtpv1/message/message.go`.

Conventions of the embedding

* A Go `[]byte` is a `List Nat`; a byte is a natural number below 256.  Fields of
  type `uint8` / `uint16` are `Nat`; conversions that truncate in Go are written
  with an explicit `% 256` / `% 65536`.  Go `int` (64 bit) is an unbounded `Nat`.
* A Go call ends in one of three ways: it returns a value, it returns an error, or
  it panics at run time (index or slice expression out of range).  `Res` records
  which.  `Res.diverge` is returned by the fuel-indexed decoders when the fuel is
  used up, and stands for a computation that has not finished.
* `*IE` values are trees: `ChildIEs` holds the children themselves.
* `len` and `cap` of a slice are taken to be equal, which is the strictest reading
  of every slice expression.
-/

namespace GoGtp

/-- Error values returned by the `ie` package (`io.ErrUnexpectedEOF` and the
package-level `Err...` variables). -/
inductive Err where
  | ErrUnexpectedEOF
  | ErrInvalidLength
  | ErrInvalidType
  | ErrIENotFound
  deriving DecidableEq, Repr

/-- Outcome of a Go call whose error values have type `ε`. -/
inductive Res (ε α : Type) where
  | ok (a : α)
  | err (e : ε)
  | panic
  | diverge
  deriving DecidableEq, Repr

/-- Sequencing of Go statements: the first failure ends the call. -/
def Res.bind {ε α β : Type} : Res ε α → (α → Res ε β) → Res ε β
  | .ok a, f => f a
  | .err e, _ => .err e
  | .panic, _ => .panic
  | .diverge, _ => .diverge

/-- The call returned: a value or an error, no run-time panic, and it finished. -/
def Res.returns {ε α : Type} : Res ε α → Bool
  | .ok _ => true
  | .err _ => true
  | .panic => false
  | .diverge => false

/-- Index expression `b[k]`, read. -/
def index {ε : Type} (b : List Nat) (k : Nat) : Res ε Nat :=
  match b.get? k with
  | some v => .ok v
  | none => .panic

/-- Assignment `b[k] = v`. -/
def setIndex {ε : Type} (b : List Nat) (k v : Nat) : Res ε (List Nat) :=
  if k < b.length then .ok (b.set k v) else .panic

/-- Slice expression `b[lo:hi]`. -/
def slice {ε : Type} (b : List Nat) (lo hi : Nat) : Res ε (List Nat) :=
  if lo ≤ hi ∧ hi ≤ b.length then .ok ((b.take hi).drop lo) else .panic

/-- Slice expression `b[lo:]`. -/
def sliceFrom {ε : Type} (b : List Nat) (lo : Nat) : Res ε (List Nat) :=
  if lo ≤ b.length then .ok (b.drop lo) else .panic

/-- Contents of `b` after the sub-slice starting at `lo` has been overwritten
with `s` (a sub-slice shares its backing array with `b`). -/
def writeBack (b : List Nat) (lo : Nat) (s : List Nat) : List Nat :=
  b.take lo ++ s ++ b.drop (lo + s.length)

/-- Builtin `copy(dst, src)`: the new contents of `dst`. -/
def copy (dst src : List Nat) : List Nat :=
  src.take (min dst.length src.length) ++ dst.drop (min dst.length src.length)

/-- Library function `binary.BigEndian.PutUint16(s, v)`: the new contents of `s`. -/
def PutUint16 {ε : Type} (s : List Nat) (v : Nat) : Res ε (List Nat) :=
  if s.length < 2 then .panic
  else .ok ((s.set 0 (v / 256 % 256)).set 1 (v % 256))

/-- Library function `binary.BigEndian.Uint16(s)`. -/
def Uint16 {ε : Type} (s : List Nat) : Res ε Nat :=
  match s with
  | s0 :: s1 :: _ => .ok (s0 * 256 + s1)
  | _ => .panic

/-- The struct `IE`: `Type`, `Length`, `instance`, `Payload`, `ChildIEs`. -/
inductive IE where
  | mk (Type_ : Nat) (Length : Nat) (instance_ : Nat) (Payload : List Nat)
      (ChildIEs : List IE)
  deriving Repr

namespace IE

def Type_ : IE → Nat
  | mk t _ _ _ _ => t

def Length : IE → Nat
  | mk _ l _ _ _ => l

def instance_ : IE → Nat
  | mk _ _ ins _ _ => ins

def Payload : IE → List Nat
  | mk _ _ _ p _ => p

def ChildIEs : IE → List IE
  | mk _ _ _ _ cs => cs

end IE

def BearerContext : Nat := 93
def PDNConnection : Nat := 109
def OverloadControlInformation : Nat := 180
def LoadControlInformation : Nat := 181
def RemoteUEContext : Nat := 191
def SCEFPDNConnection : Nat := 195
def V2XContext : Nat := 208
def PC5QoSParameters : Nat := 209

/-- The package variable `grouped`. -/
def grouped : List Nat :=
  [BearerContext, PDNConnection, OverloadControlInformation, LoadControlInformation,
   RemoteUEContext, SCEFPDNConnection, V2XContext, PC5QoSParameters]

/-- The loop of `IsGrouped`, on the type code. -/
def isGroupedType (t : Nat) : Bool :=
  grouped.any (fun itype => t == itype)

/-- Method `(*IE).IsGrouped`. -/
def IsGrouped (i : IE) : Bool :=
  isGroupedType i.Type_

/-- Method `(*IE).Instance`: `i.instance & 0x0f`. -/
def Instance (i : IE) : Nat :=
  i.instance_ &&& 0x0f

mutual
/-- Method `(*IE).MarshalLen`. -/
def MarshalLen : IE → Nat
  | IE.mk t _ _ p cs =>
    if isGroupedType t then marshalLenLoop 4 cs else 4 + p.length
/-- The loop `for _, ie := range i.ChildIEs { l += ie.MarshalLen() }` with the
running total `l`. -/
def marshalLenLoop : Nat → List IE → Nat
  | l, [] => l
  | l, ie :: rest => marshalLenLoop (l + MarshalLen ie) rest
end

/-- Assignment `i.Length = v`. -/
def setLengthField (i : IE) (v : Nat) : IE :=
  IE.mk i.Type_ v i.instance_ i.Payload i.ChildIEs

/-- Method `(*IE).SetLength`: the grouped branch stores the sum of the children's sizes;
the statement after the `if` then stores `uint16(len(i.Payload))`. -/
def SetLength (i : IE) : IE :=
  let i1 := if IsGrouped i then setLengthField i (marshalLenLoop 0 i.ChildIEs % 65536) else i
  setLengthField i1 (i1.Payload.length % 65536)

/-- Function `New`. -/
def New (itype ins : Nat) (data : List Nat) : IE :=
  SetLength (IE.mk itype 0 (ins &&& 0x0f) data [])

/-- Method `(*IE).SetInstance`. -/
def SetInstance (i : IE) (ins : Nat) : IE :=
  IE.mk i.Type_ i.Length (ins &&& 0x0f) i.Payload i.ChildIEs

/-- Method `(*IE).WithInstance`. -/
def WithInstance (i : IE) (ins : Nat) : IE :=
  IE.mk i.Type_ i.Length (ins &&& 0x0f) i.Payload i.ChildIEs

mutual
/-- Method `(*IE).MarshalTo`: the contents of `b` after the call, or the error. -/
def MarshalTo : IE → List Nat → Res Err (List Nat)
  | IE.mk t len ins p cs, b =>
    let l := b.length
    if l < 4 then .err .ErrUnexpectedEOF
    else
      (setIndex b 0 t).bind fun b =>
      (slice b 1 3).bind fun s =>
      (PutUint16 s len).bind fun s =>
      (setIndex (writeBack b 1 s) 3 ins).bind fun b =>
      if isGroupedType t then marshalToLoop l cs 4 b
      else if l < MarshalLen (IE.mk t len ins p cs) then .err .ErrUnexpectedEOF
      else
        (slice b 4 (MarshalLen (IE.mk t len ins p cs))).bind fun dst =>
        .ok (writeBack b 4 (copy dst p))
/-- The loop over `i.ChildIEs` in `MarshalTo`, with the running `offset`. -/
def marshalToLoop : Nat → List IE → Nat → List Nat → Res Err (List Nat)
  | _, [], _, b => .ok b
  | l, ie :: rest, offset, b =>
    if l < offset + MarshalLen ie then .ok b
    else
      (slice b offset (offset + MarshalLen ie)).bind fun s =>
      (MarshalTo ie s).bind fun s =>
      marshalToLoop l rest (offset + MarshalLen ie) (writeBack b offset s)
end

/-- Method `(*IE).Marshal`. -/
def Marshal (i : IE) : Res Err (List Nat) :=
  MarshalTo i (List.replicate (MarshalLen i) 0)

/-- The value `&IE{}`. -/
def zeroIE : IE := IE.mk 0 0 0 [] []

mutual
/-- Method `(*IE).UnmarshalBinary` with a bound on the number of nested calls and loop
iterations: the receiver after the call, and the outcome. -/
def UnmarshalBinaryF : Nat → IE → List Nat → IE × Res Err Unit
  | 0, i, _ => (i, .diverge)
  | fuel + 1, i, b =>
    let l := b.length
    if l < 5 then (i, .err .ErrUnexpectedEOF)
    else
      match index (ε := Err) b 0 with
      | .ok b0 =>
        let i := IE.mk b0 i.Length i.instance_ i.Payload i.ChildIEs
        match (slice (ε := Err) b 1 3).bind Uint16 with
        | .ok v =>
          let i := IE.mk i.Type_ v i.instance_ i.Payload i.ChildIEs
          if i.Length > l - 4 then (i, .err .ErrInvalidLength)
          else
            match index (ε := Err) b 3 with
            | .ok b3 =>
              let i := IE.mk i.Type_ i.Length b3 i.Payload i.ChildIEs
              match slice (ε := Err) b 4 (4 + i.Length) with
              | .ok payload =>
                let i := IE.mk i.Type_ i.Length i.instance_ payload i.ChildIEs
                if IsGrouped i then
                  match ParseMultiIEsF fuel i.Payload with
                  | .ok ies => (IE.mk i.Type_ i.Length i.instance_ i.Payload ies, .ok ())
                  | .err e => (IE.mk i.Type_ i.Length i.instance_ i.Payload [], .err e)
                  | .panic => (i, .panic)
                  | .diverge => (i, .diverge)
                else (i, .ok ())
              | .err e => (i, .err e)
              | .panic => (i, .panic)
              | .diverge => (i, .diverge)
            | .err e => (i, .err e)
            | .panic => (i, .panic)
            | .diverge => (i, .diverge)
        | .err e => (i, .err e)
        | .panic => (i, .panic)
        | .diverge => (i, .diverge)
      | .err e => (i, .err e)
      | .panic => (i, .panic)
      | .diverge => (i, .diverge)
/-- Function `Parse` with a bound on the number of nested calls and loop iterations. -/
def ParseF : Nat → List Nat → Res Err IE
  | 0, _ => .diverge
  | fuel + 1, b =>
    match UnmarshalBinaryF fuel zeroIE b with
    | (ie, .ok _) => .ok ie
    | (_, .err e) => .err e
    | (_, .panic) => .panic
    | (_, .diverge) => .diverge
/-- Function `ParseMultiIEs` with a bound on the number of nested calls and loop
iterations. -/
def ParseMultiIEsF : Nat → List Nat → Res Err (List IE)
  | 0, _ => .diverge
  | fuel + 1, b => parseMultiLoop fuel [] b
/-- The `for` loop of `ParseMultiIEs` with its variables `ies` and `b`. -/
def parseMultiLoop : Nat → List IE → List Nat → Res Err (List IE)
  | 0, _, _ => .diverge
  | fuel + 1, ies, b =>
    if b.length = 0 then .ok ies
    else
      match ParseF fuel b with
      | .ok i =>
        match sliceFrom (ε := Err) b (MarshalLen i) with
        | .ok b1 => parseMultiLoop fuel (ies ++ [i]) b1
        | .err e => .err e
        | .panic => .panic
        | .diverge => .diverge
      | .err e => .err e
      | .panic => .panic
      | .diverge => .diverge
end

/-- Method `(*IE).UnmarshalBinary`, with the bound `len(b) + 1`. -/
def UnmarshalBinary (i : IE) (b : List Nat) : IE × Res Err Unit :=
  UnmarshalBinaryF (b.length + 1) i b

/-- Function `Parse`, with the bound `len(b) + 2`. -/
def Parse (b : List Nat) : Res Err IE :=
  ParseF (b.length + 2) b

/-- Function `ParseMultiIEs`, with the bound `len(b) + 4`. -/
def ParseMultiIEs (b : List Nat) : Res Err (List IE) :=
  ParseMultiIEsF (b.length + 4) b

/-- The four header bytes written by `MarshalTo`. -/
def header (i : IE) : List Nat :=
  [i.Type_, i.Length / 256 % 256, i.Length % 256, i.instance_]

mutual
/-- Reference wire image of an IE: its header, then the payload of a leaf or the
wire images of the children of a grouped IE, in order. -/
def wire : IE → List Nat
  | IE.mk t len ins p cs =>
    t :: (len / 256 % 256) :: (len % 256) :: ins ::
      (if isGroupedType t then wireChildren cs else p)
/-- Concatenation of the wire images of a list of IEs. -/
def wireChildren : List IE → List Nat
  | [] => []
  | c :: rest => wire c ++ wireChildren rest
end

/-- The bytes returned by `Marshal`, empty when it fails. -/
def marshalBytes (i : IE) : List Nat :=
  match Marshal i with
  | .ok b => b
  | _ => []

/-- With the fuel of the top-level functions or more, the outcome on `b` does not
depend on the fuel. -/
def Stable (b : List Nat) : Prop :=
  (∀ f i, b.length + 1 ≤ f → UnmarshalBinaryF f i b = UnmarshalBinary i b) ∧
  (∀ f, b.length + 2 ≤ f → ParseF f b = Parse b) ∧
  (∀ f ies, b.length + 3 ≤ f →
    parseMultiLoop f ies b = parseMultiLoop (b.length + 3) ies b) ∧
  (∀ f, b.length + 4 ≤ f → ParseMultiIEsF f b = ParseMultiIEs b)

/-- Both decoders return on `b`, a decoded IE has encoded size `4 + Length` within
`b`, and a decoded sequence has total encoded size `len(b)`. -/
def Safe (b : List Nat) : Prop :=
  (Parse b).returns = true ∧
  (∀ ie, Parse b = .ok ie → MarshalLen ie = 4 + ie.Length ∧ 4 + ie.Length ≤ b.length) ∧
  (ParseMultiIEs b).returns = true ∧
  (∀ ies, ParseMultiIEs b = .ok ies → marshalLenLoop 0 ies = b.length)

/-- Every element of the buffer is a byte. -/
def isBytes (b : List Nat) : Bool :=
  b.all fun x => decide (x < 256)

/-- A decoded IE encodes to the bytes it was decoded from, and
a decoded sequence encodes to the whole buffer. -/
def Reencodes (b : List Nat) : Prop :=
  (∀ ie, Parse b = .ok ie → wire ie = b.take (MarshalLen ie)) ∧
  (∀ ies, ParseMultiIEs b = .ok ies → wireChildren ies = b)

mutual
/-- Length invariant of an IE and of all its descendants: `Length` is the length of
`Payload` and `MarshalLen - 4`; for a grouped type code `Length` is also the sum of
the children's `MarshalLen`, and `Payload` is the concatenation of the children's
encodings. -/
def LengthInv : IE → Prop
  | IE.mk t len ins p cs =>
    len = p.length ∧ len = MarshalLen (IE.mk t len ins p cs) - 4 ∧
    (isGroupedType t = true →
      len = (cs.map MarshalLen).sum ∧ p = (cs.map marshalBytes).flatten) ∧
    LengthInvList cs
/-- The length invariant for every IE of a list. -/
def LengthInvList : List IE → Prop
  | [] => True
  | c :: rest => LengthInv c ∧ LengthInvList rest
end

/-! ## Tree operations -/

/-- The loop of `Add` that rebuilds `i.Payload`: a child whose `Marshal` returns an
error is skipped (`continue`). -/
def addLoop : List IE → List Nat → Res Err (List Nat)
  | [], payload => .ok payload
  | ie :: rest, payload =>
    match Marshal ie with
    | .ok serialized => addLoop rest (payload ++ serialized)
    | .err _ => addLoop rest payload
    | .panic => .panic
    | .diverge => .diverge

/-- Method `(*IE).Add`: the receiver after the call. -/
def Add (i : IE) (ies : List IE) : Res Err IE :=
  if !IsGrouped i then .ok i
  else
    let children := i.ChildIEs ++ ies
    (addLoop children []).bind fun payload =>
    .ok (SetLength (IE.mk i.Type_ i.Length i.instance_ payload children))

/-- The loop of `Remove` with its variables `newChildren`, `idx` and `i.Payload`.
An entry of `newChildren` is `none` while it is still the nil pointer that `make`
put there. -/
def removeLoop (typ instance_ : Nat) :
    List IE → List (Option IE) → Nat → List Nat → Res Err (List (Option IE) × List Nat)
  | [], newChildren, _, payload => .ok (newChildren, payload)
  | ie :: rest, newChildren, idx, payload =>
    if ie.Type_ = typ ∧ Instance ie = instance_ then
      if newChildren.length < 1 then .panic
      else removeLoop typ instance_ rest (newChildren.take (newChildren.length - 1)) idx payload
    else if idx < newChildren.length then
      match Marshal ie with
      | .ok serialized =>
        removeLoop typ instance_ rest (newChildren.set idx (some ie)) (idx + 1)
          (payload ++ serialized)
      | .err _ => removeLoop typ instance_ rest (newChildren.set idx (some ie)) (idx + 1) payload
      | .panic => .panic
      | .diverge => .diverge
    else .panic

/-- The children behind a slice of pointers, when none of them is nil. -/
def derefAll : List (Option IE) → Option (List IE)
  | [] => some []
  | none :: _ => none
  | some ie :: rest =>
    match derefAll rest with
    | some cs => some (ie :: cs)
    | none => none

/-- Method `(*IE).Remove`: the receiver after the call.  `SetLength` calls
`MarshalLen` on every child, which is a nil dereference when an entry of
`newChildren` was never assigned. -/
def Remove (i : IE) (typ instance_ : Nat) : Res Err IE :=
  if !IsGrouped i then .ok i
  else
    (removeLoop typ instance_ i.ChildIEs (List.replicate i.ChildIEs.length none) 0 []).bind
      fun r =>
      match derefAll r.1 with
      | some children => .ok (SetLength (IE.mk i.Type_ i.Length i.instance_ r.2 children))
      | none => .panic

/-- The loop over `i.ChildIEs` in `FindByType`. -/
def findLoop (typ instance_ : Nat) : List IE → Res Err IE
  | [] => .err .ErrIENotFound
  | ie :: rest =>
    if ie.Type_ = typ ∧ Instance ie = instance_ then .ok ie
    else findLoop typ instance_ rest

/-- Method `(*IE).FindByType`. -/
def FindByType (i : IE) (typ instance_ : Nat) : Res Err IE :=
  if !IsGrouped i then .err .ErrInvalidType
  else findLoop typ instance_ i.ChildIEs

/-- Reference definition of `FindByType`, following the words of the
specification: not-a-container for a non-grouped IE, otherwise the first direct
child with the given type and instance, not-found when there is none. -/
def FindByTypeRef (i : IE) (typ instance_ : Nat) : Res Err IE :=
  if IsGrouped i = false then .err .ErrInvalidType
  else
    match i.ChildIEs.find? (fun c => c.Type_ == typ && Instance c == instance_) with
    | some c => .ok c
    | none => .err .ErrIENotFound

/-- The loop of `newGroupedIE` that fills `i.Payload`; `none` is the `return nil`
taken when a child fails to marshal. -/
def newGroupedLoop : List IE → List Nat → Res Err (Option (List Nat))
  | [], payload => .ok (some payload)
  | ie :: rest, payload =>
    match Marshal ie with
    | .ok serialized => newGroupedLoop rest (payload ++ serialized)
    | .err _ => .ok none
    | .panic => .panic
    | .diverge => .diverge

/-- Function `newGroupedIE`; `none` is the nil result. -/
def newGroupedIE (itype : Nat) (ies : List IE) : Res Err (Option IE) :=
  let i := New itype 0x00 []
  (newGroupedLoop ies i.Payload).bind fun r =>
  match r with
  | some payload => .ok (some (SetLength (IE.mk i.Type_ i.Length i.instance_ payload ies)))
  | none => .ok none

/-- IE trees built only by `New`, with a non-grouped type code and a payload of 1
to 65535 bytes, and by `newGroupedIE`, with a grouped type code, at least one child
and children whose encoded sizes sum to at most 65535. -/
inductive Built : IE → Prop where
  | leaf (t ins : Nat) (p : List Nat) (hg : isGroupedType t = false) (h1 : 1 ≤ p.length)
      (h2 : p.length ≤ 65535) : Built (New t ins p)
  | group (t : Nat) (cs : List IE) (g : IE) (hg : isGroupedType t = true) (hne : cs ≠ [])
      (hcs : ∀ c ∈ cs, Built c) (hsum : (cs.map MarshalLen).sum ≤ 65535)
      (hnew : newGroupedIE t cs = .ok (some g)) : Built g

/-! ## Message dispatch -/

namespace Gtpv2Message

/-! Message type definitions of package `gtpv2/message` (the `const` block, `iota` counted
from the blank first entry). -/

def MsgTypeEchoRequest : Nat := 1
def MsgTypeEchoResponse : Nat := 2
def MsgTypeVersionNotSupportedIndication : Nat := 3
def MsgTypeDirectTransferRequest : Nat := 4
def MsgTypeDirectTransferResponse : Nat := 5
def MsgTypeNotificationRequest : Nat := 6
def MsgTypeNotificationResponse : Nat := 7
def MsgTypeRIMInformationTransfer : Nat := 17
def MsgTypeSRVCCPsToCsRequest : Nat := 25
def MsgTypeSRVCCPsToCsResponse : Nat := 26
def MsgTypeSRVCCPsToCsCompleteNotification : Nat := 27
def MsgTypeSRVCCPsToCsCompleteAcknowledge : Nat := 28
def MsgTypeSRVCCPsToCsCancelNotification : Nat := 29
def MsgTypeSRVCCPsToCsCancelAcknowledge : Nat := 30
def MsgTypeSRVCCCsToPsRequest : Nat := 31
def MsgTypeCreateSessionRequest : Nat := 32
def MsgTypeCreateSessionResponse : Nat := 33
def MsgTypeModifyBearerRequest : Nat := 34
def MsgTypeModifyBearerResponse : Nat := 35
def MsgTypeDeleteSessionRequest : Nat := 36
def MsgTypeDeleteSessionResponse : Nat := 37
def MsgTypeChangeNotificationRequest : Nat := 38
def MsgTypeChangeNotificationResponse : Nat := 39
def MsgTypeRemoteUEReportNotification : Nat := 40
def MsgTypeRemoteUEReportAcknowledge : Nat := 41
def MsgTypeModifyBearerCommand : Nat := 64
def MsgTypeModifyBearerFailureIndication : Nat := 65
def MsgTypeDeleteBearerCommand : Nat := 66
def MsgTypeDeleteBearerFailureIndication : Nat := 67
def MsgTypeBearerResourceCommand : Nat := 68
def MsgTypeBearerResourceFailureIndication : Nat := 69
def MsgTypeDownlinkDataNotificationFailureIndication : Nat := 70
def MsgTypeTraceSessionActivation : Nat := 71
def MsgTypeTraceSessionDeactivation : Nat := 72
def MsgTypeStopPagingIndication : Nat := 73
def MsgTypeCreateBearerRequest : Nat := 95
def MsgTypeCreateBearerResponse : Nat := 96
def MsgTypeUpdateBearerRequest : Nat := 97
def MsgTypeUpdateBearerResponse : Nat := 98
def MsgTypeDeleteBearerRequest : Nat := 99
def MsgTypeDeleteBearerResponse : Nat := 100
def MsgTypeDeletePDNConnectionSetRequest : Nat := 101
def MsgTypeDeletePDNConnectionSetResponse : Nat := 102
def MsgTypePGWDownlinkTriggeringNotification : Nat := 103
def MsgTypePGWDownlinkTriggeringAcknowledge : Nat := 104
def MsgTypeIdentificationRequest : Nat := 128
def MsgTypeIdentificationResponse : Nat := 129
def MsgTypeContextRequest : Nat := 130
def MsgTypeContextResponse : Nat := 131
def MsgTypeContextAcknowledge : Nat := 132
def MsgTypeForwardRelocationRequest : Nat := 133
def MsgTypeForwardRelocationResponse : Nat := 134
def MsgTypeForwardRelocationCompleteNotification : Nat := 135
def MsgTypeForwardRelocationCompleteAcknowledge : Nat := 136
def MsgTypeForwardAccessContextNotification : Nat := 137
def MsgTypeForwardAccessContextAcknowledge : Nat := 138
def MsgTypeRelocationCancelRequest : Nat := 139
def MsgTypeRelocationCancelResponse : Nat := 140
def MsgTypeConfigurationTransferTunnel : Nat := 141
def MsgTypeDetachNotification : Nat := 149
def MsgTypeDetachAcknowledge : Nat := 150
def MsgTypeCSPagingIndication : Nat := 151
def MsgTypeRANInformationRelay : Nat := 152
def MsgTypeAlertMMENotification : Nat := 153
def MsgTypeAlertMMEAcknowledge : Nat := 154
def MsgTypeUEActivityNotification : Nat := 155
def MsgTypeUEActivityAcknowledge : Nat := 156
def MsgTypeISRStatusIndication : Nat := 157
def MsgTypeUERegistrationQueryRequest : Nat := 158
def MsgTypeUERegistrationQueryResponse : Nat := 159
def MsgTypeCreateForwardingTunnelRequest : Nat := 160
def MsgTypeCreateForwardingTunnelResponse : Nat := 161
def MsgTypeSuspendNotification : Nat := 162
def MsgTypeSuspendAcknowledge : Nat := 163
def MsgTypeResumeNotification : Nat := 164
def MsgTypeResumeAcknowledge : Nat := 165
def MsgTypeCreateIndirectDataForwardingTunnelRequest : Nat := 166
def MsgTypeCreateIndirectDataForwardingTunnelResponse : Nat := 167
def MsgTypeDeleteIndirectDataForwardingTunnelRequest : Nat := 168
def MsgTypeDeleteIndirectDataForwardingTunnelResponse : Nat := 169
def MsgTypeReleaseAccessBearersRequest : Nat := 170
def MsgTypeReleaseAccessBearersResponse : Nat := 171
def MsgTypeDownlinkDataNotification : Nat := 176
def MsgTypeDownlinkDataNotificationAcknowledge : Nat := 177
def MsgTypePGWRestartNotification : Nat := 179
def MsgTypePGWRestartNotificationAcknowledge : Nat := 180
def MsgTypeUpdatePDNConnectionSetRequest : Nat := 200
def MsgTypeUpdatePDNConnectionSetResponse : Nat := 201
def MsgTypeModifyAccessBearersRequest : Nat := 211
def MsgTypeModifyAccessBearersResponse : Nat := 212
def MsgTypeMBMSSessionStartRequest : Nat := 231
def MsgTypeMBMSSessionStartResponse : Nat := 232
def MsgTypeMBMSSessionUpdateRequest : Nat := 233
def MsgTypeMBMSSessionUpdateResponse : Nat := 234
def MsgTypeMBMSSessionStopRequest : Nat := 235
def MsgTypeMBMSSessionStopResponse : Nat := 236
def MsgTypeSRVCCCsToPsResponse : Nat := 240
def MsgTypeSRVCCCsToPsCompleteNotification : Nat := 241
def MsgTypeSRVCCCsToPsCompleteAcknowledge : Nat := 242
def MsgTypeSRVCCCsToPsCancelNotification : Nat := 243
def MsgTypeSRVCCCsToPsCancelAcknowledge : Nat := 244

/-- The message structs that `Parse` can select. -/
inductive MsgKind where
  | EchoRequest
  | EchoResponse
  | VersionNotSupportedIndication
  | CreateSessionRequest
  | CreateSessionResponse
  | DeleteSessionRequest
  | DeleteSessionResponse
  | ModifyBearerCommand
  | ModifyBearerFailureIndication
  | DeleteBearerCommand
  | DeleteBearerFailureIndication
  | DeleteBearerRequest
  | CreateBearerRequest
  | CreateBearerResponse
  | DeleteBearerResponse
  | ModifyBearerRequest
  | ModifyBearerResponse
  | ContextRequest
  | ContextResponse
  | ContextAcknowledge
  | ReleaseAccessBearersRequest
  | ReleaseAccessBearersResponse
  | StopPagingIndication
  | ModifyAccessBearersRequest
  | ModifyAccessBearersResponse
  | DeletePDNConnectionSetRequest
  | DeletePDNConnectionSetResponse
  | UpdatePDNConnectionSetRequest
  | UpdatePDNConnectionSetResponse
  | PGWRestartNotification
  | PGWRestartNotificationAcknowledge
  | DetachNotification
  | DetachAcknowledge
  | DownlinkDataNotification
  | DownlinkDataNotificationAcknowledge
  | DownlinkDataNotificationFailureIndication
  | Generic
  deriving DecidableEq, Repr

/-- The `switch b[1]` of `Parse`: the struct chosen for a message type code. -/
def selectMessage (t : Nat) : MsgKind :=
  if t = MsgTypeEchoRequest then .EchoRequest
  else if t = MsgTypeEchoResponse then .EchoResponse
  else if t = MsgTypeVersionNotSupportedIndication then .VersionNotSupportedIndication
  else if t = MsgTypeCreateSessionRequest then .CreateSessionRequest
  else if t = MsgTypeCreateSessionResponse then .CreateSessionResponse
  else if t = MsgTypeDeleteSessionRequest then .DeleteSessionRequest
  else if t = MsgTypeDeleteSessionResponse then .DeleteSessionResponse
  else if t = MsgTypeModifyBearerCommand then .ModifyBearerCommand
  else if t = MsgTypeModifyBearerFailureIndication then .ModifyBearerFailureIndication
  else if t = MsgTypeDeleteBearerCommand then .DeleteBearerCommand
  else if t = MsgTypeDeleteBearerFailureIndication then .DeleteBearerFailureIndication
  else if t = MsgTypeDeleteBearerRequest then .DeleteBearerRequest
  else if t = MsgTypeCreateBearerRequest then .CreateBearerRequest
  else if t = MsgTypeCreateBearerResponse then .CreateBearerResponse
  else if t = MsgTypeDeleteBearerResponse then .DeleteBearerResponse
  else if t = MsgTypeModifyBearerRequest then .ModifyBearerRequest
  else if t = MsgTypeModifyBearerResponse then .ModifyBearerResponse
  else if t = MsgTypeContextRequest then .ContextRequest
  else if t = MsgTypeContextResponse then .ContextResponse
  else if t = MsgTypeContextAcknowledge then .ContextAcknowledge
  else if t = MsgTypeReleaseAccessBearersRequest then .ReleaseAccessBearersRequest
  else if t = MsgTypeReleaseAccessBearersResponse then .ReleaseAccessBearersResponse
  else if t = MsgTypeStopPagingIndication then .StopPagingIndication
  else if t = MsgTypeModifyAccessBearersRequest then .ModifyAccessBearersRequest
  else if t = MsgTypeModifyAccessBearersResponse then .ModifyAccessBearersResponse
  else if t = MsgTypeDeletePDNConnectionSetRequest then .DeletePDNConnectionSetRequest
  else if t = MsgTypeDeletePDNConnectionSetResponse then .DeletePDNConnectionSetResponse
  else if t = MsgTypeUpdatePDNConnectionSetRequest then .UpdatePDNConnectionSetRequest
  else if t = MsgTypeUpdatePDNConnectionSetResponse then .UpdatePDNConnectionSetResponse
  else if t = MsgTypePGWRestartNotification then .PGWRestartNotification
  else if t = MsgTypePGWRestartNotificationAcknowledge then .PGWRestartNotificationAcknowledge
  else if t = MsgTypeDetachNotification then .DetachNotification
  else if t = MsgTypeDetachAcknowledge then .DetachAcknowledge
  else if t = MsgTypeDownlinkDataNotification then .DownlinkDataNotification
  else if t = MsgTypeDownlinkDataNotificationAcknowledge then .DownlinkDataNotificationAcknowledge
  else if t = MsgTypeDownlinkDataNotificationFailureIndication then .DownlinkDataNotificationFailureIndication
  else .Generic

/-- Error built by `Parse`:
`fmt.Errorf("failed to decode GTPv2 Message: %w", err)`. -/
inductive ParseError (ε : Type) where
  | failedToDecode (cause : ε)
  deriving DecidableEq, Repr

/-- Function `Parse` of package `gtpv2/message`.  The decoders of the message structs are
not part of the sources at hand; `UnmarshalBinary k b` stands for
`(&K{}).UnmarshalBinary(b)` of the struct `k` and yields the decoded message. -/
def Parse {μ ε : Type} (UnmarshalBinary : MsgKind → List Nat → Res ε μ) (b : List Nat) :
    Res (ParseError ε) μ :=
  match index (ε := ParseError ε) b 1 with
  | .ok t =>
    match UnmarshalBinary (selectMessage t) b with
    | .ok m => .ok m
    | .err e => .err (.failedToDecode e)
    | .panic => .panic
    | .diverge => .diverge
  | .err e => .err e
  | .panic => .panic
  | .diverge => .diverge

end Gtpv2Message

namespace Gtpv1Message

/-! Message type definitions of package `gtpv1/message` (the `const` block, `iota` counted
from the blank first entry). -/

def MsgTypeEchoRequest : Nat := 1
def MsgTypeEchoResponse : Nat := 2
def MsgTypeVersionNotSupported : Nat := 3
def MsgTypeNodeAliveRequest : Nat := 4
def MsgTypeNodeAliveResponse : Nat := 5
def MsgTypeRedirectionRequest : Nat := 6
def MsgTypeRedirectionResponse : Nat := 7
def MsgTypeCreatePDPContextRequest : Nat := 16
def MsgTypeCreatePDPContextResponse : Nat := 17
def MsgTypeUpdatePDPContextRequest : Nat := 18
def MsgTypeUpdatePDPContextResponse : Nat := 19
def MsgTypeDeletePDPContextRequest : Nat := 20
def MsgTypeDeletePDPContextResponse : Nat := 21
def MsgTypeCreateAAPDPContextRequest : Nat := 22
def MsgTypeCreateAAPDPContextResponse : Nat := 23
def MsgTypeDeleteAAPDPContextRequest : Nat := 24
def MsgTypeDeleteAAPDPContextResponse : Nat := 25
def MsgTypeErrorIndication : Nat := 26
def MsgTypePDUNotificationRequest : Nat := 27
def MsgTypePDUNotificationResponse : Nat := 28
def MsgTypePDUNotificationRejectRequest : Nat := 29
def MsgTypePDUNotificationRejectResponse : Nat := 30
def MsgTypeSendRoutingInfoRequest : Nat := 32
def MsgTypeSendRoutingInfoResponse : Nat := 33
def MsgTypeFailureReportRequest : Nat := 34
def MsgTypeFailureReportResponse : Nat := 35
def MsgTypeNoteMSPresentRequest : Nat := 36
def MsgTypeNoteMSPresentResponse : Nat := 37
def MsgTypeIdentificationRequest : Nat := 56
def MsgTypeIdentificationResponse : Nat := 57
def MsgTypeSGSNContextRequest : Nat := 58
def MsgTypeSGSNContextResponse : Nat := 59
def MsgTypeSGSNContextAcknowledge : Nat := 60
def MsgTypeDataRecordTransferRequest : Nat := 240
def MsgTypeDataRecordTransferResponse : Nat := 241
def MsgTypeTPDU : Nat := 255

/-- The message structs that `Parse` can select. -/
inductive MsgKind where
  | EchoRequest
  | EchoResponse
  | CreatePDPContextRequest
  | CreatePDPContextResponse
  | UpdatePDPContextRequest
  | UpdatePDPContextResponse
  | DeletePDPContextRequest
  | VersionNotSupported
  | DeletePDPContextResponse
  | ErrorIndication
  | TPDU
  | Generic
  deriving DecidableEq, Repr

/-- The `switch b[1]` of `Parse`: the struct chosen for a message type code. -/
def selectMessage (t : Nat) : MsgKind :=
  if t = MsgTypeEchoRequest then .EchoRequest
  else if t = MsgTypeEchoResponse then .EchoResponse
  else if t = MsgTypeCreatePDPContextRequest then .CreatePDPContextRequest
  else if t = MsgTypeCreatePDPContextResponse then .CreatePDPContextResponse
  else if t = MsgTypeUpdatePDPContextRequest then .UpdatePDPContextRequest
  else if t = MsgTypeUpdatePDPContextResponse then .UpdatePDPContextResponse
  else if t = MsgTypeDeletePDPContextRequest then .DeletePDPContextRequest
  else if t = MsgTypeVersionNotSupported then .VersionNotSupported
  else if t = MsgTypeDeletePDPContextResponse then .DeletePDPContextResponse
  else if t = MsgTypeErrorIndication then .ErrorIndication
  else if t = MsgTypeTPDU then .TPDU
  else .Generic

/-- Function `Parse` of package `gtpv1/message`.  The decoders of the message structs are
not part of the sources at hand; `UnmarshalBinary k b` stands for
`(&K{}).UnmarshalBinary(b)` of the struct `k` and yields the decoded message. -/
def Parse {μ ε : Type} (UnmarshalBinary : MsgKind → List Nat → Res ε μ) (b : List Nat) :
    Res ε μ :=
  match index (ε := ε) b 1 with
  | .ok t =>
    match UnmarshalBinary (selectMessage t) b with
    | .ok m => .ok m
    | .err e => .err e
    | .panic => .panic
    | .diverge => .diverge
  | .err e => .err e
  | .panic => .panic
  | .diverge => .diverge

end Gtpv1Message

/-! ## The Generic message -/

namespace Gtpv2Message

/-- The type codes with a case of their own in the `switch` of `Parse` of package
`gtpv2/message`, in the order of the cases. -/
def registeredTypes : List Nat :=
  [
   MsgTypeEchoRequest, MsgTypeEchoResponse, MsgTypeVersionNotSupportedIndication,
   MsgTypeCreateSessionRequest, MsgTypeCreateSessionResponse, MsgTypeDeleteSessionRequest,
   MsgTypeDeleteSessionResponse, MsgTypeModifyBearerCommand,
   MsgTypeModifyBearerFailureIndication, MsgTypeDeleteBearerCommand,
   MsgTypeDeleteBearerFailureIndication, MsgTypeDeleteBearerRequest, MsgTypeCreateBearerRequest,
   MsgTypeCreateBearerResponse, MsgTypeDeleteBearerResponse, MsgTypeModifyBearerRequest,
   MsgTypeModifyBearerResponse, MsgTypeContextRequest, MsgTypeContextResponse,
   MsgTypeContextAcknowledge, MsgTypeReleaseAccessBearersRequest,
   MsgTypeReleaseAccessBearersResponse, MsgTypeStopPagingIndication,
   MsgTypeModifyAccessBearersRequest, MsgTypeModifyAccessBearersResponse,
   MsgTypeDeletePDNConnectionSetRequest, MsgTypeDeletePDNConnectionSetResponse,
   MsgTypeUpdatePDNConnectionSetRequest, MsgTypeUpdatePDNConnectionSetResponse,
   MsgTypePGWRestartNotification, MsgTypePGWRestartNotificationAcknowledge,
   MsgTypeDetachNotification, MsgTypeDetachAcknowledge, MsgTypeDownlinkDataNotification,
   MsgTypeDownlinkDataNotificationAcknowledge, MsgTypeDownlinkDataNotificationFailureIndication]

/-- Function `Marshal` of package `gtpv2/message`, for a message type with the
methods `MarshalLen` and `MarshalTo`. -/
def Marshal {μ ε : Type} (MarshalLen : μ → Nat) (MarshalTo : μ → List Nat → Res ε (List Nat))
    (m : μ) : Res ε (List Nat) :=
  MarshalTo m (List.replicate (MarshalLen m) 0)

/-- Modelled from the spec: the struct `Generic` of package `gtpv2/message`, which
is not in the sources at hand.  It preserves the original type code and keeps the
rest of the buffer: the header bytes as they are and the body as a decoded IE
sequence. -/
structure Generic where
  flags : Nat
  msgType : Nat
  headerRest : List Nat
  IEs : List IE

/-- Modelled from the spec: the method `UnmarshalBinary` of `Generic`, which is not
in the sources at hand.  Byte 0 holds the version discriminator and the flag bits,
byte 1 the message-type code; `extra flags` is the number of header bytes after
these two, determined by the flag bits; the body is decoded by `ParseMultiIEs`. -/
def Generic.UnmarshalBinary (extra : Nat → Nat) (b : List Nat) : Res Err Generic :=
  match b with
  | flags :: t :: rest =>
    if rest.length < extra flags then .err .ErrUnexpectedEOF
    else
      (ParseMultiIEs (rest.drop (extra flags))).bind fun ies =>
      .ok ⟨flags, t, rest.take (extra flags), ies⟩
  | _ => .err .ErrUnexpectedEOF

/-- Modelled from the spec: the method `MessageType` of `Generic`, which is not in
the sources at hand: the preserved type code. -/
def Generic.MessageType (g : Generic) : Nat :=
  g.msgType

/-- Modelled from the spec: the method `MarshalLen` of `Generic`, which is not in
the sources at hand: the header and the encoded size of every IE. -/
def Generic.MarshalLen (g : Generic) : Nat :=
  2 + g.headerRest.length + (g.IEs.map GoGtp.MarshalLen).sum

/-- Modelled from the spec: the method `MarshalTo` of `Generic`, which is not in
the sources at hand: the header is written, then each IE is written by the IE
codec; a buffer smaller than the encoded size is an error. -/
def Generic.MarshalTo (g : Generic) (b : List Nat) : Res Err (List Nat) :=
  if b.length < g.MarshalLen then .err .ErrUnexpectedEOF
  else
    .ok ((g.flags :: g.msgType :: g.headerRest ++ (g.IEs.map marshalBytes).flatten)
      ++ b.drop g.MarshalLen)

/-- The decoders handed to `Parse`: the modelled `Generic` decoder for the struct
`Generic`, and `other` for the registered structs. -/
def decoders {μ : Type} (extra : Nat → Nat) (other : MsgKind → List Nat → Res Err μ)
    (k : MsgKind) (b : List Nat) : Res Err (μ ⊕ Generic) :=
  match k with
  | .Generic => (Generic.UnmarshalBinary extra b).bind fun g => .ok (Sum.inr g)
  | k => (other k b).bind fun m => .ok (Sum.inl m)

end Gtpv2Message

namespace Gtpv1Message

/-- The type codes with a case of their own in the `switch` of `Parse` of package
`gtpv1/message`, in the order of the cases. -/
def registeredTypes : List Nat :=
  [
   MsgTypeEchoRequest, MsgTypeEchoResponse, MsgTypeCreatePDPContextRequest,
   MsgTypeCreatePDPContextResponse, MsgTypeUpdatePDPContextRequest,
   MsgTypeUpdatePDPContextResponse, MsgTypeDeletePDPContextRequest, MsgTypeVersionNotSupported,
   MsgTypeDeletePDPContextResponse, MsgTypeErrorIndication, MsgTypeTPDU]

/-- Function `Marshal` of package `gtpv1/message`, for a message type with the
methods `MarshalLen` and `MarshalTo`. -/
def Marshal {μ ε : Type} (MarshalLen : μ → Nat) (MarshalTo : μ → List Nat → Res ε (List Nat))
    (g : μ) : Res ε (List Nat) :=
  MarshalTo g (List.replicate (MarshalLen g) 0)

/-- Modelled from the spec: the struct `Generic` of package `gtpv1/message`, which
is not in the sources at hand.  It preserves the original type code and keeps the
undecoded remainder of the buffer as raw bytes. -/
structure Generic where
  flags : Nat
  msgType : Nat
  raw : List Nat

/-- Modelled from the spec: the method `UnmarshalBinary` of `Generic`, which is not
in the sources at hand.  Byte 0 holds the version discriminator and the flag bits,
byte 1 the message-type code; what follows is stored verbatim. -/
def Generic.UnmarshalBinary (b : List Nat) : Res Err Generic :=
  match b with
  | flags :: t :: rest => .ok ⟨flags, t, rest⟩
  | _ => .err .ErrUnexpectedEOF

/-- Modelled from the spec: the method `MessageType` of `Generic`, which is not in
the sources at hand: the preserved type code. -/
def Generic.MessageType (g : Generic) : Nat :=
  g.msgType

/-- Modelled from the spec: the method `MarshalLen` of `Generic`, which is not in
the sources at hand. -/
def Generic.MarshalLen (g : Generic) : Nat :=
  2 + g.raw.length

/-- Modelled from the spec: the method `MarshalTo` of `Generic`, which is not in
the sources at hand; a buffer smaller than the encoded size is an error. -/
def Generic.MarshalTo (g : Generic) (b : List Nat) : Res Err (List Nat) :=
  if b.length < g.MarshalLen then .err .ErrUnexpectedEOF
  else .ok ((g.flags :: g.msgType :: g.raw) ++ b.drop g.MarshalLen)

/-- The decoders handed to `Parse`: the modelled `Generic` decoder for the struct
`Generic`, and `other` for the registered structs. -/
def decoders {μ : Type} (other : MsgKind → List Nat → Res Err μ)
    (k : MsgKind) (b : List Nat) : Res Err (μ ⊕ Generic) :=
  match k with
  | .Generic => (Generic.UnmarshalBinary b).bind fun g => .ok (Sum.inr g)
  | k => (other k b).bind fun m => .ok (Sum.inl m)

end Gtpv1Message

/-! ## Names of message types -/

namespace Gtpv2Message

/-- Function `MsgTypeStr` of package `gtpv2/message`: the `switch` over the named
constants; the `default` case is `strconv.FormatUint(uint64(msgType), 10)`. -/
def MsgTypeStr (msgType : Nat) : String :=
  if msgType = MsgTypeEchoRequest then "EchoRequest"
  else if msgType = MsgTypeEchoResponse then "EchoResponse"
  else if msgType = MsgTypeVersionNotSupportedIndication then "VersionNotSupportedIndication"
  else if msgType = MsgTypeDirectTransferRequest then "DirectTransferRequest"
  else if msgType = MsgTypeDirectTransferResponse then "DirectTransferResponse"
  else if msgType = MsgTypeNotificationRequest then "NotificationRequest"
  else if msgType = MsgTypeNotificationResponse then "NotificationResponse"
  else if msgType = MsgTypeRIMInformationTransfer then "RIMInformationTransfer"
  else if msgType = MsgTypeSRVCCPsToCsRequest then "SRVCCPsToCsRequest"
  else if msgType = MsgTypeSRVCCPsToCsResponse then "SRVCCPsToCsResponse"
  else if msgType = MsgTypeSRVCCPsToCsCompleteNotification then "SRVCCPsToCsCompleteNotification"
  else if msgType = MsgTypeSRVCCPsToCsCompleteAcknowledge then "SRVCCPsToCsCompleteAcknowledge"
  else if msgType = MsgTypeSRVCCPsToCsCancelNotification then "SRVCCPsToCsCancelNotification"
  else if msgType = MsgTypeSRVCCPsToCsCancelAcknowledge then "SRVCCPsToCsCancelAcknowledge"
  else if msgType = MsgTypeSRVCCCsToPsRequest then "SRVCCCsToPsRequest"
  else if msgType = MsgTypeCreateSessionRequest then "CreateSessionRequest"
  else if msgType = MsgTypeCreateSessionResponse then "CreateSessionResponse"
  else if msgType = MsgTypeModifyBearerRequest then "ModifyBearerRequest"
  else if msgType = MsgTypeModifyBearerResponse then "ModifyBearerResponse"
  else if msgType = MsgTypeDeleteSessionRequest then "ModifyBearerResponse"
  else if msgType = MsgTypeDeleteSessionResponse then "DeleteSessionResponse"
  else if msgType = MsgTypeChangeNotificationRequest then "ChangeNotificationRequest"
  else if msgType = MsgTypeChangeNotificationResponse then "ChangeNotificationResponse"
  else if msgType = MsgTypeRemoteUEReportNotification then "RemoteUEReportNotification"
  else if msgType = MsgTypeRemoteUEReportAcknowledge then "RemoteUEReportAcknowledge"
  else if msgType = MsgTypeModifyBearerCommand then "ModifyBearerCommand"
  else if msgType = MsgTypeModifyBearerFailureIndication then "ModifyBearerFailureIndication"
  else if msgType = MsgTypeDeleteBearerCommand then "DeleteBearerCommand"
  else if msgType = MsgTypeDeleteBearerFailureIndication then "DeleteBearerFailureIndication"
  else if msgType = MsgTypeBearerResourceCommand then "BearerResourceCommand"
  else if msgType = MsgTypeBearerResourceFailureIndication then "BearerResourceFailureIndication"
  else if msgType = MsgTypeDownlinkDataNotificationFailureIndication then "DownlinkDataNotificationFailureIndication"
  else if msgType = MsgTypeTraceSessionActivation then "TraceSessionActivation"
  else if msgType = MsgTypeTraceSessionDeactivation then "TraceSessionDeactivation"
  else if msgType = MsgTypeStopPagingIndication then "StopPagingIndication"
  else if msgType = MsgTypeCreateBearerRequest then "CreateBearerRequest"
  else if msgType = MsgTypeCreateBearerResponse then "CreateBearerResponse"
  else if msgType = MsgTypeUpdateBearerRequest then "UpdateBearerRequest"
  else if msgType = MsgTypeUpdateBearerResponse then "UpdateBearerResponse"
  else if msgType = MsgTypeDeleteBearerRequest then "DeleteBearerRequest"
  else if msgType = MsgTypeDeleteBearerResponse then "DeleteBearerResponse"
  else if msgType = MsgTypeDeletePDNConnectionSetRequest then "DeletePDNConnectionSetRequest"
  else if msgType = MsgTypeDeletePDNConnectionSetResponse then "DeletePDNConnectionSetResponse"
  else if msgType = MsgTypePGWDownlinkTriggeringNotification then "PGWDownlinkTriggeringNotification"
  else if msgType = MsgTypePGWDownlinkTriggeringAcknowledge then "PGWDownlinkTriggeringAcknowledge"
  else if msgType = MsgTypeIdentificationRequest then "IdentificationRequest"
  else if msgType = MsgTypeIdentificationResponse then "IdentificationResponse"
  else if msgType = MsgTypeContextRequest then "ContextRequest"
  else if msgType = MsgTypeContextResponse then "ContextResponse"
  else if msgType = MsgTypeContextAcknowledge then "ContextAcknowledge"
  else if msgType = MsgTypeForwardRelocationRequest then "ForwardRelocationRequest"
  else if msgType = MsgTypeForwardRelocationResponse then "ForwardRelocationResponse"
  else if msgType = MsgTypeForwardRelocationCompleteNotification then "ForwardRelocationCompleteNotification"
  else if msgType = MsgTypeForwardRelocationCompleteAcknowledge then "ForwardRelocationCompleteAcknowledge"
  else if msgType = MsgTypeForwardAccessContextNotification then "ForwardAccessContextNotification"
  else if msgType = MsgTypeForwardAccessContextAcknowledge then "ForwardAccessContextAcknowledge"
  else if msgType = MsgTypeRelocationCancelRequest then "RelocationCancelRequest"
  else if msgType = MsgTypeRelocationCancelResponse then "RelocationCancelResponse"
  else if msgType = MsgTypeConfigurationTransferTunnel then "ConfigurationTransferTunnel"
  else if msgType = MsgTypeDetachNotification then "DetachNotification"
  else if msgType = MsgTypeDetachAcknowledge then "DetachAcknowledge"
  else if msgType = MsgTypeCSPagingIndication then "CSPagingIndication"
  else if msgType = MsgTypeRANInformationRelay then "RANInformationRelay"
  else if msgType = MsgTypeAlertMMENotification then "AlertMMENotification"
  else if msgType = MsgTypeAlertMMEAcknowledge then "AlertMMEAcknowledge"
  else if msgType = MsgTypeUEActivityNotification then "UEActivityNotification"
  else if msgType = MsgTypeUEActivityAcknowledge then "UEActivityAcknowledge"
  else if msgType = MsgTypeISRStatusIndication then "ISRStatusIndication"
  else if msgType = MsgTypeUERegistrationQueryRequest then "UERegistrationQueryRequest"
  else if msgType = MsgTypeUERegistrationQueryResponse then "UERegistrationQueryResponse"
  else if msgType = MsgTypeCreateForwardingTunnelRequest then "CreateForwardingTunnelRequest"
  else if msgType = MsgTypeCreateForwardingTunnelResponse then "CreateForwardingTunnelResponse"
  else if msgType = MsgTypeSuspendNotification then "SuspendNotification"
  else if msgType = MsgTypeSuspendAcknowledge then "SuspendAcknowledge"
  else if msgType = MsgTypeResumeNotification then "ResumeNotification"
  else if msgType = MsgTypeResumeAcknowledge then "ResumeAcknowledge"
  else if msgType = MsgTypeCreateIndirectDataForwardingTunnelRequest then "CreateIndirectDataForwardingTunnelRequest"
  else if msgType = MsgTypeCreateIndirectDataForwardingTunnelResponse then "CreateIndirectDataForwardingTunnelResponse"
  else if msgType = MsgTypeDeleteIndirectDataForwardingTunnelRequest then "DeleteIndirectDataForwardingTunnelRequest"
  else if msgType = MsgTypeDeleteIndirectDataForwardingTunnelResponse then "DeleteIndirectDataForwardingTunnelResponse"
  else if msgType = MsgTypeReleaseAccessBearersRequest then "ReleaseAccessBearersRequest"
  else if msgType = MsgTypeReleaseAccessBearersResponse then "ReleaseAccessBearersResponse"
  else if msgType = MsgTypeDownlinkDataNotification then "DownlinkDataNotification"
  else if msgType = MsgTypeDownlinkDataNotificationAcknowledge then "DownlinkDataNotificationAcknowledge"
  else if msgType = MsgTypePGWRestartNotification then "PGWRestartNotification"
  else if msgType = MsgTypePGWRestartNotificationAcknowledge then "PGWRestartNotificationAcknowledge"
  else if msgType = MsgTypeUpdatePDNConnectionSetRequest then "UpdatePDNConnectionSetRequest"
  else if msgType = MsgTypeUpdatePDNConnectionSetResponse then "UpdatePDNConnectionSetResponse"
  else if msgType = MsgTypeModifyAccessBearersRequest then "ModifyAccessBearersRequest"
  else if msgType = MsgTypeModifyAccessBearersResponse then "ModifyAccessBearersResponse"
  else if msgType = MsgTypeMBMSSessionStartRequest then "MBMSSessionStartRequest"
  else if msgType = MsgTypeMBMSSessionStartResponse then "MBMSSessionStartResponse"
  else if msgType = MsgTypeMBMSSessionUpdateRequest then "MBMSSessionUpdateRequest"
  else if msgType = MsgTypeMBMSSessionUpdateResponse then "MBMSSessionUpdateResponse"
  else if msgType = MsgTypeMBMSSessionStopRequest then "MBMSSessionStopRequest"
  else if msgType = MsgTypeMBMSSessionStopResponse then "MBMSSessionStopResponse"
  else if msgType = MsgTypeSRVCCCsToPsResponse then "SRVCCCsToPsResponse"
  else if msgType = MsgTypeSRVCCCsToPsCompleteNotification then "SRVCCCsToPsCompleteNotification"
  else if msgType = MsgTypeSRVCCCsToPsCompleteAcknowledge then "SRVCCCsToPsCompleteAcknowledge"
  else if msgType = MsgTypeSRVCCCsToPsCancelNotification then "SRVCCCsToPsCancelNotification"
  else if msgType = MsgTypeSRVCCCsToPsCancelAcknowledge then "SRVCCCsToPsCancelAcknowledge"
  else Nat.repr msgType

/-- The named message type constants of the `const` block, in the order of their
declaration. -/
def namedTypes : List Nat :=
  [MsgTypeEchoRequest, MsgTypeEchoResponse, MsgTypeVersionNotSupportedIndication,
   MsgTypeDirectTransferRequest, MsgTypeDirectTransferResponse, MsgTypeNotificationRequest,
   MsgTypeNotificationResponse, MsgTypeRIMInformationTransfer, MsgTypeSRVCCPsToCsRequest,
   MsgTypeSRVCCPsToCsResponse, MsgTypeSRVCCPsToCsCompleteNotification,
   MsgTypeSRVCCPsToCsCompleteAcknowledge, MsgTypeSRVCCPsToCsCancelNotification,
   MsgTypeSRVCCPsToCsCancelAcknowledge, MsgTypeSRVCCCsToPsRequest, MsgTypeCreateSessionRequest,
   MsgTypeCreateSessionResponse, MsgTypeModifyBearerRequest, MsgTypeModifyBearerResponse,
   MsgTypeDeleteSessionRequest, MsgTypeDeleteSessionResponse, MsgTypeChangeNotificationRequest,
   MsgTypeChangeNotificationResponse, MsgTypeRemoteUEReportNotification,
   MsgTypeRemoteUEReportAcknowledge, MsgTypeModifyBearerCommand,
   MsgTypeModifyBearerFailureIndication, MsgTypeDeleteBearerCommand,
   MsgTypeDeleteBearerFailureIndication, MsgTypeBearerResourceCommand,
   MsgTypeBearerResourceFailureIndication, MsgTypeDownlinkDataNotificationFailureIndication,
   MsgTypeTraceSessionActivation, MsgTypeTraceSessionDeactivation, MsgTypeStopPagingIndication,
   MsgTypeCreateBearerRequest, MsgTypeCreateBearerResponse, MsgTypeUpdateBearerRequest,
   MsgTypeUpdateBearerResponse, MsgTypeDeleteBearerRequest, MsgTypeDeleteBearerResponse,
   MsgTypeDeletePDNConnectionSetRequest, MsgTypeDeletePDNConnectionSetResponse,
   MsgTypePGWDownlinkTriggeringNotification, MsgTypePGWDownlinkTriggeringAcknowledge,
   MsgTypeIdentificationRequest, MsgTypeIdentificationResponse, MsgTypeContextRequest,
   MsgTypeContextResponse, MsgTypeContextAcknowledge, MsgTypeForwardRelocationRequest,
   MsgTypeForwardRelocationResponse, MsgTypeForwardRelocationCompleteNotification,
   MsgTypeForwardRelocationCompleteAcknowledge, MsgTypeForwardAccessContextNotification,
   MsgTypeForwardAccessContextAcknowledge, MsgTypeRelocationCancelRequest,
   MsgTypeRelocationCancelResponse, MsgTypeConfigurationTransferTunnel,
   MsgTypeDetachNotification, MsgTypeDetachAcknowledge, MsgTypeCSPagingIndication,
   MsgTypeRANInformationRelay, MsgTypeAlertMMENotification, MsgTypeAlertMMEAcknowledge,
   MsgTypeUEActivityNotification, MsgTypeUEActivityAcknowledge, MsgTypeISRStatusIndication,
   MsgTypeUERegistrationQueryRequest, MsgTypeUERegistrationQueryResponse,
   MsgTypeCreateForwardingTunnelRequest, MsgTypeCreateForwardingTunnelResponse,
   MsgTypeSuspendNotification, MsgTypeSuspendAcknowledge, MsgTypeResumeNotification,
   MsgTypeResumeAcknowledge, MsgTypeCreateIndirectDataForwardingTunnelRequest,
   MsgTypeCreateIndirectDataForwardingTunnelResponse,
   MsgTypeDeleteIndirectDataForwardingTunnelRequest,
   MsgTypeDeleteIndirectDataForwardingTunnelResponse, MsgTypeReleaseAccessBearersRequest,
   MsgTypeReleaseAccessBearersResponse, MsgTypeDownlinkDataNotification,
   MsgTypeDownlinkDataNotificationAcknowledge, MsgTypePGWRestartNotification,
   MsgTypePGWRestartNotificationAcknowledge, MsgTypeUpdatePDNConnectionSetRequest,
   MsgTypeUpdatePDNConnectionSetResponse, MsgTypeModifyAccessBearersRequest,
   MsgTypeModifyAccessBearersResponse, MsgTypeMBMSSessionStartRequest,
   MsgTypeMBMSSessionStartResponse, MsgTypeMBMSSessionUpdateRequest,
   MsgTypeMBMSSessionUpdateResponse, MsgTypeMBMSSessionStopRequest,
   MsgTypeMBMSSessionStopResponse, MsgTypeSRVCCCsToPsResponse,
   MsgTypeSRVCCCsToPsCompleteNotification, MsgTypeSRVCCCsToPsCompleteAcknowledge,
   MsgTypeSRVCCCsToPsCancelNotification, MsgTypeSRVCCCsToPsCancelAcknowledge]

/-- Reference table: every named constant `MsgTypeX` with the string `X`, its name
without the prefix `MsgType`. -/
def constantNames : List (Nat × String) :=
  [(MsgTypeEchoRequest, "EchoRequest"), (MsgTypeEchoResponse, "EchoResponse"),
   (MsgTypeVersionNotSupportedIndication, "VersionNotSupportedIndication"),
   (MsgTypeDirectTransferRequest, "DirectTransferRequest"),
   (MsgTypeDirectTransferResponse, "DirectTransferResponse"),
   (MsgTypeNotificationRequest, "NotificationRequest"),
   (MsgTypeNotificationResponse, "NotificationResponse"),
   (MsgTypeRIMInformationTransfer, "RIMInformationTransfer"),
   (MsgTypeSRVCCPsToCsRequest, "SRVCCPsToCsRequest"),
   (MsgTypeSRVCCPsToCsResponse, "SRVCCPsToCsResponse"),
   (MsgTypeSRVCCPsToCsCompleteNotification, "SRVCCPsToCsCompleteNotification"),
   (MsgTypeSRVCCPsToCsCompleteAcknowledge, "SRVCCPsToCsCompleteAcknowledge"),
   (MsgTypeSRVCCPsToCsCancelNotification, "SRVCCPsToCsCancelNotification"),
   (MsgTypeSRVCCPsToCsCancelAcknowledge, "SRVCCPsToCsCancelAcknowledge"),
   (MsgTypeSRVCCCsToPsRequest, "SRVCCCsToPsRequest"),
   (MsgTypeCreateSessionRequest, "CreateSessionRequest"),
   (MsgTypeCreateSessionResponse, "CreateSessionResponse"),
   (MsgTypeModifyBearerRequest, "ModifyBearerRequest"),
   (MsgTypeModifyBearerResponse, "ModifyBearerResponse"),
   (MsgTypeDeleteSessionRequest, "DeleteSessionRequest"),
   (MsgTypeDeleteSessionResponse, "DeleteSessionResponse"),
   (MsgTypeChangeNotificationRequest, "ChangeNotificationRequest"),
   (MsgTypeChangeNotificationResponse, "ChangeNotificationResponse"),
   (MsgTypeRemoteUEReportNotification, "RemoteUEReportNotification"),
   (MsgTypeRemoteUEReportAcknowledge, "RemoteUEReportAcknowledge"),
   (MsgTypeModifyBearerCommand, "ModifyBearerCommand"),
   (MsgTypeModifyBearerFailureIndication, "ModifyBearerFailureIndication"),
   (MsgTypeDeleteBearerCommand, "DeleteBearerCommand"),
   (MsgTypeDeleteBearerFailureIndication, "DeleteBearerFailureIndication"),
   (MsgTypeBearerResourceCommand, "BearerResourceCommand"),
   (MsgTypeBearerResourceFailureIndication, "BearerResourceFailureIndication"),
   (MsgTypeDownlinkDataNotificationFailureIndication, "DownlinkDataNotificationFailureIndication"),
   (MsgTypeTraceSessionActivation, "TraceSessionActivation"),
   (MsgTypeTraceSessionDeactivation, "TraceSessionDeactivation"),
   (MsgTypeStopPagingIndication, "StopPagingIndication"),
   (MsgTypeCreateBearerRequest, "CreateBearerRequest"),
   (MsgTypeCreateBearerResponse, "CreateBearerResponse"),
   (MsgTypeUpdateBearerRequest, "UpdateBearerRequest"),
   (MsgTypeUpdateBearerResponse, "UpdateBearerResponse"),
   (MsgTypeDeleteBearerRequest, "DeleteBearerRequest"),
   (MsgTypeDeleteBearerResponse, "DeleteBearerResponse"),
   (MsgTypeDeletePDNConnectionSetRequest, "DeletePDNConnectionSetRequest"),
   (MsgTypeDeletePDNConnectionSetResponse, "DeletePDNConnectionSetResponse"),
   (MsgTypePGWDownlinkTriggeringNotification, "PGWDownlinkTriggeringNotification"),
   (MsgTypePGWDownlinkTriggeringAcknowledge, "PGWDownlinkTriggeringAcknowledge"),
   (MsgTypeIdentificationRequest, "IdentificationRequest"),
   (MsgTypeIdentificationResponse, "IdentificationResponse"),
   (MsgTypeContextRequest, "ContextRequest"), (MsgTypeContextResponse, "ContextResponse"),
   (MsgTypeContextAcknowledge, "ContextAcknowledge"),
   (MsgTypeForwardRelocationRequest, "ForwardRelocationRequest"),
   (MsgTypeForwardRelocationResponse, "ForwardRelocationResponse"),
   (MsgTypeForwardRelocationCompleteNotification, "ForwardRelocationCompleteNotification"),
   (MsgTypeForwardRelocationCompleteAcknowledge, "ForwardRelocationCompleteAcknowledge"),
   (MsgTypeForwardAccessContextNotification, "ForwardAccessContextNotification"),
   (MsgTypeForwardAccessContextAcknowledge, "ForwardAccessContextAcknowledge"),
   (MsgTypeRelocationCancelRequest, "RelocationCancelRequest"),
   (MsgTypeRelocationCancelResponse, "RelocationCancelResponse"),
   (MsgTypeConfigurationTransferTunnel, "ConfigurationTransferTunnel"),
   (MsgTypeDetachNotification, "DetachNotification"),
   (MsgTypeDetachAcknowledge, "DetachAcknowledge"),
   (MsgTypeCSPagingIndication, "CSPagingIndication"),
   (MsgTypeRANInformationRelay, "RANInformationRelay"),
   (MsgTypeAlertMMENotification, "AlertMMENotification"),
   (MsgTypeAlertMMEAcknowledge, "AlertMMEAcknowledge"),
   (MsgTypeUEActivityNotification, "UEActivityNotification"),
   (MsgTypeUEActivityAcknowledge, "UEActivityAcknowledge"),
   (MsgTypeISRStatusIndication, "ISRStatusIndication"),
   (MsgTypeUERegistrationQueryRequest, "UERegistrationQueryRequest"),
   (MsgTypeUERegistrationQueryResponse, "UERegistrationQueryResponse"),
   (MsgTypeCreateForwardingTunnelRequest, "CreateForwardingTunnelRequest"),
   (MsgTypeCreateForwardingTunnelResponse, "CreateForwardingTunnelResponse"),
   (MsgTypeSuspendNotification, "SuspendNotification"),
   (MsgTypeSuspendAcknowledge, "SuspendAcknowledge"),
   (MsgTypeResumeNotification, "ResumeNotification"),
   (MsgTypeResumeAcknowledge, "ResumeAcknowledge"),
   (MsgTypeCreateIndirectDataForwardingTunnelRequest, "CreateIndirectDataForwardingTunnelRequest"),
   (MsgTypeCreateIndirectDataForwardingTunnelResponse, "CreateIndirectDataForwardingTunnelResponse"),
   (MsgTypeDeleteIndirectDataForwardingTunnelRequest, "DeleteIndirectDataForwardingTunnelRequest"),
   (MsgTypeDeleteIndirectDataForwardingTunnelResponse, "DeleteIndirectDataForwardingTunnelResponse"),
   (MsgTypeReleaseAccessBearersRequest, "ReleaseAccessBearersRequest"),
   (MsgTypeReleaseAccessBearersResponse, "ReleaseAccessBearersResponse"),
   (MsgTypeDownlinkDataNotification, "DownlinkDataNotification"),
   (MsgTypeDownlinkDataNotificationAcknowledge, "DownlinkDataNotificationAcknowledge"),
   (MsgTypePGWRestartNotification, "PGWRestartNotification"),
   (MsgTypePGWRestartNotificationAcknowledge, "PGWRestartNotificationAcknowledge"),
   (MsgTypeUpdatePDNConnectionSetRequest, "UpdatePDNConnectionSetRequest"),
   (MsgTypeUpdatePDNConnectionSetResponse, "UpdatePDNConnectionSetResponse"),
   (MsgTypeModifyAccessBearersRequest, "ModifyAccessBearersRequest"),
   (MsgTypeModifyAccessBearersResponse, "ModifyAccessBearersResponse"),
   (MsgTypeMBMSSessionStartRequest, "MBMSSessionStartRequest"),
   (MsgTypeMBMSSessionStartResponse, "MBMSSessionStartResponse"),
   (MsgTypeMBMSSessionUpdateRequest, "MBMSSessionUpdateRequest"),
   (MsgTypeMBMSSessionUpdateResponse, "MBMSSessionUpdateResponse"),
   (MsgTypeMBMSSessionStopRequest, "MBMSSessionStopRequest"),
   (MsgTypeMBMSSessionStopResponse, "MBMSSessionStopResponse"),
   (MsgTypeSRVCCCsToPsResponse, "SRVCCCsToPsResponse"),
   (MsgTypeSRVCCCsToPsCompleteNotification, "SRVCCCsToPsCompleteNotification"),
   (MsgTypeSRVCCCsToPsCompleteAcknowledge, "SRVCCCsToPsCompleteAcknowledge"),
   (MsgTypeSRVCCCsToPsCancelNotification, "SRVCCCsToPsCancelNotification"),
   (MsgTypeSRVCCCsToPsCancelAcknowledge, "SRVCCCsToPsCancelAcknowledge")]

end Gtpv2Message

namespace Gtpv1Message

/-- The entries of the `const` block of package `gtpv1/message` that take their
value from `iota`, one per line of the source, in order; `_` is a blank entry. -/
def iotaBlock : List String :=
  [
   "_", "MsgTypeEchoRequest", "MsgTypeEchoResponse", "MsgTypeVersionNotSupported",
   "MsgTypeNodeAliveRequest", "MsgTypeNodeAliveResponse", "MsgTypeRedirectionRequest",
   "MsgTypeRedirectionResponse", "_", "_", "_", "_", "_", "_", "_", "_",
   "MsgTypeCreatePDPContextRequest", "MsgTypeCreatePDPContextResponse",
   "MsgTypeUpdatePDPContextRequest", "MsgTypeUpdatePDPContextResponse",
   "MsgTypeDeletePDPContextRequest", "MsgTypeDeletePDPContextResponse",
   "MsgTypeCreateAAPDPContextRequest", "MsgTypeCreateAAPDPContextResponse",
   "MsgTypeDeleteAAPDPContextRequest", "MsgTypeDeleteAAPDPContextResponse",
   "MsgTypeErrorIndication", "MsgTypePDUNotificationRequest", "MsgTypePDUNotificationResponse",
   "MsgTypePDUNotificationRejectRequest", "MsgTypePDUNotificationRejectResponse", "_",
   "MsgTypeSendRoutingInfoRequest", "MsgTypeSendRoutingInfoResponse",
   "MsgTypeFailureReportRequest", "MsgTypeFailureReportResponse", "MsgTypeNoteMSPresentRequest",
   "MsgTypeNoteMSPresentResponse", "_", "_", "_", "_", "_", "_", "_", "_", "_", "_", "_", "_",
   "_", "_", "_", "_", "_", "_", "MsgTypeIdentificationRequest",
   "MsgTypeIdentificationResponse", "MsgTypeSGSNContextRequest", "MsgTypeSGSNContextResponse",
   "MsgTypeSGSNContextAcknowledge"]

/-- Value that `iota` gives to the entry `name` of the block: its position. -/
def iotaValue (name : String) : Nat :=
  iotaBlock.indexOf name

/-- Function `MsgTypeStr` of package `gtpv1/message`: the `switch` over the named
constants; the `default` case is `strconv.FormatUint(uint64(msgType), 10)`. -/
def MsgTypeStr (msgType : Nat) : String :=
  if msgType = MsgTypeEchoRequest then "EchoRequest"
  else if msgType = MsgTypeEchoResponse then "EchoResponse"
  else if msgType = MsgTypeVersionNotSupported then "VersionNotSupported"
  else if msgType = MsgTypeNodeAliveRequest then "NodeAliveRequest"
  else if msgType = MsgTypeNodeAliveResponse then "NodeAliveResponse"
  else if msgType = MsgTypeRedirectionRequest then "RedirectionRequest"
  else if msgType = MsgTypeRedirectionResponse then "RedirectionResponse"
  else if msgType = MsgTypeCreatePDPContextRequest then "CreatePDPContextRequest"
  else if msgType = MsgTypeCreatePDPContextResponse then "CreatePDPContextResponse"
  else if msgType = MsgTypeUpdatePDPContextRequest then "UpdatePDPContextRequest"
  else if msgType = MsgTypeUpdatePDPContextResponse then "UpdatePDPContextResponse"
  else if msgType = MsgTypeDeletePDPContextRequest then "DeletePDPContextRequest"
  else if msgType = MsgTypeDeletePDPContextResponse then "DeletePDPContextResponse"
  else if msgType = MsgTypeCreateAAPDPContextRequest then "CreateAAPDPContextRequest"
  else if msgType = MsgTypeCreateAAPDPContextResponse then "CreateAAPDPContextResponse"
  else if msgType = MsgTypeDeleteAAPDPContextRequest then "DeleteAAPDPContextRequest"
  else if msgType = MsgTypeDeleteAAPDPContextResponse then "DeleteAAPDPContextResponse"
  else if msgType = MsgTypeErrorIndication then "ErrorIndication"
  else if msgType = MsgTypePDUNotificationRequest then "PDUNotificationRequest"
  else if msgType = MsgTypePDUNotificationResponse then "PDUNotificationResponse"
  else if msgType = MsgTypePDUNotificationRejectRequest then "PDUNotificationRejectRequest"
  else if msgType = MsgTypePDUNotificationRejectResponse then "PDUNotificationRejectResponse"
  else if msgType = MsgTypeSendRoutingInfoRequest then "SendRoutingInfoRequest"
  else if msgType = MsgTypeSendRoutingInfoResponse then "SendRoutingInfoResponse"
  else if msgType = MsgTypeFailureReportRequest then "FailureReportRequest"
  else if msgType = MsgTypeFailureReportResponse then "FailureReportResponse"
  else if msgType = MsgTypeNoteMSPresentRequest then "NoteMSPresentRequest"
  else if msgType = MsgTypeNoteMSPresentResponse then "NoteMSPresentResponse"
  else if msgType = MsgTypeIdentificationRequest then "IdentificationRequest"
  else if msgType = MsgTypeIdentificationResponse then "IdentificationResponse"
  else if msgType = MsgTypeSGSNContextRequest then "SGSNContextRequest"
  else if msgType = MsgTypeSGSNContextResponse then "SGSNContextResponse"
  else if msgType = MsgTypeSGSNContextAcknowledge then "SGSNContextAcknowledge"
  else if msgType = MsgTypeDataRecordTransferRequest then "DataRecordTransferRequest"
  else if msgType = MsgTypeDataRecordTransferResponse then "DataRecordTransferResponse"
  else if msgType = MsgTypeTPDU then "TPDU"
  else Nat.repr msgType

/-- The named message type constants of the `const` block, in the order of their
declaration. -/
def namedTypes : List Nat :=
  [MsgTypeEchoRequest, MsgTypeEchoResponse, MsgTypeVersionNotSupported, MsgTypeNodeAliveRequest,
   MsgTypeNodeAliveResponse, MsgTypeRedirectionRequest, MsgTypeRedirectionResponse,
   MsgTypeCreatePDPContextRequest, MsgTypeCreatePDPContextResponse,
   MsgTypeUpdatePDPContextRequest, MsgTypeUpdatePDPContextResponse,
   MsgTypeDeletePDPContextRequest, MsgTypeDeletePDPContextResponse,
   MsgTypeCreateAAPDPContextRequest, MsgTypeCreateAAPDPContextResponse,
   MsgTypeDeleteAAPDPContextRequest, MsgTypeDeleteAAPDPContextResponse, MsgTypeErrorIndication,
   MsgTypePDUNotificationRequest, MsgTypePDUNotificationResponse,
   MsgTypePDUNotificationRejectRequest, MsgTypePDUNotificationRejectResponse,
   MsgTypeSendRoutingInfoRequest, MsgTypeSendRoutingInfoResponse, MsgTypeFailureReportRequest,
   MsgTypeFailureReportResponse, MsgTypeNoteMSPresentRequest, MsgTypeNoteMSPresentResponse,
   MsgTypeIdentificationRequest, MsgTypeIdentificationResponse, MsgTypeSGSNContextRequest,
   MsgTypeSGSNContextResponse, MsgTypeSGSNContextAcknowledge, MsgTypeDataRecordTransferRequest,
   MsgTypeDataRecordTransferResponse, MsgTypeTPDU]

/-- Reference table: every named constant `MsgTypeX` with the string `X`, its name
without the prefix `MsgType`. -/
def constantNames : List (Nat × String) :=
  [(MsgTypeEchoRequest, "EchoRequest"), (MsgTypeEchoResponse, "EchoResponse"),
   (MsgTypeVersionNotSupported, "VersionNotSupported"),
   (MsgTypeNodeAliveRequest, "NodeAliveRequest"),
   (MsgTypeNodeAliveResponse, "NodeAliveResponse"),
   (MsgTypeRedirectionRequest, "RedirectionRequest"),
   (MsgTypeRedirectionResponse, "RedirectionResponse"),
   (MsgTypeCreatePDPContextRequest, "CreatePDPContextRequest"),
   (MsgTypeCreatePDPContextResponse, "CreatePDPContextResponse"),
   (MsgTypeUpdatePDPContextRequest, "UpdatePDPContextRequest"),
   (MsgTypeUpdatePDPContextResponse, "UpdatePDPContextResponse"),
   (MsgTypeDeletePDPContextRequest, "DeletePDPContextRequest"),
   (MsgTypeDeletePDPContextResponse, "DeletePDPContextResponse"),
   (MsgTypeCreateAAPDPContextRequest, "CreateAAPDPContextRequest"),
   (MsgTypeCreateAAPDPContextResponse, "CreateAAPDPContextResponse"),
   (MsgTypeDeleteAAPDPContextRequest, "DeleteAAPDPContextRequest"),
   (MsgTypeDeleteAAPDPContextResponse, "DeleteAAPDPContextResponse"),
   (MsgTypeErrorIndication, "ErrorIndication"),
   (MsgTypePDUNotificationRequest, "PDUNotificationRequest"),
   (MsgTypePDUNotificationResponse, "PDUNotificationResponse"),
   (MsgTypePDUNotificationRejectRequest, "PDUNotificationRejectRequest"),
   (MsgTypePDUNotificationRejectResponse, "PDUNotificationRejectResponse"),
   (MsgTypeSendRoutingInfoRequest, "SendRoutingInfoRequest"),
   (MsgTypeSendRoutingInfoResponse, "SendRoutingInfoResponse"),
   (MsgTypeFailureReportRequest, "FailureReportRequest"),
   (MsgTypeFailureReportResponse, "FailureReportResponse"),
   (MsgTypeNoteMSPresentRequest, "NoteMSPresentRequest"),
   (MsgTypeNoteMSPresentResponse, "NoteMSPresentResponse"),
   (MsgTypeIdentificationRequest, "IdentificationRequest"),
   (MsgTypeIdentificationResponse, "IdentificationResponse"),
   (MsgTypeSGSNContextRequest, "SGSNContextRequest"),
   (MsgTypeSGSNContextResponse, "SGSNContextResponse"),
   (MsgTypeSGSNContextAcknowledge, "SGSNContextAcknowledge"),
   (MsgTypeDataRecordTransferRequest, "DataRecordTransferRequest"),
   (MsgTypeDataRecordTransferResponse, "DataRecordTransferResponse"), (MsgTypeTPDU, "TPDU")]

end Gtpv1Message

/-! # Theorems -/

/-! ## Sequencing and field access -/

@[simp] theorem Res.bind_ok {ε α β : Type} (a : α) (f : α → Res ε β) :
    (Res.ok a).bind f = f a := rfl

@[simp] theorem Res.bind_err {ε α β : Type} (e : ε) (f : α → Res ε β) :
    (Res.err e : Res ε α).bind f = .err e := rfl

@[simp] theorem Res.bind_panic {ε α β : Type} (f : α → Res ε β) :
    (Res.panic : Res ε α).bind f = .panic := rfl

@[simp] theorem Res.bind_diverge {ε α β : Type} (f : α → Res ε β) :
    (Res.diverge : Res ε α).bind f = .diverge := rfl

namespace IE

@[simp] theorem Type_mk (t l ins : Nat) (p : List Nat) (cs : List IE) :
    (mk t l ins p cs).Type_ = t := rfl

@[simp] theorem Length_mk (t l ins : Nat) (p : List Nat) (cs : List IE) :
    (mk t l ins p cs).Length = l := rfl

@[simp] theorem instance_mk (t l ins : Nat) (p : List Nat) (cs : List IE) :
    (mk t l ins p cs).instance_ = ins := rfl

@[simp] theorem Payload_mk (t l ins : Nat) (p : List Nat) (cs : List IE) :
    (mk t l ins p cs).Payload = p := rfl

@[simp] theorem ChildIEs_mk (t l ins : Nat) (p : List Nat) (cs : List IE) :
    (mk t l ins p cs).ChildIEs = cs := rfl

end IE

/-! ## Size of an encoding -/

theorem marshalLenLoop_acc (cs : List IE) :
    ∀ l, marshalLenLoop l cs = l + marshalLenLoop 0 cs := by
  induction cs with
  | nil => intro l; simp [marshalLenLoop]
  | cons c rest ih =>
    intro l
    simp only [marshalLenLoop]
    rw [ih (l + MarshalLen c), ih (0 + MarshalLen c)]
    omega

theorem marshalLenLoop_cons (l : Nat) (c : IE) (rest : List IE) :
    marshalLenLoop l (c :: rest) = l + MarshalLen c + marshalLenLoop 0 rest := by
  simp only [marshalLenLoop]
  rw [marshalLenLoop_acc]

theorem MarshalLen_ge (i : IE) : 4 ≤ MarshalLen i := by
  cases i with
  | mk t len ins p cs =>
    simp only [MarshalLen]
    split
    · rw [marshalLenLoop_acc]; omega
    · omega

theorem MarshalTo_cons4 (t len ins : Nat) (p : List Nat) (cs : List IE)
    (x0 x1 x2 x3 : Nat) (rest : List Nat) :
    MarshalTo (IE.mk t len ins p cs) (x0 :: x1 :: x2 :: x3 :: rest) =
      if isGroupedType t then
        marshalToLoop (rest.length + 4) cs 4 (t :: (len / 256 % 256) :: (len % 256) :: ins :: rest)
      else if rest.length < p.length then .err .ErrUnexpectedEOF
      else .ok (t :: (len / 256 % 256) :: (len % 256) :: ins :: (p ++ rest.drop p.length)) := by
  have h4 : ¬ (rest.length + 1 + 1 + 1 + 1 < 4) := by omega
  simp only [MarshalTo, List.length_cons, if_neg h4]
  have h3 : 3 < 1 + (2 + (rest.length + 1)) := by omega
  simp [setIndex, slice, PutUint16, writeBack, h3]
  by_cases hg : isGroupedType t = true
  · simp [hg]
  · simp only [hg, MarshalLen]
    simp
    by_cases hl : rest.length < p.length
    · have hl1 : rest.length + 1 + 1 + 1 + 1 < 4 + p.length := by omega
      simp [hl, hl1]
    · have hl1 : ¬ (rest.length + 1 + 1 + 1 + 1 < 4 + p.length) := by omega
      have hl2 : p.length ≤ rest.length := by omega
      have hl3 : 4 + p.length ≤ rest.length + 1 + 1 + 1 + 1 := by omega
      simp [hl, hl1, hl3, copy, hl2]
      have e1 : 4 + p.length = p.length + 1 + 1 + 1 + 1 := by omega
      rw [e1]
      simp [List.drop_succ_cons]

theorem MarshalTo_short (i : IE) (b : List Nat) (h : b.length < 4) :
    MarshalTo i b = .err .ErrUnexpectedEOF := by
  cases i with
  | mk t len ins p cs => simp only [MarshalTo, if_pos h]

mutual
theorem wire_length : ∀ i : IE, (wire i).length = MarshalLen i
  | IE.mk t len ins p cs => by
    simp only [wire, MarshalLen, List.length_cons]
    split
    · rw [wireChildren_length cs, marshalLenLoop_acc cs 4]; omega
    · omega
theorem wireChildren_length : ∀ cs : List IE, (wireChildren cs).length = marshalLenLoop 0 cs
  | [] => by simp [wireChildren, marshalLenLoop]
  | c :: rest => by
    simp only [wireChildren, List.length_append, marshalLenLoop_cons, wire_length c,
      wireChildren_length rest]
    omega
end

mutual
theorem MarshalTo_exact : ∀ (i : IE) (b : List Nat), b.length = MarshalLen i →
    MarshalTo i b = .ok (wire i)
  | IE.mk t len ins p cs, b, h => by
    have h4 := MarshalLen_ge (IE.mk t len ins p cs)
    match b, h with
    | x0 :: x1 :: x2 :: x3 :: rest, h =>
      rw [MarshalTo_cons4]
      simp only [MarshalLen, List.length_cons] at h
      by_cases hg : isGroupedType t = true
      · simp only [hg, if_true] at h ⊢
        rw [marshalLenLoop_acc] at h
        have := marshalToLoop_exact cs (rest.length + 4) 4
          (t :: (len / 256 % 256) :: (len % 256) :: ins :: rest) (by simp) (by omega)
        rw [this]
        simp [wire, hg]
      · simp only [hg, Bool.false_eq_true, if_false] at h ⊢
        have hl : ¬ rest.length < p.length := by omega
        have hr : rest.length = p.length := by omega
        simp [hl, wire, hg, ← hr]
    | [], h => simp at h; omega
    | [_], h => simp at h; omega
    | [_, _], h => simp at h; omega
    | [_, _, _], h => simp at h; omega
theorem marshalToLoop_exact : ∀ (cs : List IE) (l offset : Nat) (b : List Nat),
    b.length = l → l = offset + marshalLenLoop 0 cs →
    marshalToLoop l cs offset b = .ok (b.take offset ++ wireChildren cs)
  | [], l, offset, b, hb, hl => by
    simp only [marshalLenLoop] at hl
    simp [marshalToLoop, wireChildren]
    omega
  | c :: rest, l, offset, b, hb, hl => by
    rw [marshalLenLoop_cons] at hl
    have hnb : ¬ l < offset + MarshalLen c := by omega
    simp only [marshalToLoop, if_neg hnb]
    have hs : slice (ε := Err) b offset (offset + MarshalLen c)
        = .ok ((b.take (offset + MarshalLen c)).drop offset) := by
      simp [slice]; omega
    rw [hs, Res.bind_ok]
    rw [MarshalTo_exact c _ (by simp; omega), Res.bind_ok]
    have hw : writeBack b offset (wire c)
        = b.take offset ++ wire c ++ b.drop (offset + MarshalLen c) := by
      simp [writeBack, wire_length]
    rw [marshalToLoop_exact rest l (offset + MarshalLen c) _ (by
      rw [hw]; simp [wire_length]; omega) (by omega)]
    rw [hw]
    have ht : (b.take offset).length = offset := by simp; omega
    simp [wireChildren, List.take_append_eq_append_take, wire_length, ht]
end

/-! ## Decoding: one step of each function -/

theorem UnmarshalBinaryF_short (f : Nat) (i : IE) (b : List Nat) (h : b.length < 5) :
    UnmarshalBinaryF (f + 1) i b = (i, .err .ErrUnexpectedEOF) := by
  simp only [UnmarshalBinaryF, if_pos h]

theorem UnmarshalBinaryF_cons4 (f : Nat) (i : IE) (b0 b1 b2 b3 : Nat) (rest : List Nat)
    (h : rest ≠ []) :
    UnmarshalBinaryF (f + 1) i (b0 :: b1 :: b2 :: b3 :: rest) =
      if b1 * 256 + b2 > rest.length then
        (IE.mk b0 (b1 * 256 + b2) i.instance_ i.Payload i.ChildIEs, .err .ErrInvalidLength)
      else if isGroupedType b0 then
        match ParseMultiIEsF f (rest.take (b1 * 256 + b2)) with
        | .ok ies => (IE.mk b0 (b1 * 256 + b2) b3 (rest.take (b1 * 256 + b2)) ies, .ok ())
        | .err e => (IE.mk b0 (b1 * 256 + b2) b3 (rest.take (b1 * 256 + b2)) [], .err e)
        | .panic => (IE.mk b0 (b1 * 256 + b2) b3 (rest.take (b1 * 256 + b2)) i.ChildIEs, .panic)
        | .diverge =>
          (IE.mk b0 (b1 * 256 + b2) b3 (rest.take (b1 * 256 + b2)) i.ChildIEs, .diverge)
      else (IE.mk b0 (b1 * 256 + b2) b3 (rest.take (b1 * 256 + b2)) i.ChildIEs, .ok ()) := by
  have hr : 0 < rest.length := List.length_pos.mpr h
  have h5 : ¬ (rest.length + 1 + 1 + 1 + 1 < 5) := by omega
  simp only [UnmarshalBinaryF, List.length_cons, if_neg h5]
  simp [index, slice, Uint16, IsGrouped]
  by_cases hL : rest.length < b1 * 256 + b2
  · simp only [if_pos hL]
  · have hL3 : 4 + (b1 * 256 + b2) ≤ rest.length + 1 + 1 + 1 + 1 := by omega
    have e1 : 4 + (b1 * 256 + b2) = (b1 * 256 + b2) + 1 + 1 + 1 + 1 := by omega
    simp only [if_neg hL, if_pos hL3]
    rw [e1]
    simp only [List.take_succ_cons, List.drop_succ_cons, List.drop_zero]

theorem ParseF_short (f : Nat) (b : List Nat) (h : b.length < 5) :
    ParseF (f + 2) b = .err .ErrUnexpectedEOF := by
  simp only [ParseF, UnmarshalBinaryF_short f zeroIE b h]

theorem ParseF_cons4 (f : Nat) (b0 b1 b2 b3 : Nat) (rest : List Nat) (h : rest ≠ []) :
    ParseF (f + 2) (b0 :: b1 :: b2 :: b3 :: rest) =
      if b1 * 256 + b2 > rest.length then .err .ErrInvalidLength
      else if isGroupedType b0 then
        (ParseMultiIEsF f (rest.take (b1 * 256 + b2))).bind fun ies =>
          .ok (IE.mk b0 (b1 * 256 + b2) b3 (rest.take (b1 * 256 + b2)) ies)
      else .ok (IE.mk b0 (b1 * 256 + b2) b3 (rest.take (b1 * 256 + b2)) []) := by
  simp only [ParseF, UnmarshalBinaryF_cons4 f zeroIE b0 b1 b2 b3 rest h]
  by_cases hL : b1 * 256 + b2 > rest.length
  · simp only [if_pos hL]
  · simp only [if_neg hL]
    by_cases hg : isGroupedType b0 = true
    · simp only [if_pos hg]
      cases ParseMultiIEsF f (rest.take (b1 * 256 + b2)) <;> simp [zeroIE]
    · simp only [if_neg hg, zeroIE, IE.ChildIEs_mk]

theorem parseMultiLoop_nil (f : Nat) (ies : List IE) :
    parseMultiLoop (f + 1) ies [] = .ok ies := by
  simp [parseMultiLoop]

theorem parseMultiLoop_cons (f : Nat) (ies : List IE) (b : List Nat) (h : b ≠ []) :
    parseMultiLoop (f + 1) ies b =
      (ParseF f b).bind fun i =>
        (sliceFrom b (MarshalLen i)).bind fun b1 => parseMultiLoop f (ies ++ [i]) b1 := by
  have hl : ¬ b.length = 0 := by simpa using h
  simp only [parseMultiLoop, if_neg hl]
  cases ParseF f b with
  | ok i => simp only [Res.bind_ok]; cases sliceFrom (ε := Err) b (MarshalLen i) <;> rfl
  | err e => rfl
  | panic => rfl
  | diverge => rfl

/-! ## Decoding: the fuel bound is enough -/

theorem exists_cons4 (b : List Nat) (h : 5 ≤ b.length) :
    ∃ b0 b1 b2 b3 rest, b = b0 :: b1 :: b2 :: b3 :: rest ∧ rest ≠ [] := by
  match b, h with
  | b0 :: b1 :: b2 :: b3 :: b4 :: rest, _ => exact ⟨b0, b1, b2, b3, b4 :: rest, rfl, by simp⟩
  | [], h => simp at h
  | [_], h => simp at h
  | [_, _], h => simp at h
  | [_, _, _], h => simp at h
  | [_, _, _, _], h => simp at h

theorem stable_aux (n : Nat) : ∀ b : List Nat, b.length = n → Stable b := by
  induction n using Nat.strong_induction_on with
  | _ n ih =>
    intro b hb
    have hU : ∀ f i, b.length + 1 ≤ f → UnmarshalBinaryF f i b = UnmarshalBinary i b := by
      intro f i hf
      obtain ⟨f1, rfl⟩ : ∃ f1, f = f1 + 1 := ⟨f - 1, by omega⟩
      unfold UnmarshalBinary
      by_cases h5 : b.length < 5
      · rw [UnmarshalBinaryF_short _ _ _ h5, UnmarshalBinaryF_short _ _ _ h5]
      · obtain ⟨b0, b1, b2, b3, rest, rfl, hr⟩ := exists_cons4 b (by omega)
        rw [UnmarshalBinaryF_cons4 _ _ _ _ _ _ _ hr, UnmarshalBinaryF_cons4 _ _ _ _ _ _ _ hr]
        have hlen : (rest.take (b1 * 256 + b2)).length ≤ rest.length := by
          simp [List.length_take]
        simp only [List.length_cons] at hf hb
        have hst := (ih (rest.take (b1 * 256 + b2)).length (by omega) _ rfl).2.2.2
        rw [hst f1 (by omega), hst _ (by simp only [List.length_cons]; omega)]
    have hP : ∀ f, b.length + 2 ≤ f → ParseF f b = Parse b := by
      intro f hf
      obtain ⟨f1, rfl⟩ : ∃ f1, f = f1 + 1 := ⟨f - 1, by omega⟩
      unfold Parse
      simp only [ParseF]
      rw [hU f1 zeroIE (by omega), hU (b.length + 1) zeroIE (by omega)]
    have hL : ∀ f ies, b.length + 3 ≤ f →
        parseMultiLoop f ies b = parseMultiLoop (b.length + 3) ies b := by
      intro f ies hf
      obtain ⟨f1, rfl⟩ : ∃ f1, f = f1 + 1 := ⟨f - 1, by omega⟩
      by_cases hnil : b = []
      · subst hnil
        rw [parseMultiLoop_nil]
        exact (parseMultiLoop_nil _ ies).symm
      · rw [parseMultiLoop_cons _ _ _ hnil, parseMultiLoop_cons _ _ _ hnil]
        rw [hP f1 (by omega), hP (b.length + 2) (by omega)]
        cases Parse b with
        | ok i =>
          simp only [Res.bind_ok, sliceFrom]
          by_cases hm : MarshalLen i ≤ b.length
          · simp only [if_pos hm, Res.bind_ok]
            have h4 := MarshalLen_ge i
            have hpos : 0 < b.length := List.length_pos.mpr hnil
            have hd : (b.drop (MarshalLen i)).length < n := by
              simp only [List.length_drop]; omega
            have hst := (ih _ hd _ rfl).2.2.1
            have hd2 : (b.drop (MarshalLen i)).length + 4 ≤ b.length := by
              simp only [List.length_drop]; omega
            rw [hst f1 _ (by omega), hst (b.length + 2) _ (by omega)]
          · simp only [if_neg hm, Res.bind_panic]
        | err e => rfl
        | panic => rfl
        | diverge => rfl
    have hM : ∀ f, b.length + 4 ≤ f → ParseMultiIEsF f b = ParseMultiIEs b := by
      intro f hf
      obtain ⟨f1, rfl⟩ : ∃ f1, f = f1 + 1 := ⟨f - 1, by omega⟩
      unfold ParseMultiIEs
      simp only [ParseMultiIEsF]
      rw [hL f1 [] (by omega)]
    exact ⟨hU, hP, hL, hM⟩

theorem stable (b : List Nat) : Stable b := stable_aux b.length b rfl

/-! ## Decoding: equations of the top-level functions -/

theorem Parse_short (b : List Nat) (h : b.length < 5) :
    Parse b = .err .ErrUnexpectedEOF := by
  unfold Parse
  exact ParseF_short _ b h

theorem Parse_cons4 (b0 b1 b2 b3 : Nat) (rest : List Nat) (h : rest ≠ []) :
    Parse (b0 :: b1 :: b2 :: b3 :: rest) =
      if b1 * 256 + b2 > rest.length then .err .ErrInvalidLength
      else if isGroupedType b0 then
        (ParseMultiIEs (rest.take (b1 * 256 + b2))).bind fun ies =>
          .ok (IE.mk b0 (b1 * 256 + b2) b3 (rest.take (b1 * 256 + b2)) ies)
      else .ok (IE.mk b0 (b1 * 256 + b2) b3 (rest.take (b1 * 256 + b2)) []) := by
  unfold Parse
  rw [ParseF_cons4 _ _ _ _ _ _ h]
  have hlen : (rest.take (b1 * 256 + b2)).length ≤ rest.length := by
    simp [List.length_take]
  rw [(stable (rest.take (b1 * 256 + b2))).2.2.2 _ (by simp only [List.length_cons]; omega)]

theorem ParseMultiIEs_nil : ParseMultiIEs [] = .ok [] := by
  simp [ParseMultiIEs, ParseMultiIEsF, parseMultiLoop]

theorem parseMultiLoop_acc (f : Nat) : ∀ (ies : List IE) (b : List Nat),
    parseMultiLoop f ies b = (parseMultiLoop f [] b).bind fun more => .ok (ies ++ more) := by
  induction f with
  | zero => intro ies b; simp [parseMultiLoop]
  | succ f ih =>
    intro ies b
    by_cases hnil : b = []
    · subst hnil; simp [parseMultiLoop_nil]
    · rw [parseMultiLoop_cons _ _ _ hnil, parseMultiLoop_cons _ _ _ hnil]
      cases ParseF f b with
      | ok i =>
        simp only [Res.bind_ok]
        cases sliceFrom (ε := Err) b (MarshalLen i) with
        | ok b1 =>
          simp only [Res.bind_ok]
          rw [ih (ies ++ [i]) b1, ih ([] ++ [i]) b1]
          cases parseMultiLoop f [] b1 <;> simp
        | err e => rfl
        | panic => rfl
        | diverge => rfl
      | err e => rfl
      | panic => rfl
      | diverge => rfl

theorem ParseMultiIEs_cons (b : List Nat) (h : b ≠ []) :
    ParseMultiIEs b =
      (Parse b).bind fun i =>
        (sliceFrom b (MarshalLen i)).bind fun b1 =>
          (ParseMultiIEs b1).bind fun more => .ok (i :: more) := by
  have hpos : 0 < b.length := List.length_pos.mpr h
  unfold ParseMultiIEs
  simp only [ParseMultiIEsF]
  rw [parseMultiLoop_cons _ _ _ h, (stable b).2.1 _ (by omega)]
  cases Parse b with
  | ok i =>
    simp only [Res.bind_ok, sliceFrom]
    by_cases hm : MarshalLen i ≤ b.length
    · simp only [if_pos hm, Res.bind_ok]
      have h4 := MarshalLen_ge i
      have hd : (b.drop (MarshalLen i)).length + 4 ≤ b.length := by
        simp only [List.length_drop]; omega
      rw [parseMultiLoop_acc, (stable (b.drop (MarshalLen i))).2.2.1 _ _ (by omega)]
      simp
    · simp only [if_neg hm, Res.bind_panic]
  | err e => rfl
  | panic => rfl
  | diverge => rfl

/-! ## Decoding: no panic, and the size accounting of decoded IEs -/

theorem safe_aux (n : Nat) : ∀ b : List Nat, b.length = n → Safe b := by
  induction n using Nat.strong_induction_on with
  | _ n ih =>
    intro b hb
    have hP : (Parse b).returns = true ∧
        (∀ ie, Parse b = .ok ie → MarshalLen ie = 4 + ie.Length ∧ 4 + ie.Length ≤ b.length) := by
      by_cases h5 : b.length < 5
      · rw [Parse_short b h5]
        exact ⟨rfl, by intro ie h; cases h⟩
      · obtain ⟨b0, b1, b2, b3, rest, rfl, hr⟩ := exists_cons4 b (by omega)
        rw [Parse_cons4 _ _ _ _ _ hr]
        simp only [List.length_cons] at hb
        by_cases hL : b1 * 256 + b2 > rest.length
        · simp only [if_pos hL]
          exact ⟨rfl, by intro ie h; cases h⟩
        · simp only [if_neg hL]
          have hlen : (rest.take (b1 * 256 + b2)).length = b1 * 256 + b2 := by
            simp only [List.length_take]; omega
          by_cases hg : isGroupedType b0 = true
          · simp only [if_pos hg]
            have hs := ih (rest.take (b1 * 256 + b2)).length (by omega) _ rfl
            cases hpm : ParseMultiIEs (rest.take (b1 * 256 + b2)) with
            | ok ies =>
              simp only [Res.bind_ok]
              refine ⟨rfl, ?_⟩
              intro ie h
              cases h
              have := hs.2.2.2 ies hpm
              simp only [MarshalLen, if_pos hg, IE.Length_mk, List.length_cons]
              rw [marshalLenLoop_acc, this, hlen]
              omega
            | err e => exact ⟨rfl, by intro ie h; cases h⟩
            | panic => have := hs.2.2.1; rw [hpm] at this; cases this
            | diverge => have := hs.2.2.1; rw [hpm] at this; cases this
          · simp only [if_neg hg]
            refine ⟨rfl, ?_⟩
            intro ie h
            cases h
            simp only [MarshalLen, if_neg hg, IE.Length_mk, List.length_cons]
            omega
    have hM : (ParseMultiIEs b).returns = true ∧
        (∀ ies, ParseMultiIEs b = .ok ies → marshalLenLoop 0 ies = b.length) := by
      by_cases hnil : b = []
      · subst hnil
        rw [ParseMultiIEs_nil]
        refine ⟨rfl, ?_⟩
        intro ies h
        cases h
        simp [marshalLenLoop]
      · rw [ParseMultiIEs_cons b hnil]
        cases hp : Parse b with
        | ok i =>
          have hi := hP.2 i hp
          have h4 := MarshalLen_ge i
          have hm : MarshalLen i ≤ b.length := by omega
          simp only [Res.bind_ok, sliceFrom, if_pos hm]
          have hd : (b.drop (MarshalLen i)).length < n := by
            simp only [List.length_drop]; omega
          have hs := ih _ hd _ rfl
          cases hpm : ParseMultiIEs (b.drop (MarshalLen i)) with
          | ok more =>
            simp only [Res.bind_ok]
            refine ⟨rfl, ?_⟩
            intro ies h
            cases h
            have := hs.2.2.2 more hpm
            rw [marshalLenLoop_cons, this]
            simp only [List.length_drop]
            omega
          | err e => exact ⟨rfl, by intro ies h; cases h⟩
          | panic => have := hs.2.2.1; rw [hpm] at this; cases this
          | diverge => have := hs.2.2.1; rw [hpm] at this; cases this
        | err e => exact ⟨rfl, by intro ies h; cases h⟩
        | panic => have := hP.1; rw [hp] at this; cases this
        | diverge => have := hP.1; rw [hp] at this; cases this
    exact ⟨hP.1, hP.2, hM.1, hM.2⟩

theorem safe (b : List Nat) : Safe b := safe_aux b.length b rfl

/-! ## Encoding: what `Marshal` returns -/

theorem Marshal_eq_wire (i : IE) : Marshal i = .ok (wire i) := by
  unfold Marshal
  exact MarshalTo_exact i _ (by simp)

theorem marshalBytes_eq_wire (i : IE) : marshalBytes i = wire i := by
  simp [marshalBytes, Marshal_eq_wire]

theorem wireChildren_eq_flatten (cs : List IE) :
    wireChildren cs = (cs.map marshalBytes).flatten := by
  induction cs with
  | nil => simp [wireChildren]
  | cons c rest ih => simp [wireChildren, ih, marshalBytes_eq_wire]

theorem wire_eq_header (i : IE) :
    wire i = header i ++
      (if IsGrouped i then (i.ChildIEs.map marshalBytes).flatten else i.Payload) := by
  cases i with
  | mk t len ins p cs =>
    simp only [wire, header, IsGrouped, IE.Type_mk, IE.Length_mk, IE.instance_mk,
      IE.Payload_mk, IE.ChildIEs_mk, wireChildren_eq_flatten]
    rfl

theorem New_eq (t ins : Nat) (p : List Nat) :
    New t ins p = IE.mk t (p.length % 65536) (ins &&& 0x0f) p [] := by
  unfold New SetLength
  by_cases hg : IsGrouped (IE.mk t 0 (ins &&& 0x0f) p []) = true
  · simp [hg, setLengthField]
  · simp [hg, setLengthField]

theorem and_0x0f_lt (v : Nat) : v &&& 0x0f < 16 := by
  have h := Nat.and_pow_two_sub_one_eq_mod v 4
  have h2 : v &&& 0x0f = v % 16 := by simpa using h
  omega

theorem and_0x0f_of_lt (v : Nat) (h : v < 16) : v &&& 0x0f = v := by
  have h1 := Nat.and_pow_two_sub_one_eq_mod v 4
  have h2 : v &&& 0x0f = v % 16 := by simpa using h1
  omega

/-! ## Encoding into a buffer that is too short -/

theorem MarshalTo_leaf_short (i : IE) (b : List Nat) (hg : IsGrouped i = false)
    (h : b.length < MarshalLen i) : MarshalTo i b = .err .ErrUnexpectedEOF := by
  cases i with
  | mk t len ins p cs =>
    simp only [IsGrouped, IE.Type_mk] at hg
    by_cases h4 : b.length < 4
    · exact MarshalTo_short _ b h4
    · match b, h, h4 with
      | x0 :: x1 :: x2 :: x3 :: rest, h, _ =>
        rw [MarshalTo_cons4]
        simp only [MarshalLen, hg, Bool.false_eq_true, if_false, List.length_cons] at h ⊢
        have hl : rest.length < p.length := by omega
        simp only [if_pos hl]
      | [], _, h4 => simp at h4
      | [_], _, h4 => simp at h4
      | [_, _], _, h4 => simp at h4
      | [_, _, _], _, h4 => simp at h4

theorem marshalToLoop_ok : ∀ (cs : List IE) (l offset : Nat) (b : List Nat),
    b.length = l → ∃ out, marshalToLoop l cs offset b = .ok out ∧ out.length = l
  | [], l, offset, b, hb => ⟨b, by simp [marshalToLoop], hb⟩
  | c :: rest, l, offset, b, hb => by
    by_cases hbr : l < offset + MarshalLen c
    · exact ⟨b, by simp only [marshalToLoop, if_pos hbr], hb⟩
    · simp only [marshalToLoop, if_neg hbr]
      have hs : slice (ε := Err) b offset (offset + MarshalLen c)
          = .ok ((b.take (offset + MarshalLen c)).drop offset) := by
        simp [slice]; omega
      rw [hs, Res.bind_ok, MarshalTo_exact c _ (by simp; omega), Res.bind_ok]
      exact marshalToLoop_ok rest l (offset + MarshalLen c) _ (by
        simp [writeBack, wire_length]; omega)

theorem MarshalTo_grouped_ok (i : IE) (b : List Nat) (hg : IsGrouped i = true)
    (h4 : 4 ≤ b.length) : ∃ out, MarshalTo i b = .ok out ∧ out.length = b.length := by
  cases i with
  | mk t len ins p cs =>
    simp only [IsGrouped, IE.Type_mk] at hg
    match b, h4 with
    | x0 :: x1 :: x2 :: x3 :: rest, _ =>
      rw [MarshalTo_cons4]
      simp only [hg, if_true]
      exact marshalToLoop_ok cs _ 4 _ (by simp)
    | [], h4 => simp at h4
    | [_], h4 => simp at h4
    | [_, _], h4 => simp at h4
    | [_, _, _], h4 => simp at h4

/-! ## Decoding what was encoded: leaf IEs -/

theorem uint16_split (len : Nat) (h : len < 65536) : len / 256 % 256 * 256 + len % 256 = len := by
  omega

theorem Parse_wire_leaf (t len ins : Nat) (p tail : List Nat) (cs : List IE)
    (hg : isGroupedType t = false) (hlen : len = p.length) (h16 : len < 65536)
    (hne : p ++ tail ≠ []) :
    Parse (wire (IE.mk t len ins p cs) ++ tail) = .ok (IE.mk t len ins p []) := by
  simp only [wire, hg, Bool.false_eq_true, if_false, List.cons_append]
  rw [Parse_cons4 _ _ _ _ _ hne, uint16_split len h16]
  have hL : ¬ len > (p ++ tail).length := by simp [hlen]
  simp only [if_neg hL, hg, Bool.false_eq_true, if_false]
  rw [hlen, List.take_left']
  rfl

theorem Parse_Marshal_New (t ins : Nat) (p : List Nat) (hg : isGroupedType t = false)
    (h1 : 1 ≤ p.length) (h2 : p.length ≤ 65535) :
    ∃ b, Marshal (New t ins p) = .ok b ∧ Parse b = .ok (New t ins p) := by
  refine ⟨wire (New t ins p), Marshal_eq_wire _, ?_⟩
  have hmod : p.length % 65536 = p.length := by omega
  have hne : p ++ [] ≠ [] := by
    intro h
    simp at h
    simp [h] at h1
  have := Parse_wire_leaf t p.length (ins &&& 0x0f) p [] [] hg rfl (by omega) hne
  rw [New_eq, hmod]
  simpa using this

theorem roundtrip_example :
    Marshal (New 2 0 [0x10]) = .ok [2, 0, 1, 0, 0x10] ∧
    Parse [2, 0, 1, 0, 0x10] = .ok (New 2 0 [0x10]) :=
  ⟨by decide, rfl⟩

theorem ParseMultiIEs_wire_New (xs : List (Nat × Nat × List Nat))
    (h : ∀ x ∈ xs, isGroupedType x.1 = false ∧ 1 ≤ x.2.2.length ∧ x.2.2.length ≤ 65535) :
    ParseMultiIEs (wireChildren (xs.map fun x => New x.1 x.2.1 x.2.2)) =
      .ok (xs.map fun x => New x.1 x.2.1 x.2.2) := by
  induction xs with
  | nil => simp [wireChildren, ParseMultiIEs_nil]
  | cons x rest ih =>
    obtain ⟨hg, h1, h2⟩ := h x (by simp)
    have ih2 := ih (fun y hy => h y (by simp [hy]))
    simp only [List.map_cons, wireChildren]
    have hmod : x.2.2.length % 65536 = x.2.2.length := by omega
    have hne : x.2.2 ++ wireChildren (rest.map fun x => New x.1 x.2.1 x.2.2) ≠ [] := by
      intro hcontra
      have hp0 : x.2.2 = [] := (List.append_eq_nil.mp hcontra).1
      rw [hp0] at h1
      simp at h1
    have hp := Parse_wire_leaf x.1 x.2.2.length (x.2.1 &&& 0x0f) x.2.2
      (wireChildren (rest.map fun x => New x.1 x.2.1 x.2.2)) [] hg rfl (by omega) hne
    have hbne : wire (New x.1 x.2.1 x.2.2) ++
        wireChildren (rest.map fun x => New x.1 x.2.1 x.2.2) ≠ [] := by
      intro hcontra
      have := congrArg List.length hcontra
      have h4 := MarshalLen_ge (New x.1 x.2.1 x.2.2)
      simp [wire_length] at this
      omega
    rw [ParseMultiIEs_cons _ hbne]
    rw [New_eq, hmod, hp, Res.bind_ok]
    have hs : sliceFrom (ε := Err)
        (wire (IE.mk x.1 x.2.2.length (x.2.1 &&& 0x0f) x.2.2 []) ++
          wireChildren (rest.map fun x => New x.1 x.2.1 x.2.2))
        (MarshalLen (IE.mk x.1 x.2.2.length (x.2.1 &&& 0x0f) x.2.2 []))
        = .ok (wireChildren (rest.map fun x => New x.1 x.2.1 x.2.2)) := by
      simp [sliceFrom, ← wire_length]
    rw [hs, Res.bind_ok, ih2, Res.bind_ok]

theorem Parse_header_only (b0 b1 b2 b3 : Nat) :
    Parse [b0, b1, b2, b3] = .err .ErrUnexpectedEOF :=
  Parse_short _ (by simp)

theorem Parse_invalid_length (b : List Nat) (b1 b2 : Nat) (h5 : 5 ≤ b.length)
    (h1 : b.get? 1 = some b1) (h2 : b.get? 2 = some b2)
    (hL : b1 * 256 + b2 > b.length - 4) : Parse b = .err .ErrInvalidLength := by
  obtain ⟨c0, c1, c2, c3, rest, rfl, hr⟩ := exists_cons4 b h5
  simp at h1 h2
  subst h1 h2
  rw [Parse_cons4 _ _ _ _ _ hr]
  have : c1 * 256 + c2 > rest.length := by simpa using hL
  simp only [if_pos this]

theorem Parse_instance (b : List Nat) (x : IE) (h : Parse b = .ok x) :
    b.get? 3 = some x.instance_ := by
  by_cases h5 : b.length < 5
  · rw [Parse_short b h5] at h; cases h
  · obtain ⟨c0, c1, c2, c3, rest, rfl, hr⟩ := exists_cons4 b (by omega)
    rw [Parse_cons4 _ _ _ _ _ hr] at h
    by_cases hL : c1 * 256 + c2 > rest.length
    · simp only [if_pos hL] at h; cases h
    · simp only [if_neg hL] at h
      by_cases hg : isGroupedType c0 = true
      · simp only [if_pos hg] at h
        cases hpm : ParseMultiIEs (rest.take (c1 * 256 + c2)) with
        | ok ies => rw [hpm] at h; simp only [Res.bind_ok] at h; cases h; rfl
        | err e => rw [hpm] at h; cases h
        | panic => rw [hpm] at h; cases h
        | diverge => rw [hpm] at h; cases h
      · simp only [if_neg hg] at h; cases h; rfl

/-! ## The claims -/

/-- C1, evaluated where it fails: a leaf IE built by `New` with an empty payload is
encoded by `Marshal` as its four header bytes, and `Parse` rejects exactly these
bytes with `io.ErrUnexpectedEOF`, so the payload length 0 does not round-trip. -/
theorem C1_empty_payload_not_decoded (t ins : Nat) :
    Marshal (New t ins []) = .ok [t, 0, 0, ins &&& 0x0f] ∧
    Parse [t, 0, 0, ins &&& 0x0f] = .err .ErrUnexpectedEOF := by
  refine ⟨?_, Parse_header_only _ _ _ _⟩
  rw [Marshal_eq_wire, New_eq]
  cases hg : isGroupedType t <;> simp [wire, hg, wireChildren]

/-- C2: for every IE tree `Marshal` returns a byte slice, without error, whose
length is exactly `MarshalLen`. -/
theorem C2_marshal_length (i : IE) :
    ∃ b, Marshal i = .ok b ∧ b.length = MarshalLen i :=
  ⟨wire i, Marshal_eq_wire i, wire_length i⟩

/-- C3: `Marshal` returns the four header bytes (type, high and low byte of
`Length`, instance byte) followed by `Payload` for a non-grouped type code and by
the `Marshal` outputs of the children, in order, for a grouped type code; every
child is itself marshalled without error. -/
theorem C3_marshal_layout (i : IE) :
    Marshal i = .ok (header i ++
      (if IsGrouped i then (i.ChildIEs.map marshalBytes).flatten else i.Payload)) ∧
    (∀ c ∈ i.ChildIEs, Marshal c = .ok (marshalBytes c)) := by
  refine ⟨?_, ?_⟩
  · rw [Marshal_eq_wire, wire_eq_header]
  · intro c _
    rw [Marshal_eq_wire, marshalBytes_eq_wire]

/-- C4, evaluated where it fails: the two leaf IEs `New(2, 0, [0x10])` and
`New(3, 0, [])` marshal to nine bytes in all, and `ParseMultiIEs` applied to their
concatenation returns `io.ErrUnexpectedEOF` instead of the two IEs. -/
theorem C4_trailing_empty_leaf_not_decoded :
    Marshal (New 2 0 [16]) = .ok [2, 0, 1, 0, 16] ∧
    Marshal (New 3 0 []) = .ok [3, 0, 0, 0] ∧
    ParseMultiIEs ([2, 0, 1, 0, 16] ++ [3, 0, 0, 0]) = .err .ErrUnexpectedEOF := by
  refine ⟨by decide, by decide, ?_⟩
  rw [ParseMultiIEs_cons _ (by simp)]
  have hp : Parse ([2, 0, 1, 0, 16] ++ [3, 0, 0, 0]) = .ok (IE.mk 2 1 0 [16] []) := by
    have := Parse_wire_leaf 2 1 0 [16] [3, 0, 0, 0] [] (by decide) rfl (by omega) (by simp)
    simpa [wire] using this
  rw [hp, Res.bind_ok]
  have hs : sliceFrom (ε := Err) ([2, 0, 1, 0, 16] ++ [3, 0, 0, 0])
      (MarshalLen (IE.mk 2 1 0 [16] [])) = .ok [3, 0, 0, 0] := by decide
  rw [hs, Res.bind_ok, ParseMultiIEs_cons _ (by simp), Parse_header_only, Res.bind_err,
    Res.bind_err]

/-- C5: on every buffer `Parse`, `ParseMultiIEs` and `UnmarshalBinary` finish and
return a value or an error: no slice or index expression is out of range, the
outcome is the same for every larger bound on the number of nested calls and loop
iterations, and an IE returned by `Parse` has an encoded size between 4 and
`len(b)`, so that `b[i.MarshalLen():]` is in range and strictly shorter than `b`. -/
theorem C5_decoders_total (b : List Nat) :
    (Parse b).returns = true ∧ (ParseMultiIEs b).returns = true ∧
    (∀ k, ParseF (b.length + 2 + k) b = Parse b) ∧
    (∀ k, ParseMultiIEsF (b.length + 4 + k) b = ParseMultiIEs b) ∧
    (∀ k i, UnmarshalBinaryF (b.length + 1 + k) i b = UnmarshalBinary i b) ∧
    (∀ ie, Parse b = .ok ie → 4 ≤ MarshalLen ie ∧ MarshalLen ie ≤ b.length) := by
  have hs := safe b
  have hst := stable b
  refine ⟨hs.1, hs.2.2.1, ?_, ?_, ?_, ?_⟩
  · intro k; exact hst.2.1 _ (by omega)
  · intro k; exact hst.2.2.2 _ (by omega)
  · intro k i; exact hst.1 _ i (by omega)
  · intro ie h
    have := hs.2.1 ie h
    have h4 := MarshalLen_ge ie
    omega

theorem C5_decoders_total_witness :
    (Parse [93, 0, 5, 0, 2, 0, 1, 0, 16]).returns = true ∧
    Parse [93, 0, 5, 0, 2, 0, 1, 0, 16]
      = .ok (IE.mk 93 5 0 [2, 0, 1, 0, 16] [IE.mk 2 1 0 [16] []]) ∧
    MarshalLen (IE.mk 93 5 0 [2, 0, 1, 0, 16] [IE.mk 2 1 0 [16] []]) ≤ 9 :=
  ⟨(C5_decoders_total [93, 0, 5, 0, 2, 0, 1, 0, 16]).1, rfl,
    ((C5_decoders_total [93, 0, 5, 0, 2, 0, 1, 0, 16]).2.2.2.2.2 _ rfl).2⟩

/-- C6, evaluated where it fails: on a buffer of length 0 or 1 both `Parse`
functions evaluate `b[1]` before anything else, which is an index out of range,
whatever the decoders of the message structs are. -/
theorem C6_parse_short_buffer_panics {μ ε : Type}
    (dec2 : Gtpv2Message.MsgKind → List Nat → Res ε μ)
    (dec1 : Gtpv1Message.MsgKind → List Nat → Res ε μ) (x : Nat) :
    Gtpv2Message.Parse dec2 [] = .panic ∧ Gtpv2Message.Parse dec2 [x] = .panic ∧
    Gtpv1Message.Parse dec1 [] = .panic ∧ Gtpv1Message.Parse dec1 [x] = .panic :=
  ⟨rfl, rfl, rfl, rfl⟩

/-- C7: on every buffer shorter than 4 bytes `Parse` returns `io.ErrUnexpectedEOF`
and no IE; no index or slice expression is evaluated. -/
theorem C7_short_buffer (b : List Nat) (h : b.length < 4) :
    Parse b = .err .ErrUnexpectedEOF :=
  Parse_short b (by omega)

theorem C7_short_buffer_witness : Parse [2, 0, 1] = .err .ErrUnexpectedEOF :=
  C7_short_buffer [2, 0, 1] (by decide)

/-- C8, evaluated where it fails: a buffer that is exactly a 4-byte header with the
length field 1 (more than the 0 bytes that follow) is rejected with
`io.ErrUnexpectedEOF`, not with `ErrInvalidLength`. -/
theorem C8_header_only_reports_eof :
    ([2, 0, 1, 0] : List Nat).length ≥ 4 ∧
    0 * 256 + 1 > ([2, 0, 1, 0] : List Nat).length - 4 ∧
    Parse [2, 0, 1, 0] = .err .ErrUnexpectedEOF ∧
    Parse [2, 0, 1, 0] ≠ .err .ErrInvalidLength := by
  refine ⟨by decide, by decide, Parse_header_only _ _ _ _, ?_⟩
  rw [Parse_header_only]
  intro h
  cases h

/-- C9, evaluated where it fails: for the grouped IE of type BearerContext with one
5-byte child, whose encoded size is 9, `MarshalTo` on a 4-byte buffer writes the
header, leaves the loop at the child that does not fit, and returns no error. -/
theorem C9_grouped_short_buffer_succeeds :
    IsGrouped (IE.mk 93 5 0 [2, 0, 1, 0, 16] [New 2 0 [16]]) = true ∧
    MarshalLen (IE.mk 93 5 0 [2, 0, 1, 0, 16] [New 2 0 [16]]) = 9 ∧
    MarshalTo (IE.mk 93 5 0 [2, 0, 1, 0, 16] [New 2 0 [16]]) [0, 0, 0, 0]
      = .ok [93, 0, 5, 0] := by
  decide

/-- C10, counterexample: the IE parsed from `02 00 01 f0 10` has `Instance()` 0,
and `Marshal` of it returns `02 00 01 f0 10`, whose byte 3 is `0xf0`. -/
theorem C10_counterexample :
    Parse [2, 0, 1, 0xf0, 0x10] = .ok (IE.mk 2 1 0xf0 [0x10] []) ∧
    Instance (IE.mk 2 1 0xf0 [0x10] []) = 0 ∧
    Marshal (IE.mk 2 1 0xf0 [0x10] []) = .ok [2, 0, 1, 0xf0, 0x10] ∧
    ([2, 0, 1, 0xf0, 0x10] : List Nat).get? 3
      ≠ some (Instance (IE.mk 2 1 0xf0 [0x10] [])) := by
  refine ⟨rfl, by decide, by decide, by decide⟩

/-- C10, amended: byte 3 of `Marshal(ie)` is the stored instance byte; it equals
`Instance()`, with its upper 4 bits zero, whenever the stored byte is below 16,
which is the case after `New`, `SetInstance` and `WithInstance`; an IE returned by
`Parse` stores byte 3 of the buffer as it is. -/
theorem C10_marshal_instance_byte :
    (∀ i : IE, ∃ b, Marshal i = .ok b ∧ b.get? 3 = some i.instance_ ∧
      (i.instance_ < 16 → b.get? 3 = some (Instance i) ∧ Instance i < 16)) ∧
    (∀ t ins p, (New t ins p).instance_ < 16) ∧
    (∀ i v, (SetInstance i v).instance_ < 16 ∧ (WithInstance i v).instance_ < 16) ∧
    (∀ b x, Parse b = .ok x → b.get? 3 = some x.instance_) := by
  refine ⟨?_, ?_, ?_, Parse_instance⟩
  · intro i
    refine ⟨wire i, Marshal_eq_wire i, ?_, ?_⟩
    · cases i with
      | mk t len ins p cs => simp [wire]
    · intro h
      cases i with
      | mk t len ins p cs =>
        simp only [IE.instance_mk] at h
        simp [wire, Instance, and_0x0f_of_lt ins h, h]
  · intro t ins p
    rw [New_eq]
    exact and_0x0f_lt ins
  · intro i v
    exact ⟨and_0x0f_lt v, and_0x0f_lt v⟩

theorem C10_marshal_instance_byte_witness :
    (New 2 0xf5 [0x10]).instance_ < 16 ∧
    ∃ b, Marshal (New 2 0xf5 [0x10]) = .ok b ∧
      b.get? 3 = some (Instance (New 2 0xf5 [0x10])) :=
  ⟨by decide,
    let ⟨b, h1, _, h3⟩ := C10_marshal_instance_byte.1 (New 2 0xf5 [0x10])
    ⟨b, h1, (h3 (by decide)).1⟩⟩

/-! ## Tree operations: what they compute -/

theorem SetLength_eq (i : IE) :
    SetLength i = IE.mk i.Type_ (i.Payload.length % 65536) i.instance_ i.Payload i.ChildIEs := by
  unfold SetLength
  by_cases hg : IsGrouped i = true
  · simp [hg, setLengthField]
  · simp [hg, setLengthField]

theorem marshalLenLoop_eq_sum (cs : List IE) :
    marshalLenLoop 0 cs = (cs.map MarshalLen).sum := by
  induction cs with
  | nil => simp [marshalLenLoop]
  | cons c rest ih => rw [marshalLenLoop_cons, ih]; simp

theorem wireChildren_append (xs ys : List IE) :
    wireChildren (xs ++ ys) = wireChildren xs ++ wireChildren ys := by
  induction xs with
  | nil => simp [wireChildren]
  | cons c rest ih => simp [wireChildren, ih]

theorem addLoop_eq (cs : List IE) : ∀ payload : List Nat,
    addLoop cs payload = .ok (payload ++ wireChildren cs) := by
  induction cs with
  | nil => intro payload; simp [addLoop, wireChildren]
  | cons c rest ih =>
    intro payload
    simp only [addLoop, Marshal_eq_wire, ih, wireChildren, List.append_assoc]

theorem Add_grouped (i : IE) (ies : List IE) (hg : IsGrouped i = true) :
    Add i ies = .ok (IE.mk i.Type_ ((wireChildren (i.ChildIEs ++ ies)).length % 65536)
      i.instance_ (wireChildren (i.ChildIEs ++ ies)) (i.ChildIEs ++ ies)) := by
  unfold Add
  simp only [hg, Bool.not_true, Bool.false_eq_true, if_false, addLoop_eq, List.nil_append,
    Res.bind_ok, SetLength_eq, IE.Type_mk, IE.instance_mk, IE.Payload_mk, IE.ChildIEs_mk]

theorem newGroupedLoop_eq (cs : List IE) : ∀ payload : List Nat,
    newGroupedLoop cs payload = .ok (some (payload ++ wireChildren cs)) := by
  induction cs with
  | nil => intro payload; simp [newGroupedLoop, wireChildren]
  | cons c rest ih =>
    intro payload
    simp only [newGroupedLoop, Marshal_eq_wire, ih, wireChildren, List.append_assoc]

theorem newGroupedIE_eq (t : Nat) (cs : List IE) :
    newGroupedIE t cs =
      .ok (some (IE.mk t ((wireChildren cs).length % 65536) 0 (wireChildren cs) cs)) := by
  unfold newGroupedIE
  simp only [New_eq, IE.Payload_mk, newGroupedLoop_eq, List.nil_append, Res.bind_ok,
    SetLength_eq, IE.Type_mk, IE.instance_mk, IE.ChildIEs_mk]
  rfl

theorem derefAll_map_some (cs : List IE) : derefAll (cs.map some) = some cs := by
  induction cs with
  | nil => rfl
  | cons c rest ih => simp [derefAll, ih]

theorem findLoop_eq_find (typ instance_ : Nat) (cs : List IE) :
    findLoop typ instance_ cs =
      match cs.find? (fun c => c.Type_ == typ && Instance c == instance_) with
      | some c => .ok c
      | none => .err .ErrIENotFound := by
  induction cs with
  | nil => simp [findLoop]
  | cons c rest ih =>
    by_cases h : c.Type_ = typ ∧ Instance c = instance_
    · simp [findLoop, h, List.find?]
    · have hb : (c.Type_ == typ && Instance c == instance_) = false := by
        simpa using h
      simp only [findLoop, if_neg h, ih, List.find?, hb]

theorem set_length_append {α : Type} (A : List α) (x y : α) (B : List α) :
    (A ++ x :: B).set A.length y = A ++ y :: B := by
  induction A with
  | nil => rfl
  | cons a A ih => simp [List.set, ih]

theorem removeLoop_eq (typ instance_ : Nat) (rest : List IE) :
    ∀ (done : List IE) (payload : List Nat),
    removeLoop typ instance_ rest (done.map some ++ List.replicate rest.length none)
        done.length payload =
      .ok ((done ++ rest.filter (fun c => !(c.Type_ == typ && Instance c == instance_))).map some,
        payload ++
          wireChildren (rest.filter (fun c => !(c.Type_ == typ && Instance c == instance_)))) := by
  induction rest with
  | nil => intro done payload; simp [removeLoop, wireChildren]
  | cons c rest ih =>
    intro done payload
    by_cases h : c.Type_ = typ ∧ Instance c = instance_
    · have hb : (c.Type_ == typ && Instance c == instance_) = true := by simpa using h
      have hlen : ¬ (done.map some ++ List.replicate (c :: rest).length none).length < 1 := by
        simp
      have htake : (done.map some ++ List.replicate (c :: rest).length none).take
          ((done.map some ++ List.replicate (c :: rest).length none).length - 1)
          = done.map some ++ List.replicate rest.length (none : Option IE) := by
        have e : done.map some ++ List.replicate (c :: rest).length (none : Option IE)
            = (done.map some ++ List.replicate rest.length none) ++ [none] := by
          simp [List.replicate_succ']
        rw [e]
        exact List.take_left' (by simp)
      simp only [removeLoop, if_pos h, if_neg hlen, htake, ih, List.filter, hb, Bool.not_true]
    · have hb : (c.Type_ == typ && Instance c == instance_) = false := by simpa using h
      have hidx : done.length < (done.map some ++ List.replicate (c :: rest).length none).length := by
        simp
      have hset : (done.map some ++ List.replicate (c :: rest).length none).set done.length (some c)
          = (done ++ [c]).map some ++ List.replicate rest.length (none : Option IE) := by
        have := set_length_append (done.map some) none (some c) (List.replicate rest.length none)
        simp only [List.length_map] at this
        simp [List.replicate_succ]
      have hl : (done ++ [c]).length = done.length + 1 := by simp
      simp only [removeLoop, if_neg h, if_pos hidx, Marshal_eq_wire, hset]
      rw [← hl, ih]
      simp [List.filter, hb, wireChildren]

theorem Remove_grouped (i : IE) (typ instance_ : Nat) (hg : IsGrouped i = true) :
    Remove i typ instance_ =
      .ok (IE.mk i.Type_
        ((wireChildren (i.ChildIEs.filter
          (fun c => !(c.Type_ == typ && Instance c == instance_)))).length % 65536)
        i.instance_
        (wireChildren (i.ChildIEs.filter (fun c => !(c.Type_ == typ && Instance c == instance_))))
        (i.ChildIEs.filter (fun c => !(c.Type_ == typ && Instance c == instance_)))) := by
  unfold Remove
  have := removeLoop_eq typ instance_ i.ChildIEs [] []
  simp only [List.map_nil, List.nil_append, List.length_nil] at this
  simp only [hg, Bool.not_true, Bool.false_eq_true, if_false, this, Res.bind_ok,
    derefAll_map_some, SetLength_eq, IE.Type_mk, IE.instance_mk, IE.Payload_mk, IE.ChildIEs_mk]

theorem and_0x0f_idem (v : Nat) : (v &&& 0x0f) &&& 0x0f = v &&& 0x0f :=
  and_0x0f_of_lt _ (and_0x0f_lt v)

theorem isGroupedType_iff (t : Nat) :
    isGroupedType t = true ↔
      t = 93 ∨ t = 109 ∨ t = 180 ∨ t = 181 ∨ t = 191 ∨ t = 195 ∨ t = 208 ∨ t = 209 := by
  simp [isGroupedType, grouped, BearerContext, PDNConnection, OverloadControlInformation,
    LoadControlInformation, RemoteUEContext, SCEFPDNConnection, V2XContext, PC5QoSParameters]

/-- C11: after `SetInstance(v)` and after `WithInstance(v)`, `Instance()` is
`v & 0x0f`, below 16, and no other field has changed; for an IE returned by
`Parse` on a buffer whose byte 3 is `v`, `Instance()` is `v & 0x0f` as well. -/
theorem C11_instance_masked :
    (∀ (i : IE) (v : Nat),
      Instance (SetInstance i v) = v &&& 0x0f ∧ Instance (SetInstance i v) < 16 ∧
      (SetInstance i v).Type_ = i.Type_ ∧ (SetInstance i v).Length = i.Length ∧
      (SetInstance i v).Payload = i.Payload ∧ (SetInstance i v).ChildIEs = i.ChildIEs) ∧
    (∀ (i : IE) (v : Nat),
      Instance (WithInstance i v) = v &&& 0x0f ∧ Instance (WithInstance i v) < 16 ∧
      (WithInstance i v).Type_ = i.Type_ ∧ (WithInstance i v).Length = i.Length ∧
      (WithInstance i v).Payload = i.Payload ∧ (WithInstance i v).ChildIEs = i.ChildIEs) ∧
    (∀ (b : List Nat) (x : IE) (v : Nat), Parse b = .ok x → b.get? 3 = some v →
      Instance x = v &&& 0x0f ∧ Instance x < 16) := by
  refine ⟨?_, ?_, ?_⟩
  · intro i v
    exact ⟨and_0x0f_idem v, and_0x0f_lt _, rfl, rfl, rfl, rfl⟩
  · intro i v
    exact ⟨and_0x0f_idem v, and_0x0f_lt _, rfl, rfl, rfl, rfl⟩
  · intro b x v hp hv
    have h3 := Parse_instance b x hp
    rw [hv] at h3
    cases h3
    exact ⟨rfl, and_0x0f_lt _⟩

theorem C11_instance_masked_witness :
    Parse [2, 0, 1, 0xf7, 0x10] = .ok (IE.mk 2 1 0xf7 [0x10] []) ∧
    Instance (IE.mk 2 1 0xf7 [0x10] []) = 0xf7 &&& 0x0f ∧
    Instance (IE.mk 2 1 0xf7 [0x10] []) < 16 :=
  ⟨rfl, C11_instance_masked.2.2 [2, 0, 1, 0xf7, 0x10] (IE.mk 2 1 0xf7 [0x10] []) 0xf7 rfl rfl⟩

/-- C12: `FindByType` agrees with the reference definition: `ErrInvalidType` for a
non-grouped IE, otherwise the first element of `ChildIEs` whose type and instance
are the given ones, `ErrIENotFound` when no direct child matches; a match inside a
nested grouped child is not looked at. -/
theorem C12_find_by_type :
    (∀ (i : IE) (typ instance_ : Nat),
      FindByType i typ instance_ = FindByTypeRef i typ instance_) ∧
    FindByType (IE.mk 93 0 0 [] [IE.mk 109 0 0 [] [New 3 1 [17]]]) 3 1
      = .err .ErrIENotFound := by
  refine ⟨?_, rfl⟩
  intro i typ instance_
  unfold FindByType FindByTypeRef
  by_cases hg : IsGrouped i = true
  · simp only [hg, Bool.not_true, Bool.false_eq_true, if_false, findLoop_eq_find,
      Bool.true_eq_false]
  · have hf : IsGrouped i = false := by simpa using hg
    simp [hf]

/-- C13: for a grouped IE, `Add` leaves the old children followed by the new ones,
`Payload` equal to the concatenation of `Marshal(c)` over the new child list, each
of which succeeds, `Type` and instance unchanged, and `Length` equal to the sum of
the children's `MarshalLen` when that sum is at most 65535. -/
theorem C13_add (g : IE) (xs : List IE) (hg : IsGrouped g = true) :
    ∃ g1, Add g xs = .ok g1 ∧
      g1.ChildIEs = g.ChildIEs ++ xs ∧
      g1.Payload = ((g.ChildIEs ++ xs).map marshalBytes).flatten ∧
      (∀ c ∈ g.ChildIEs ++ xs, Marshal c = .ok (marshalBytes c)) ∧
      (((g.ChildIEs ++ xs).map MarshalLen).sum ≤ 65535 →
        g1.Length = ((g.ChildIEs ++ xs).map MarshalLen).sum) ∧
      g1.Type_ = g.Type_ ∧ g1.instance_ = g.instance_ := by
  refine ⟨_, Add_grouped g xs hg, rfl, ?_, ?_, ?_, rfl, rfl⟩
  · simp only [IE.Payload_mk, wireChildren_eq_flatten]
  · intro c _
    rw [Marshal_eq_wire, marshalBytes_eq_wire]
  · intro hsum
    simp only [IE.Length_mk, wireChildren_length, marshalLenLoop_eq_sum]
    omega

theorem C13_add_witness :
    ∃ g1, Add (IE.mk 93 5 0 [2, 0, 1, 0, 16] [New 2 0 [16]]) [New 3 1 [17]] = .ok g1 ∧
      g1.ChildIEs = [New 2 0 [16], New 3 1 [17]] ∧
      g1.Payload = [2, 0, 1, 0, 16, 3, 0, 1, 1, 17] ∧ g1.Length = 10 := by
  obtain ⟨g1, h1, h2, h3, _, h5, _, _⟩ :=
    C13_add (IE.mk 93 5 0 [2, 0, 1, 0, 16] [New 2 0 [16]]) [New 3 1 [17]] (by decide)
  refine ⟨g1, h1, h2, ?_, ?_⟩
  · rw [h3]; decide
  · rw [h5 (by decide)]; decide

theorem Remove_overflow (p : List Nat) (hp : p.length = 65532) :
    ∃ g1, Remove (IE.mk 93 0 0 [] [New 2 0 p]) 3 0 = .ok g1 ∧
      g1.ChildIEs = [New 2 0 p] ∧ g1.Payload.length = 65536 ∧ g1.Length = 0 := by
  have hk : [New 2 0 p].filter (fun c => !(c.Type_ == 3 && Instance c == 0)) = [New 2 0 p] := by
    simp [New_eq]
  have hlen : (wireChildren [New 2 0 p]).length = 65536 := by
    rw [wireChildren_length, marshalLenLoop_eq_sum, New_eq]
    have hg : isGroupedType 2 = false := by decide
    simp [MarshalLen, hg, hp]
  refine ⟨_, Remove_grouped _ 3 0 rfl, ?_, ?_, ?_⟩
  · simp only [IE.ChildIEs_mk, hk]
  · simp only [IE.Payload_mk, IE.ChildIEs_mk, hk, hlen]
  · simp only [IE.Length_mk, IE.ChildIEs_mk, hk, hlen]

/-- C14, counterexample: a grouped IE whose only child has a payload of 65532
bytes; `Remove` of a type that is not among the children keeps the child, the new
`Payload` has 65536 bytes and the new `Length` is 0. -/
theorem C14_counterexample :
    ∃ g1, Remove (IE.mk 93 0 0 [] [New 2 0 (List.replicate 65532 0)]) 3 0 = .ok g1 ∧
      g1.ChildIEs = [New 2 0 (List.replicate 65532 0)] ∧
      g1.Payload.length = 65536 ∧ g1.Length = 0 :=
  Remove_overflow (List.replicate 65532 0) (List.length_replicate 65532 0)

/-- C14, amended: for a grouped IE, `Remove` finishes without an index out of
range; the new `ChildIEs` is the old list without the children whose `Type` and
`Instance()` match, the others in their order; `Payload` is the concatenation of
the remaining children's encodings; `Length` is the byte length of `Payload`
modulo 65536, hence that byte length when it is at most 65535; `Type` and instance
are unchanged. -/
theorem C14_remove (g : IE) (typ instance_ : Nat) (hg : IsGrouped g = true) :
    ∃ g1, Remove g typ instance_ = .ok g1 ∧
      g1.ChildIEs = g.ChildIEs.filter (fun c => !(c.Type_ == typ && Instance c == instance_)) ∧
      g1.Payload = (g1.ChildIEs.map marshalBytes).flatten ∧
      g1.Length = g1.Payload.length % 65536 ∧
      (g1.Payload.length ≤ 65535 → g1.Length = g1.Payload.length) ∧
      g1.Type_ = g.Type_ ∧ g1.instance_ = g.instance_ := by
  refine ⟨_, Remove_grouped g typ instance_ hg, rfl, ?_, rfl, ?_, rfl, rfl⟩
  · simp only [IE.Payload_mk, IE.ChildIEs_mk, wireChildren_eq_flatten]
  · intro h
    simp only [IE.Payload_mk, IE.Length_mk] at h ⊢
    omega

theorem C14_remove_witness :
    ∃ g1, Remove (IE.mk 93 20 0 [] [New 2 0 [16], New 3 1 [17], New 2 0 [18], New 4 0 [19]]) 2 0
        = .ok g1 ∧
      g1.ChildIEs = [New 3 1 [17], New 4 0 [19]] ∧
      g1.Payload = [3, 0, 1, 1, 17, 4, 0, 1, 0, 19] ∧ g1.Length = 10 := by
  obtain ⟨g1, h1, h2, h3, h4, _, _, _⟩ :=
    C14_remove (IE.mk 93 20 0 [] [New 2 0 [16], New 3 1 [17], New 2 0 [18], New 4 0 [19]]) 2 0
      (by decide)
  have hc : g1.ChildIEs = [New 3 1 [17], New 4 0 [19]] := by rw [h2]; rfl
  have hp : g1.Payload = [3, 0, 1, 1, 17, 4, 0, 1, 0, 19] := by rw [h3, hc]; decide
  exact ⟨g1, h1, hc, hp, by rw [h4, hp]; rfl⟩

/-- C15: on an IE whose type code is not grouped, `Add` and `Remove` return with
the receiver unchanged in every field, and raise no error. -/
theorem C15_leaf_noop (i : IE) (xs : List IE) (typ instance_ : Nat)
    (hg : IsGrouped i = false) :
    Add i xs = .ok i ∧ Remove i typ instance_ = .ok i := by
  unfold Add Remove
  simp [hg]

theorem C15_leaf_noop_witness :
    Add (New 2 0 [16]) [New 3 1 [17]] = .ok (New 2 0 [16]) ∧
    Remove (New 2 0 [16]) 3 1 = .ok (New 2 0 [16]) :=
  C15_leaf_noop (New 2 0 [16]) [New 3 1 [17]] 3 1 (by decide)

/-- C16: for a grouped type code and children whose encoded sizes sum to at most
65535, `newGroupedIE` returns a non-nil IE with the given children, `Payload` the
concatenation of their `Marshal` outputs, `Length` the sum of their `MarshalLen`,
and `MarshalLen` equal to `4 + Length`. -/
theorem C16_new_grouped (t : Nat) (cs : List IE) (hg : isGroupedType t = true)
    (hsum : (cs.map MarshalLen).sum ≤ 65535) :
    ∃ g, newGroupedIE t cs = .ok (some g) ∧
      g.Type_ = t ∧ g.ChildIEs = cs ∧
      g.Payload = (cs.map marshalBytes).flatten ∧
      (∀ c ∈ cs, Marshal c = .ok (marshalBytes c)) ∧
      g.Length = (cs.map MarshalLen).sum ∧
      MarshalLen g = 4 + g.Length := by
  refine ⟨_, newGroupedIE_eq t cs, rfl, rfl, ?_, ?_, ?_, ?_⟩
  · simp only [IE.Payload_mk, wireChildren_eq_flatten]
  · intro c _
    rw [Marshal_eq_wire, marshalBytes_eq_wire]
  · simp only [IE.Length_mk, wireChildren_length, marshalLenLoop_eq_sum]
    omega
  · simp only [MarshalLen, hg, if_true, IE.Length_mk, wireChildren_length]
    rw [marshalLenLoop_acc, marshalLenLoop_eq_sum]
    omega

theorem C16_new_grouped_witness :
    ∃ g, newGroupedIE 93 [New 2 0 [16], New 3 1 [17]] = .ok (some g) ∧
      g.Length = 10 ∧ MarshalLen g = 14 := by
  obtain ⟨g, h1, _, _, _, _, h6, h7⟩ :=
    C16_new_grouped 93 [New 2 0 [16], New 3 1 [17]] (by decide) (by decide)
  have hl : g.Length = 10 := by rw [h6]; decide
  exact ⟨g, h1, hl, by rw [h7, hl]⟩

/-- C17, evaluated where it fails: `SetLength` always ends by storing
`uint16(len(Payload))`; for the grouped IE of type BearerContext with one 5-byte
child and an empty `Payload`, the sum of the children's `MarshalLen` is 5 and the
`Length` stored is 0. -/
theorem C17_grouped_length_overwritten :
    (∀ i : IE, (SetLength i).Length = i.Payload.length % 65536) ∧
    IsGrouped (IE.mk 93 0 0 [] [New 2 0 [16]]) = true ∧
    ((IE.mk 93 0 0 [] [New 2 0 [16]]).ChildIEs.map MarshalLen).sum = 5 ∧
    (SetLength (IE.mk 93 0 0 [] [New 2 0 [16]])).Length = 0 := by
  refine ⟨?_, by decide, by decide, by decide⟩
  intro i
  rw [SetLength_eq]
  rfl

/-- C18: for a payload of at most 65535 bytes, `New` returns an IE with the given
type, the instance masked to its low 4 bits, the given payload, no children, and
`Length` equal to the payload length. -/
theorem C18_new (t ins : Nat) (p : List Nat) (h : p.length ≤ 65535) :
    (New t ins p).Type_ = t ∧ (New t ins p).instance_ = ins &&& 0x0f ∧
    (New t ins p).Payload = p ∧ (New t ins p).ChildIEs = [] ∧
    (New t ins p).Length = p.length := by
  rw [New_eq]
  refine ⟨rfl, rfl, rfl, rfl, ?_⟩
  simp only [IE.Length_mk]
  omega

theorem C18_new_witness :
    (New 93 0xf3 [1, 2, 3]).Type_ = 93 ∧ (New 93 0xf3 [1, 2, 3]).instance_ = 0xf3 &&& 0x0f ∧
    (New 93 0xf3 [1, 2, 3]).Payload = [1, 2, 3] ∧ (New 93 0xf3 [1, 2, 3]).ChildIEs = [] ∧
    (New 93 0xf3 [1, 2, 3]).Length = [1, 2, 3].length :=
  C18_new 93 0xf3 [1, 2, 3] (by decide)

/-- C19: `IsGrouped` is true exactly for the type codes BearerContext (93),
PDNConnection (109), OverloadControlInformation (180), LoadControlInformation
(181), RemoteUEContext (191), SCEFPDNConnection (195), V2XContext (208) and
PC5QoSParameters (209), eight of the 256 codes, and it depends on `Type` only. -/
theorem C19_is_grouped :
    (∀ i : IE, IsGrouped i = true ↔
      i.Type_ = 93 ∨ i.Type_ = 109 ∨ i.Type_ = 180 ∨ i.Type_ = 181 ∨ i.Type_ = 191 ∨
      i.Type_ = 195 ∨ i.Type_ = 208 ∨ i.Type_ = 209) ∧
    grouped = [93, 109, 180, 181, 191, 195, 208, 209] ∧
    (BearerContext = 93 ∧ PDNConnection = 109 ∧ OverloadControlInformation = 180 ∧
      LoadControlInformation = 181 ∧ RemoteUEContext = 191 ∧ SCEFPDNConnection = 195 ∧
      V2XContext = 208 ∧ PC5QoSParameters = 209) ∧
    (List.range 256).filter isGroupedType = [93, 109, 180, 181, 191, 195, 208, 209] ∧
    (∀ i j : IE, i.Type_ = j.Type_ → IsGrouped i = IsGrouped j) := by
  refine ⟨fun i => isGroupedType_iff i.Type_, rfl, ⟨rfl, rfl, rfl, rfl, rfl, rfl, rfl, rfl⟩,
    by decide, ?_⟩
  intro i j h
  simp only [IsGrouped, h]

/-! ## Decoding, then encoding again -/

theorem isBytes_cons (x : Nat) (b : List Nat) :
    isBytes (x :: b) = true ↔ x < 256 ∧ isBytes b = true := by
  simp [isBytes]

theorem isBytes_take (b : List Nat) (n : Nat) (h : isBytes b = true) :
    isBytes (b.take n) = true := by
  simp only [isBytes, List.all_eq_true, decide_eq_true_eq] at h ⊢
  intro x hx
  exact h x (List.mem_of_mem_take hx)

theorem isBytes_drop (b : List Nat) (n : Nat) (h : isBytes b = true) :
    isBytes (b.drop n) = true := by
  simp only [isBytes, List.all_eq_true, decide_eq_true_eq] at h ⊢
  intro x hx
  exact h x (List.mem_of_mem_drop hx)

theorem uint16_bytes (b1 b2 : Nat) (h1 : b1 < 256) (h2 : b2 < 256) :
    (b1 * 256 + b2) / 256 % 256 = b1 ∧ (b1 * 256 + b2) % 256 = b2 := by
  omega

theorem reencodes_aux (n : Nat) :
    ∀ b : List Nat, b.length = n → isBytes b = true → Reencodes b := by
  induction n using Nat.strong_induction_on with
  | _ n ih =>
    intro b hb hbytes
    have hP : ∀ ie, Parse b = .ok ie → wire ie = b.take (MarshalLen ie) := by
      intro ie hp
      have hsz := (safe b).2.1 ie hp
      by_cases h5 : b.length < 5
      · rw [Parse_short b h5] at hp; cases hp
      · obtain ⟨b0, b1, b2, b3, rest, rfl, hr⟩ := exists_cons4 b (by omega)
        rw [Parse_cons4 _ _ _ _ _ hr] at hp
        simp only [isBytes_cons] at hbytes
        obtain ⟨_, h1, h2, _, hrest⟩ := hbytes
        obtain ⟨e1, e2⟩ := uint16_bytes b1 b2 h1 h2
        simp only [List.length_cons] at hb
        by_cases hL : b1 * 256 + b2 > rest.length
        · simp only [if_pos hL] at hp; cases hp
        · simp only [if_neg hL] at hp
          have hlen : (rest.take (b1 * 256 + b2)).length = b1 * 256 + b2 := by
            simp only [List.length_take]; omega
          have htake : (b0 :: b1 :: b2 :: b3 :: rest).take (b1 * 256 + b2 + 1 + 1 + 1 + 1)
              = b0 :: b1 :: b2 :: b3 :: rest.take (b1 * 256 + b2) := by
            simp only [List.take_succ_cons]
          by_cases hg : isGroupedType b0 = true
          · simp only [if_pos hg] at hp
            cases hpm : ParseMultiIEs (rest.take (b1 * 256 + b2)) with
            | ok ies =>
              rw [hpm] at hp
              simp only [Res.bind_ok] at hp
              cases hp
              have hw := (ih _ (by omega) (rest.take (b1 * 256 + b2)) rfl
                (isBytes_take rest _ hrest)).2 ies hpm
              simp only [IE.Length_mk] at hsz
              rw [hsz.1, show 4 + (b1 * 256 + b2) = b1 * 256 + b2 + 1 + 1 + 1 + 1 by omega,
                htake]
              simp only [wire, hg, if_true, hw, e1, e2]
            | err e => rw [hpm] at hp; cases hp
            | panic => rw [hpm] at hp; cases hp
            | diverge => rw [hpm] at hp; cases hp
          · simp only [if_neg hg] at hp
            cases hp
            simp only [IE.Length_mk] at hsz
            rw [hsz.1, show 4 + (b1 * 256 + b2) = b1 * 256 + b2 + 1 + 1 + 1 + 1 by omega,
              htake]
            simp only [wire, hg, Bool.false_eq_true, if_false, e1, e2]
    have hM : ∀ ies, ParseMultiIEs b = .ok ies → wireChildren ies = b := by
      intro ies hm
      by_cases hnil : b = []
      · subst hnil
        rw [ParseMultiIEs_nil] at hm
        cases hm
        rfl
      · rw [ParseMultiIEs_cons b hnil] at hm
        cases hp : Parse b with
        | ok i =>
          rw [hp] at hm
          have hsz := (safe b).2.1 i hp
          have h4 := MarshalLen_ge i
          have hmle : MarshalLen i ≤ b.length := by omega
          simp only [Res.bind_ok, sliceFrom, if_pos hmle] at hm
          cases hpm : ParseMultiIEs (b.drop (MarshalLen i)) with
          | ok more =>
            rw [hpm] at hm
            simp only [Res.bind_ok] at hm
            cases hm
            have hpos : 0 < b.length := List.length_pos.mpr hnil
            have hd : (b.drop (MarshalLen i)).length < n := by
              simp only [List.length_drop]; omega
            have hw := (ih _ hd _ rfl (isBytes_drop b _ hbytes)).2 more hpm
            simp only [wireChildren, hP i hp, hw, List.take_append_drop]
          | err e => rw [hpm] at hm; cases hm
          | panic => rw [hpm] at hm; cases hm
          | diverge => rw [hpm] at hm; cases hm
        | err e => rw [hp] at hm; cases hm
        | panic => rw [hp] at hm; cases hm
        | diverge => rw [hp] at hm; cases hm
    exact ⟨hP, hM⟩

theorem reencodes (b : List Nat) (h : isBytes b = true) : Reencodes b :=
  reencodes_aux b.length b rfl h

/-! ## The Generic message: decode, then encode -/

theorem generic_v2_roundtrip (extra : Nat → Nat) (b : List Nat)
    (g : Gtpv2Message.Generic) (hb : isBytes b = true)
    (h : Gtpv2Message.Generic.UnmarshalBinary extra b = .ok g) :
    b.get? 1 = some g.MessageType ∧
    Gtpv2Message.Marshal Gtpv2Message.Generic.MarshalLen Gtpv2Message.Generic.MarshalTo g
      = .ok b := by
  match b, hb, h with
  | flags :: t :: rest, hb, h =>
    simp only [Gtpv2Message.Generic.UnmarshalBinary] at h
    by_cases hlen : rest.length < extra flags
    · simp only [if_pos hlen] at h; cases h
    · simp only [if_neg hlen] at h
      simp only [isBytes_cons] at hb
      cases hpm : ParseMultiIEs (rest.drop (extra flags)) with
      | ok ies =>
        rw [hpm] at h
        simp only [Res.bind_ok] at h
        cases h
        have hw := (reencodes _ (isBytes_drop rest (extra flags) hb.2.2)).2 ies hpm
        have hsum : (ies.map MarshalLen).sum = (rest.drop (extra flags)).length := by
          rw [← marshalLenLoop_eq_sum, ← wireChildren_length, hw]
        have hml : Gtpv2Message.Generic.MarshalLen
            ⟨flags, t, rest.take (extra flags), ies⟩ = (flags :: t :: rest).length := by
          simp only [Gtpv2Message.Generic.MarshalLen, hsum, List.length_take, List.length_drop,
            List.length_cons]
          omega
        refine ⟨rfl, ?_⟩
        unfold Gtpv2Message.Marshal Gtpv2Message.Generic.MarshalTo
        rw [hml]
        simp [← wireChildren_eq_flatten, hw]
      | err e => rw [hpm] at h; cases h
      | panic => rw [hpm] at h; cases h
      | diverge => rw [hpm] at h; cases h
  | [], _, h => simp [Gtpv2Message.Generic.UnmarshalBinary] at h
  | [_], _, h => simp [Gtpv2Message.Generic.UnmarshalBinary] at h

theorem generic_v1_roundtrip (b : List Nat) (g : Gtpv1Message.Generic)
    (h : Gtpv1Message.Generic.UnmarshalBinary b = .ok g) :
    b.get? 1 = some g.MessageType ∧
    Gtpv1Message.Marshal Gtpv1Message.Generic.MarshalLen Gtpv1Message.Generic.MarshalTo g
      = .ok b := by
  match b, h with
  | flags :: t :: rest, h =>
    simp only [Gtpv1Message.Generic.UnmarshalBinary] at h
    cases h
    refine ⟨rfl, ?_⟩
    simp [Gtpv1Message.Marshal, Gtpv1Message.Generic.MarshalTo, Gtpv1Message.Generic.MarshalLen]
  | [], h => simp [Gtpv1Message.Generic.UnmarshalBinary] at h
  | [_], h => simp [Gtpv1Message.Generic.UnmarshalBinary] at h

theorem selectMessage_v2_unregistered (t : Nat)
    (h : t ∉ [1, 2, 3, 32, 33, 36, 37, 64, 65, 66, 67, 99, 95, 96, 100, 34, 35, 130, 131, 132, 170, 171, 73, 211, 212, 101, 102, 200, 201, 179, 180, 149, 150, 176, 177, 70]) :
    Gtpv2Message.selectMessage t = .Generic := by
  simp only [List.mem_cons, List.mem_singleton, List.not_mem_nil, not_or, or_false] at h
  simp [Gtpv2Message.selectMessage, Gtpv2Message.MsgTypeEchoRequest, Gtpv2Message.MsgTypeEchoResponse, Gtpv2Message.MsgTypeVersionNotSupportedIndication, Gtpv2Message.MsgTypeCreateSessionRequest, Gtpv2Message.MsgTypeCreateSessionResponse, Gtpv2Message.MsgTypeDeleteSessionRequest, Gtpv2Message.MsgTypeDeleteSessionResponse, Gtpv2Message.MsgTypeModifyBearerCommand, Gtpv2Message.MsgTypeModifyBearerFailureIndication, Gtpv2Message.MsgTypeDeleteBearerCommand, Gtpv2Message.MsgTypeDeleteBearerFailureIndication, Gtpv2Message.MsgTypeDeleteBearerRequest, Gtpv2Message.MsgTypeCreateBearerRequest, Gtpv2Message.MsgTypeCreateBearerResponse, Gtpv2Message.MsgTypeDeleteBearerResponse, Gtpv2Message.MsgTypeModifyBearerRequest, Gtpv2Message.MsgTypeModifyBearerResponse, Gtpv2Message.MsgTypeContextRequest, Gtpv2Message.MsgTypeContextResponse, Gtpv2Message.MsgTypeContextAcknowledge, Gtpv2Message.MsgTypeReleaseAccessBearersRequest, Gtpv2Message.MsgTypeReleaseAccessBearersResponse, Gtpv2Message.MsgTypeStopPagingIndication, Gtpv2Message.MsgTypeModifyAccessBearersRequest, Gtpv2Message.MsgTypeModifyAccessBearersResponse, Gtpv2Message.MsgTypeDeletePDNConnectionSetRequest, Gtpv2Message.MsgTypeDeletePDNConnectionSetResponse, Gtpv2Message.MsgTypeUpdatePDNConnectionSetRequest, Gtpv2Message.MsgTypeUpdatePDNConnectionSetResponse, Gtpv2Message.MsgTypePGWRestartNotification, Gtpv2Message.MsgTypePGWRestartNotificationAcknowledge, Gtpv2Message.MsgTypeDetachNotification, Gtpv2Message.MsgTypeDetachAcknowledge, Gtpv2Message.MsgTypeDownlinkDataNotification, Gtpv2Message.MsgTypeDownlinkDataNotificationAcknowledge, Gtpv2Message.MsgTypeDownlinkDataNotificationFailureIndication, h]

theorem selectMessage_v1_unregistered (t : Nat)
    (h : t ∉ [1, 2, 16, 17, 18, 19, 20, 3, 21, 26, 255]) :
    Gtpv1Message.selectMessage t = .Generic := by
  simp only [List.mem_cons, List.mem_singleton, List.not_mem_nil, not_or, or_false] at h
  simp [Gtpv1Message.selectMessage, Gtpv1Message.MsgTypeEchoRequest, Gtpv1Message.MsgTypeEchoResponse, Gtpv1Message.MsgTypeCreatePDPContextRequest, Gtpv1Message.MsgTypeCreatePDPContextResponse, Gtpv1Message.MsgTypeUpdatePDPContextRequest, Gtpv1Message.MsgTypeUpdatePDPContextResponse, Gtpv1Message.MsgTypeDeletePDPContextRequest, Gtpv1Message.MsgTypeVersionNotSupported, Gtpv1Message.MsgTypeDeletePDPContextResponse, Gtpv1Message.MsgTypeErrorIndication, Gtpv1Message.MsgTypeTPDU, h]

theorem index_of_get? {ε : Type} (b : List Nat) (k v : Nat) (h : b.get? k = some v) :
    index (ε := ε) b k = .ok v := by
  simp only [index, h]

theorem selectMessage_v2_generic_iff (t : Nat) :
    Gtpv2Message.selectMessage t = .Generic ↔ t ∉ Gtpv2Message.registeredTypes := by
  constructor
  · intro h hmem
    have hall : ∀ u ∈ Gtpv2Message.registeredTypes,
        Gtpv2Message.selectMessage u ≠ .Generic := by decide
    exact hall t hmem h
  · intro h
    simp only [Gtpv2Message.registeredTypes, List.mem_cons, List.mem_singleton,
      List.not_mem_nil, not_or, or_false] at h
    simp [Gtpv2Message.selectMessage, h]

theorem selectMessage_v1_generic_iff (t : Nat) :
    Gtpv1Message.selectMessage t = .Generic ↔ t ∉ Gtpv1Message.registeredTypes := by
  constructor
  · intro h hmem
    have hall : ∀ u ∈ Gtpv1Message.registeredTypes,
        Gtpv1Message.selectMessage u ≠ .Generic := by decide
    exact hall t hmem h
  · intro h
    simp only [Gtpv1Message.registeredTypes, List.mem_cons, List.mem_singleton,
      List.not_mem_nil, not_or, or_false] at h
    simp [Gtpv1Message.selectMessage, h]

/-- C20: a type code selects `Generic` exactly when it has no case in the `Parse`
switch, as the codes 128 (GTPv2 IdentificationRequest) and 4 (GTPv1
NodeAliveRequest); for such a code `Parse` returns what the Generic decoder
returns; and when the Generic decoder succeeds on a buffer of bytes, `Parse`
returns that Generic message without error, its `MessageType()` is byte 1 of the
buffer, and `Marshal` of it returns the buffer.  In GTPv1 the Generic decoder
succeeds on every buffer of at least two bytes. -/
theorem C20_generic_fallback :
    (Gtpv2Message.MsgTypeIdentificationRequest = 128 ∧
      128 ∉ Gtpv2Message.registeredTypes ∧
      Gtpv1Message.MsgTypeNodeAliveRequest = 4 ∧
      4 ∉ Gtpv1Message.registeredTypes) ∧
    (∀ t, Gtpv2Message.selectMessage t = .Generic ↔ t ∉ Gtpv2Message.registeredTypes) ∧
    (∀ t, Gtpv1Message.selectMessage t = .Generic ↔ t ∉ Gtpv1Message.registeredTypes) ∧
    (∀ (μ ε : Type) (dec : Gtpv2Message.MsgKind → List Nat → Res ε μ) (b : List Nat) (t : Nat),
      b.get? 1 = some t → t ∉ Gtpv2Message.registeredTypes →
      Gtpv2Message.Parse dec b =
        match dec .Generic b with
        | .ok m => .ok m
        | .err e => .err (.failedToDecode e)
        | .panic => .panic
        | .diverge => .diverge) ∧
    (∀ (μ ε : Type) (dec : Gtpv1Message.MsgKind → List Nat → Res ε μ) (b : List Nat) (t : Nat),
      b.get? 1 = some t → t ∉ Gtpv1Message.registeredTypes →
      Gtpv1Message.Parse dec b = dec .Generic b) ∧
    (∀ (μ : Type) (extra : Nat → Nat) (other : Gtpv2Message.MsgKind → List Nat → Res Err μ)
      (b : List Nat) (t : Nat) (g : Gtpv2Message.Generic),
      isBytes b = true → b.get? 1 = some t → t ∉ Gtpv2Message.registeredTypes →
      Gtpv2Message.Generic.UnmarshalBinary extra b = .ok g →
      Gtpv2Message.Parse (Gtpv2Message.decoders extra other) b = .ok (Sum.inr g) ∧
        g.MessageType = t ∧
        Gtpv2Message.Marshal Gtpv2Message.Generic.MarshalLen Gtpv2Message.Generic.MarshalTo g
          = .ok b) ∧
    (∀ (μ : Type) (other : Gtpv1Message.MsgKind → List Nat → Res Err μ)
      (b : List Nat) (t : Nat),
      b.get? 1 = some t → t ∉ Gtpv1Message.registeredTypes →
      ∃ g, Gtpv1Message.Generic.UnmarshalBinary b = .ok g ∧
        Gtpv1Message.Parse (Gtpv1Message.decoders other) b = .ok (Sum.inr g) ∧
        g.MessageType = t ∧
        Gtpv1Message.Marshal Gtpv1Message.Generic.MarshalLen Gtpv1Message.Generic.MarshalTo g
          = .ok b) := by
  refine ⟨⟨rfl, by decide, rfl, by decide⟩, selectMessage_v2_generic_iff,
    selectMessage_v1_generic_iff, ?_, ?_, ?_, ?_⟩
  · intro μ ε dec b t ht hreg
    have hsel := (selectMessage_v2_generic_iff t).mpr hreg
    simp only [Gtpv2Message.Parse, index_of_get? b 1 t ht, hsel]
  · intro μ ε dec b t ht hreg
    have hsel := (selectMessage_v1_generic_iff t).mpr hreg
    simp only [Gtpv1Message.Parse, index_of_get? b 1 t ht, hsel]
    cases dec .Generic b <;> rfl
  · intro μ extra other b t g hb ht hreg hu
    have hsel := (selectMessage_v2_generic_iff t).mpr hreg
    obtain ⟨h1, h2⟩ := generic_v2_roundtrip extra b g hb hu
    rw [ht] at h1
    cases h1
    refine ⟨?_, rfl, h2⟩
    simp only [Gtpv2Message.Parse, index_of_get? b 1 g.MessageType ht, hsel,
      Gtpv2Message.decoders, hu, Res.bind_ok]
  · intro μ other b t ht hreg
    have hsel := (selectMessage_v1_generic_iff t).mpr hreg
    match b, ht with
    | flags :: u :: rest, ht =>
      have hu : Gtpv1Message.Generic.UnmarshalBinary (flags :: u :: rest)
          = .ok ⟨flags, u, rest⟩ := rfl
      obtain ⟨h1, h2⟩ := generic_v1_roundtrip _ _ hu
      rw [ht] at h1
      cases h1
      refine ⟨⟨flags, u, rest⟩, hu, ?_, rfl, h2⟩
      simp only [Gtpv1Message.Parse, index_of_get? _ 1 _ ht, hsel,
        Gtpv1Message.decoders, hu, Res.bind_ok]
    | [], ht => simp at ht
    | [_], ht => simp at ht

theorem C20_generic_fallback_witness :
    (Gtpv2Message.Parse (μ := Unit ⊕ Gtpv2Message.Generic)
        (Gtpv2Message.decoders (fun _ => 6) (fun _ _ => .err .ErrUnexpectedEOF))
        [0x40, 128, 0, 9, 0, 0, 1, 0, 2, 0, 1, 0, 16]
      = .ok (Sum.inr ⟨0x40, 128, [0, 9, 0, 0, 1, 0], [IE.mk 2 1 0 [16] []]⟩) ∧
      Gtpv2Message.Marshal Gtpv2Message.Generic.MarshalLen Gtpv2Message.Generic.MarshalTo
        ⟨0x40, 128, [0, 9, 0, 0, 1, 0], [IE.mk 2 1 0 [16] []]⟩
        = .ok [0x40, 128, 0, 9, 0, 0, 1, 0, 2, 0, 1, 0, 16]) ∧
    (∃ g : Gtpv1Message.Generic,
      Gtpv1Message.Parse (μ := Unit ⊕ Gtpv1Message.Generic)
        (Gtpv1Message.decoders (fun _ _ => .err .ErrUnexpectedEOF))
        [0x32, 4, 0, 3, 0, 0, 0, 0, 1, 2, 3] = .ok (Sum.inr g) ∧
      g.MessageType = 4 ∧
      Gtpv1Message.Marshal Gtpv1Message.Generic.MarshalLen Gtpv1Message.Generic.MarshalTo g
        = .ok [0x32, 4, 0, 3, 0, 0, 0, 0, 1, 2, 3]) :=
  by
  have h2 := C20_generic_fallback.2.2.2.2.2.1 Unit (fun _ => 6)
    (fun _ _ => .err .ErrUnexpectedEOF) [0x40, 128, 0, 9, 0, 0, 1, 0, 2, 0, 1, 0, 16] 128
    ⟨0x40, 128, [0, 9, 0, 0, 1, 0], [IE.mk 2 1 0 [16] []]⟩
    (by decide) rfl (by decide) rfl
  obtain ⟨g, _, h3, h4, h5⟩ := C20_generic_fallback.2.2.2.2.2.2 Unit
    (fun _ _ => .err .ErrUnexpectedEOF) [0x32, 4, 0, 3, 0, 0, 0, 0, 1, 2, 3] 4
    rfl (by decide)
  exact ⟨⟨h2.1, h2.2.2⟩, g, h3, h4, h5⟩

/-- C21: once the type code `b[1]` has selected a message struct, `Parse` returns
what that struct's decoder returns: on an error `e` no message and an error that
carries `e` (wrapped in GTPv2, as it is in GTPv1), whatever the Generic decoder
would have returned; on success that message and no error. -/
theorem C21_parse_reports_decoder_error :
    (∀ (μ ε : Type) (dec : Gtpv2Message.MsgKind → List Nat → Res ε μ) (b : List Nat) (t : Nat),
      b.get? 1 = some t →
      (∀ e, dec (Gtpv2Message.selectMessage t) b = .err e →
        Gtpv2Message.Parse dec b = .err (.failedToDecode e)) ∧
      (∀ m, dec (Gtpv2Message.selectMessage t) b = .ok m →
        Gtpv2Message.Parse dec b = .ok m)) ∧
    (∀ (μ ε : Type) (dec : Gtpv1Message.MsgKind → List Nat → Res ε μ) (b : List Nat) (t : Nat),
      b.get? 1 = some t →
      (∀ e, dec (Gtpv1Message.selectMessage t) b = .err e →
        Gtpv1Message.Parse dec b = .err e) ∧
      (∀ m, dec (Gtpv1Message.selectMessage t) b = .ok m →
        Gtpv1Message.Parse dec b = .ok m)) := by
  refine ⟨?_, ?_⟩
  · intro μ ε dec b t ht
    refine ⟨?_, ?_⟩
    · intro e he
      simp only [Gtpv2Message.Parse, index_of_get? b 1 t ht, he]
    · intro m hm
      simp only [Gtpv2Message.Parse, index_of_get? b 1 t ht, hm]
  · intro μ ε dec b t ht
    refine ⟨?_, ?_⟩
    · intro e he
      simp only [Gtpv1Message.Parse, index_of_get? b 1 t ht, he]
    · intro m hm
      simp only [Gtpv1Message.Parse, index_of_get? b 1 t ht, hm]

theorem C21_parse_reports_decoder_error_witness :
    Gtpv2Message.Parse
      (fun k _ => if k = Gtpv2Message.MsgKind.Generic then Res.ok 0
        else Res.err Err.ErrUnexpectedEOF) [0x40, 1, 0, 0]
      = (.err (.failedToDecode .ErrUnexpectedEOF) : Res (Gtpv2Message.ParseError Err) Nat) :=
  (C21_parse_reports_decoder_error.1 Nat Err
    (fun k _ => if k = Gtpv2Message.MsgKind.Generic then Res.ok 0
      else Res.err Err.ErrUnexpectedEOF) [0x40, 1, 0, 0] 1 rfl).1 .ErrUnexpectedEOF rfl

set_option maxRecDepth 100000 in
theorem msgTypeStr_v2_other_names :
    ∀ p ∈ Gtpv2Message.constantNames, p.1 ≠ Gtpv2Message.MsgTypeDeleteSessionRequest →
      Gtpv2Message.MsgTypeStr p.1 = p.2 := by
  decide

set_option maxRecDepth 100000 in
theorem msgTypeStr_v1_names :
    ∀ p ∈ Gtpv1Message.constantNames, Gtpv1Message.MsgTypeStr p.1 = p.2 := by
  decide

/-- C22, evaluated where it fails: for the named constant
`MsgTypeDeleteSessionRequest` (36) `MsgTypeStr` returns `ModifyBearerResponse`, the
string it also returns for the distinct code `MsgTypeModifyBearerResponse` (35),
and not `DeleteSessionRequest`; the two names checked by the test are returned. -/
theorem C22_delete_session_request_misnamed :
    (Gtpv2Message.MsgTypeDeleteSessionRequest, "DeleteSessionRequest")
      ∈ Gtpv2Message.constantNames ∧
    Gtpv2Message.MsgTypeStr Gtpv2Message.MsgTypeDeleteSessionRequest = "ModifyBearerResponse" ∧
    Gtpv2Message.MsgTypeStr Gtpv2Message.MsgTypeModifyBearerResponse = "ModifyBearerResponse" ∧
    Gtpv2Message.MsgTypeDeleteSessionRequest = 36 ∧
    Gtpv2Message.MsgTypeModifyBearerResponse = 35 ∧
    Gtpv2Message.MsgTypeStr Gtpv2Message.MsgTypeEchoRequest = "EchoRequest" ∧
    Gtpv2Message.MsgTypeStr Gtpv2Message.MsgTypeCreateIndirectDataForwardingTunnelResponse
      = "CreateIndirectDataForwardingTunnelResponse" := by
  refine ⟨by decide, by decide, by decide, rfl, rfl, by decide, by decide⟩

/-- C23: for a code that is not one of the named constants, `MsgTypeStr` returns
its decimal representation, in package `gtpv2/message` and in package
`gtpv1/message`; 199 gives `199` in GTPv2 and 14 gives `14` in GTPv1. -/
theorem C23_unnamed_code_decimal :
    (∀ t, t ∉ Gtpv2Message.namedTypes → Gtpv2Message.MsgTypeStr t = Nat.repr t) ∧
    (∀ t, t ∉ Gtpv1Message.namedTypes → Gtpv1Message.MsgTypeStr t = Nat.repr t) ∧
    Gtpv2Message.MsgTypeStr 199 = "199" ∧ Gtpv1Message.MsgTypeStr 14 = "14" := by
  refine ⟨?_, ?_, by decide, by decide⟩
  · intro t h
    simp only [Gtpv2Message.namedTypes, List.mem_cons, List.mem_singleton, List.not_mem_nil,
      not_or, or_false] at h
    simp [Gtpv2Message.MsgTypeStr, h]
  · intro t h
    simp only [Gtpv1Message.namedTypes, List.mem_cons, List.mem_singleton, List.not_mem_nil,
      not_or, or_false] at h
    simp [Gtpv1Message.MsgTypeStr, h]

theorem C23_unnamed_code_decimal_witness :
    Gtpv2Message.MsgTypeStr 199 = Nat.repr 199 ∧ Gtpv1Message.MsgTypeStr 14 = Nat.repr 14 :=
  ⟨C23_unnamed_code_decimal.1 199 (by decide), C23_unnamed_code_decimal.2.1 14 (by decide)⟩

/-- C24, evaluated where it fails: in the `const` block of package `gtpv1/message`
the entry `MsgTypeCreatePDPContextRequest` is at position 16, as its comment says,
and the entry `MsgTypeIdentificationRequest`, commented `48`, is at position 56, so
that the two entries after it are 57 and 58 and `MsgTypeStr(48)` is `48`. -/
theorem C24_identification_request_is_56 :
    Gtpv1Message.iotaValue "MsgTypeCreatePDPContextRequest" = 16 ∧
    Gtpv1Message.MsgTypeCreatePDPContextRequest = 16 ∧
    Gtpv1Message.iotaValue "MsgTypeIdentificationRequest" = 56 ∧
    Gtpv1Message.MsgTypeIdentificationRequest = 56 ∧
    Gtpv1Message.MsgTypeIdentificationResponse = 57 ∧
    Gtpv1Message.MsgTypeSGSNContextRequest = 58 ∧
    Gtpv1Message.MsgTypeStr 48 = "48" ∧
    Gtpv1Message.MsgTypeStr 56 = "IdentificationRequest" := by
  refine ⟨by decide, rfl, by decide, rfl, rfl, rfl, by decide, by decide⟩

/-! ## Decoding: what a successful decode looks like -/

theorem Parse_ok_inv (b : List Nat) (ie : IE) (h : Parse b = .ok ie) :
    ∃ b0 b1 b2 b3 rest, b = b0 :: b1 :: b2 :: b3 :: rest ∧ rest ≠ [] ∧
      b1 * 256 + b2 ≤ rest.length ∧
      ((isGroupedType b0 = false ∧
          ie = IE.mk b0 (b1 * 256 + b2) b3 (rest.take (b1 * 256 + b2)) []) ∨
        (isGroupedType b0 = true ∧
          ∃ ies, ParseMultiIEs (rest.take (b1 * 256 + b2)) = .ok ies ∧
            ie = IE.mk b0 (b1 * 256 + b2) b3 (rest.take (b1 * 256 + b2)) ies)) := by
  by_cases h5 : b.length < 5
  · rw [Parse_short b h5] at h; cases h
  · obtain ⟨b0, b1, b2, b3, rest, rfl, hr⟩ := exists_cons4 b (by omega)
    rw [Parse_cons4 _ _ _ _ _ hr] at h
    by_cases hL : b1 * 256 + b2 > rest.length
    · simp only [if_pos hL] at h; cases h
    · simp only [if_neg hL] at h
      refine ⟨b0, b1, b2, b3, rest, rfl, hr, by omega, ?_⟩
      by_cases hg : isGroupedType b0 = true
      · simp only [if_pos hg] at h
        right
        cases hpm : ParseMultiIEs (rest.take (b1 * 256 + b2)) with
        | ok ies =>
          rw [hpm] at h
          simp only [Res.bind_ok] at h
          cases h
          exact ⟨hg, ies, rfl, rfl⟩
        | err e => rw [hpm] at h; cases h
        | panic => rw [hpm] at h; cases h
        | diverge => rw [hpm] at h; cases h
      · simp only [if_neg hg] at h
        cases h
        left
        exact ⟨by simpa using hg, rfl⟩

theorem ParseMultiIEs_ok_inv (b : List Nat) (ies : List IE) (h : ParseMultiIEs b = .ok ies) :
    (b = [] ∧ ies = []) ∨
      ∃ i more, b ≠ [] ∧ Parse b = .ok i ∧ MarshalLen i ≤ b.length ∧
        ParseMultiIEs (b.drop (MarshalLen i)) = .ok more ∧ ies = i :: more := by
  by_cases hnil : b = []
  · subst hnil
    rw [ParseMultiIEs_nil] at h
    cases h
    exact Or.inl ⟨rfl, rfl⟩
  · right
    rw [ParseMultiIEs_cons b hnil] at h
    cases hp : Parse b with
    | ok i =>
      rw [hp] at h
      have hsz := (safe b).2.1 i hp
      have hmle : MarshalLen i ≤ b.length := by omega
      simp only [Res.bind_ok, sliceFrom, if_pos hmle] at h
      cases hpm : ParseMultiIEs (b.drop (MarshalLen i)) with
      | ok more =>
        rw [hpm] at h
        simp only [Res.bind_ok] at h
        cases h
        exact ⟨i, more, hnil, rfl, hmle, hpm, rfl⟩
      | err e => rw [hpm] at h; cases h
      | panic => rw [hpm] at h; cases h
      | diverge => rw [hpm] at h; cases h
    | err e => rw [hp] at h; cases h
    | panic => rw [hp] at h; cases h
    | diverge => rw [hp] at h; cases h

/-- C26: on a buffer of bytes, when `ParseMultiIEs` succeeds the concatenation of
the `Marshal` outputs of the IEs it returns is the whole buffer, and when `Parse`
succeeds `Marshal` of the IE it returns is the first `4 + Length` bytes of the
buffer. -/
theorem C26_reencode_exact (b : List Nat) (hb : isBytes b = true) :
    (∀ ies, ParseMultiIEs b = .ok ies →
      (ies.map marshalBytes).flatten = b ∧ ∀ x ∈ ies, Marshal x = .ok (marshalBytes x)) ∧
    (∀ x, Parse b = .ok x → Marshal x = .ok (b.take (4 + x.Length))) := by
  have hr := reencodes b hb
  refine ⟨?_, ?_⟩
  · intro ies h
    refine ⟨?_, ?_⟩
    · rw [← wireChildren_eq_flatten]
      exact hr.2 ies h
    · intro x _
      rw [Marshal_eq_wire, marshalBytes_eq_wire]
  · intro x h
    rw [Marshal_eq_wire, hr.1 x h, ((safe b).2.1 x h).1]

theorem C26_reencode_exact_witness :
    ParseMultiIEs [2, 0, 1, 0xf0, 16, 3, 0, 0, 0, 4, 0, 1, 1, 17]
      = .ok [IE.mk 2 1 0xf0 [16] [], IE.mk 3 0 0 [] [], IE.mk 4 1 1 [17] []] ∧
    ([IE.mk 2 1 0xf0 [16] [], IE.mk 3 0 0 [] [], IE.mk 4 1 1 [17] []].map marshalBytes).flatten
      = [2, 0, 1, 0xf0, 16, 3, 0, 0, 0, 4, 0, 1, 1, 17] :=
  ⟨rfl, ((C26_reencode_exact [2, 0, 1, 0xf0, 16, 3, 0, 0, 0, 4, 0, 1, 1, 17] (by decide)).1
    _ rfl).1⟩

/-- C27: for a buffer of at least 5 bytes whose type code is grouped and whose
length field `L` is at most `len(b) - 4`, `Parse` succeeds exactly when
`ParseMultiIEs(b[4:4+L])` does; on success `ChildIEs` is that result, and on a
nested error `Parse` returns that error and no IE. -/
theorem C27_grouped_parse (b0 b1 b2 b3 : Nat) (rest : List Nat) (hr : rest ≠ [])
    (hg : isGroupedType b0 = true) (hL : b1 * 256 + b2 ≤ rest.length) :
    slice (ε := Err) (b0 :: b1 :: b2 :: b3 :: rest) 4 (4 + (b1 * 256 + b2))
      = .ok (rest.take (b1 * 256 + b2)) ∧
    (∀ ies, ParseMultiIEs (rest.take (b1 * 256 + b2)) = .ok ies →
      Parse (b0 :: b1 :: b2 :: b3 :: rest)
        = .ok (IE.mk b0 (b1 * 256 + b2) b3 (rest.take (b1 * 256 + b2)) ies)) ∧
    (∀ e, ParseMultiIEs (rest.take (b1 * 256 + b2)) = .err e →
      Parse (b0 :: b1 :: b2 :: b3 :: rest) = .err e) ∧
    (∀ ie, Parse (b0 :: b1 :: b2 :: b3 :: rest) = .ok ie →
      ParseMultiIEs (rest.take (b1 * 256 + b2)) = .ok ie.ChildIEs) ∧
    (ParseMultiIEs (rest.take (b1 * 256 + b2))).returns = true := by
  have hnL : ¬ b1 * 256 + b2 > rest.length := by omega
  have hP := Parse_cons4 b0 b1 b2 b3 rest hr
  simp only [if_neg hnL, if_pos hg] at hP
  refine ⟨?_, ?_, ?_, ?_, (safe _).2.2.1⟩
  · have e1 : 4 + (b1 * 256 + b2) = (b1 * 256 + b2) + 1 + 1 + 1 + 1 := by omega
    have h2 : 4 ≤ 4 + (b1 * 256 + b2) ∧
        4 + (b1 * 256 + b2) ≤ (b0 :: b1 :: b2 :: b3 :: rest).length := by
      simp only [List.length_cons]; omega
    simp only [slice, if_pos h2]
    rw [e1]
    simp only [List.take_succ_cons, List.drop_succ_cons, List.drop_zero]
  · intro ies h
    rw [hP, h, Res.bind_ok]
  · intro e h
    rw [hP, h, Res.bind_err]
  · intro ie h
    rw [hP] at h
    cases hpm : ParseMultiIEs (rest.take (b1 * 256 + b2)) with
    | ok ies => rw [hpm] at h; simp only [Res.bind_ok] at h; cases h; rfl
    | err e => rw [hpm] at h; cases h
    | panic => rw [hpm] at h; cases h
    | diverge => rw [hpm] at h; cases h

theorem C27_grouped_parse_witness :
    Parse [93, 0, 5, 0, 2, 0, 1, 0, 16] = .ok (IE.mk 93 5 0 [2, 0, 1, 0, 16] [New 2 0 [16]]) ∧
    Parse [93, 0, 5, 0, 2, 0, 9, 0, 16] = .err .ErrInvalidLength :=
  ⟨(C27_grouped_parse 93 0 5 0 [2, 0, 1, 0, 16] (by simp) (by decide) (by decide)).2.1
      [New 2 0 [16]] rfl,
    (C27_grouped_parse 93 0 5 0 [2, 0, 9, 0, 16] (by simp) (by decide) (by decide)).2.2.1
      .ErrInvalidLength rfl⟩

/-- C29: two IEs with a grouped type code that agree on `Type`, `Length`, instance
and `ChildIEs` have the same `Marshal` output and the same `MarshalLen`, whatever
their `Payload` fields hold. -/
theorem C29_cache_not_encoded (t len ins : Nat) (p1 p2 : List Nat) (cs : List IE)
    (hg : isGroupedType t = true) :
    Marshal (IE.mk t len ins p1 cs) = Marshal (IE.mk t len ins p2 cs) ∧
    MarshalLen (IE.mk t len ins p1 cs) = MarshalLen (IE.mk t len ins p2 cs) := by
  refine ⟨?_, ?_⟩
  · simp only [Marshal_eq_wire, wire, hg, if_true]
  · simp only [MarshalLen, hg, if_true]

theorem C29_cache_not_encoded_witness :
    Marshal (IE.mk 93 5 0 [1, 2, 3] [New 2 0 [16]]) = Marshal (IE.mk 93 5 0 [] [New 2 0 [16]]) ∧
    MarshalLen (IE.mk 93 5 0 [1, 2, 3] [New 2 0 [16]])
      = MarshalLen (IE.mk 93 5 0 [] [New 2 0 [16]]) :=
  C29_cache_not_encoded 93 5 0 [1, 2, 3] [] [New 2 0 [16]] (by decide)

/-! ## The length invariant of decoded IEs -/

theorem lengthInv_aux (n : Nat) :
    ∀ b : List Nat, b.length = n → isBytes b = true →
      (∀ ie, Parse b = .ok ie → LengthInv ie) ∧
      (∀ ies, ParseMultiIEs b = .ok ies → LengthInvList ies) := by
  induction n using Nat.strong_induction_on with
  | _ n ih =>
    intro b hb hbytes
    have hP : ∀ ie, Parse b = .ok ie → LengthInv ie := by
      intro ie hp
      have hsz := (safe b).2.1 ie hp
      obtain ⟨b0, b1, b2, b3, rest, rfl, hr, hL, hcase⟩ := Parse_ok_inv b ie hp
      simp only [isBytes_cons] at hbytes
      simp only [List.length_cons] at hb
      have hlen : (rest.take (b1 * 256 + b2)).length = b1 * 256 + b2 := by
        simp only [List.length_take]; omega
      rcases hcase with ⟨hg, rfl⟩ | ⟨hg, ies, hpm, rfl⟩
      · simp only [IE.Length_mk] at hsz
        simp only [LengthInv, LengthInvList, hg, Bool.false_eq_true, false_implies, and_true]
        rw [hlen, hsz.1]
        omega
      · simp only [IE.Length_mk] at hsz
        have hbt := isBytes_take rest (b1 * 256 + b2) hbytes.2.2.2.2
        have hsum := (safe (rest.take (b1 * 256 + b2))).2.2.2 ies hpm
        have hw := (reencodes _ hbt).2 ies hpm
        have hrec := (ih _ (by omega) (rest.take (b1 * 256 + b2)) rfl hbt).2 ies hpm
        simp only [LengthInv]
        refine ⟨hlen.symm, by rw [hsz.1]; omega, ?_, hrec⟩
        intro _
        refine ⟨?_, ?_⟩
        · rw [← marshalLenLoop_eq_sum, hsum, hlen]
        · rw [← wireChildren_eq_flatten, hw]
    have hM : ∀ ies, ParseMultiIEs b = .ok ies → LengthInvList ies := by
      intro ies hm
      rcases ParseMultiIEs_ok_inv b ies hm with ⟨_, rfl⟩ | ⟨i, more, hnil, hp, hmle, hpm, rfl⟩
      · simp only [LengthInvList]
      · have h4 := MarshalLen_ge i
        have hpos : 0 < b.length := List.length_pos.mpr hnil
        have hd : (b.drop (MarshalLen i)).length < n := by
          simp only [List.length_drop]; omega
        simp only [LengthInvList]
        exact ⟨hP i hp, (ih _ hd _ rfl (isBytes_drop b _ hbytes)).2 more hpm⟩
    exact ⟨hP, hM⟩

theorem lengthInvList_iff (cs : List IE) : LengthInvList cs ↔ ∀ c ∈ cs, LengthInv c := by
  induction cs with
  | nil => simp [LengthInvList]
  | cons c rest ih => simp [LengthInvList, ih]

/-- C25: on a buffer of bytes, every IE returned by `Parse`, every element
returned by `ParseMultiIEs`, and every descendant of them satisfies the length
invariant: `Length = len(Payload) = MarshalLen - 4`, and for a grouped type code
`Length` is the sum of the children's `MarshalLen` and `Payload` the concatenation
of the children's encodings. -/
theorem C25_length_invariant (b : List Nat) (hb : isBytes b = true) :
    (∀ ie, Parse b = .ok ie → LengthInv ie) ∧
    (∀ ies, ParseMultiIEs b = .ok ies → ∀ x ∈ ies, LengthInv x) := by
  have h := lengthInv_aux b.length b rfl hb
  exact ⟨h.1, fun ies hm => (lengthInvList_iff ies).mp (h.2 ies hm)⟩

theorem C25_length_invariant_witness :
    LengthInv (IE.mk 93 5 0 [2, 0, 1, 0, 16] [IE.mk 2 1 0 [16] []]) :=
  (C25_length_invariant [93, 0, 5, 0, 2, 0, 1, 0, 16] (by decide)).1 _ rfl

/-! ## The receiver of `UnmarshalBinary` -/

theorem UnmarshalBinary_short (i : IE) (b : List Nat) (h : b.length < 5) :
    UnmarshalBinary i b = (i, .err .ErrUnexpectedEOF) := by
  unfold UnmarshalBinary
  exact UnmarshalBinaryF_short _ i b h

theorem UnmarshalBinary_cons4 (i : IE) (b0 b1 b2 b3 : Nat) (rest : List Nat) (h : rest ≠ []) :
    UnmarshalBinary i (b0 :: b1 :: b2 :: b3 :: rest) =
      if b1 * 256 + b2 > rest.length then
        (IE.mk b0 (b1 * 256 + b2) i.instance_ i.Payload i.ChildIEs, .err .ErrInvalidLength)
      else if isGroupedType b0 then
        match ParseMultiIEs (rest.take (b1 * 256 + b2)) with
        | .ok ies => (IE.mk b0 (b1 * 256 + b2) b3 (rest.take (b1 * 256 + b2)) ies, .ok ())
        | .err e => (IE.mk b0 (b1 * 256 + b2) b3 (rest.take (b1 * 256 + b2)) [], .err e)
        | .panic => (IE.mk b0 (b1 * 256 + b2) b3 (rest.take (b1 * 256 + b2)) i.ChildIEs, .panic)
        | .diverge =>
          (IE.mk b0 (b1 * 256 + b2) b3 (rest.take (b1 * 256 + b2)) i.ChildIEs, .diverge)
      else (IE.mk b0 (b1 * 256 + b2) b3 (rest.take (b1 * 256 + b2)) i.ChildIEs, .ok ()) := by
  unfold UnmarshalBinary
  rw [UnmarshalBinaryF_cons4 _ _ _ _ _ _ _ h]
  have hlen : (rest.take (b1 * 256 + b2)).length ≤ rest.length := by
    simp [List.length_take]
  rw [(stable (rest.take (b1 * 256 + b2))).2.2.2 _ (by simp only [List.length_cons]; omega)]

theorem Parse_eq_UnmarshalBinary (b : List Nat) :
    Parse b =
      match UnmarshalBinary zeroIE b with
      | (ie, .ok _) => .ok ie
      | (_, .err e) => .err e
      | (_, .panic) => .panic
      | (_, .diverge) => .diverge := by
  unfold Parse UnmarshalBinary
  simp only [ParseF]

/-- C28, counterexample: `UnmarshalBinary` on the zero IE with `02 00 09 00 10`
returns `ErrInvalidLength` and leaves `Type` 2 and `Length` 9 in the receiver; with
`5d 00 05 00 02 00 09 00 10` the nested child fails and the receiver holds the
type, length, instance and payload that were read. -/
theorem C28_counterexample :
    UnmarshalBinary zeroIE [2, 0, 9, 0, 16] = (IE.mk 2 9 0 [] [], .err .ErrInvalidLength) ∧
    (IE.mk 2 9 0 [] []).Type_ ≠ zeroIE.Type_ ∧ (IE.mk 2 9 0 [] []).Length ≠ zeroIE.Length ∧
    UnmarshalBinary zeroIE [93, 0, 5, 0, 2, 0, 9, 0, 16]
      = (IE.mk 93 5 0 [2, 0, 9, 0, 16] [], .err .ErrInvalidLength) ∧
    (IE.mk 93 5 0 [2, 0, 9, 0, 16] []).Payload ≠ zeroIE.Payload := by
  refine ⟨rfl, by decide, by decide, rfl, by decide⟩

/-- C28, amended: when `UnmarshalBinary` returns the header-too-short error the
receiver is unchanged; when it returns `ErrInvalidLength` for its own header,
`Type` and `Length` of the receiver hold what was read and the other fields are
unchanged; when a nested child fails, `Type`, `Length`, instance and `Payload` hold
what was read and `ChildIEs` is empty; every error of `UnmarshalBinary` is one of
these three; `Parse` returns the error of `UnmarshalBinary` on a fresh IE and no
IE. -/
theorem C28_receiver_after_error :
    (∀ (i : IE) (b : List Nat), b.length < 5 →
      UnmarshalBinary i b = (i, .err .ErrUnexpectedEOF)) ∧
    (∀ (i : IE) (b0 b1 b2 b3 : Nat) (rest : List Nat), rest ≠ [] →
      b1 * 256 + b2 > rest.length →
      UnmarshalBinary i (b0 :: b1 :: b2 :: b3 :: rest) =
        (IE.mk b0 (b1 * 256 + b2) i.instance_ i.Payload i.ChildIEs, .err .ErrInvalidLength)) ∧
    (∀ (i : IE) (b0 b1 b2 b3 : Nat) (rest : List Nat) (e : Err), rest ≠ [] →
      b1 * 256 + b2 ≤ rest.length → isGroupedType b0 = true →
      ParseMultiIEs (rest.take (b1 * 256 + b2)) = .err e →
      UnmarshalBinary i (b0 :: b1 :: b2 :: b3 :: rest) =
        (IE.mk b0 (b1 * 256 + b2) b3 (rest.take (b1 * 256 + b2)) [], .err e)) ∧
    (∀ (i : IE) (b : List Nat) (e : Err), (UnmarshalBinary i b).2 = .err e →
      b.length < 5 ∨
      ∃ b0 b1 b2 b3 rest, b = b0 :: b1 :: b2 :: b3 :: rest ∧ rest ≠ [] ∧
        (b1 * 256 + b2 > rest.length ∨
          (b1 * 256 + b2 ≤ rest.length ∧ isGroupedType b0 = true ∧
            ParseMultiIEs (rest.take (b1 * 256 + b2)) = .err e))) ∧
    (∀ (b : List Nat) (e : Err), (UnmarshalBinary zeroIE b).2 = .err e → Parse b = .err e) := by
  refine ⟨UnmarshalBinary_short, ?_, ?_, ?_, ?_⟩
  · intro i b0 b1 b2 b3 rest hr hL
    rw [UnmarshalBinary_cons4 _ _ _ _ _ _ hr, if_pos hL]
  · intro i b0 b1 b2 b3 rest e hr hL hg hpm
    have hnL : ¬ b1 * 256 + b2 > rest.length := by omega
    rw [UnmarshalBinary_cons4 _ _ _ _ _ _ hr, if_neg hnL, if_pos hg, hpm]
  · intro i b e h
    by_cases h5 : b.length < 5
    · exact Or.inl h5
    · right
      obtain ⟨b0, b1, b2, b3, rest, rfl, hr⟩ := exists_cons4 b (by omega)
      refine ⟨b0, b1, b2, b3, rest, rfl, hr, ?_⟩
      by_cases hL : b1 * 256 + b2 > rest.length
      · exact Or.inl hL
      · right
        rw [UnmarshalBinary_cons4 _ _ _ _ _ _ hr, if_neg hL] at h
        by_cases hg : isGroupedType b0 = true
        · rw [if_pos hg] at h
          refine ⟨by omega, hg, ?_⟩
          cases hpm : ParseMultiIEs (rest.take (b1 * 256 + b2)) with
          | ok ies => rw [hpm] at h; cases h
          | err e2 => rw [hpm] at h; cases h; rfl
          | panic => rw [hpm] at h; cases h
          | diverge => rw [hpm] at h; cases h
        · rw [if_neg hg] at h
          cases h
  · intro b e h
    rw [Parse_eq_UnmarshalBinary]
    cases hu : UnmarshalBinary zeroIE b with
    | mk ie r =>
      rw [hu] at h
      simp only at h
      subst h
      rfl

theorem C28_receiver_after_error_witness :
    UnmarshalBinary (IE.mk 7 7 7 [7] []) [2, 0, 1] = (IE.mk 7 7 7 [7] [], .err .ErrUnexpectedEOF) ∧
    UnmarshalBinary (IE.mk 7 7 7 [7] []) [2, 0, 9, 0, 16]
      = (IE.mk 2 9 7 [7] [], .err .ErrInvalidLength) ∧
    Parse [2, 0, 9, 0, 16] = .err .ErrInvalidLength :=
  ⟨C28_receiver_after_error.1 (IE.mk 7 7 7 [7] []) [2, 0, 1] (by decide),
    C28_receiver_after_error.2.1 (IE.mk 7 7 7 [7] []) 2 0 9 0 [16] (by simp) (by decide),
    C28_receiver_after_error.2.2.2.2 [2, 0, 9, 0, 16] .ErrInvalidLength rfl⟩

/-! ## Decoding what was encoded: trees -/

theorem wire_ne_nil (c : IE) (tail : List Nat) : wire c ++ tail ≠ [] := by
  intro h
  have := congrArg List.length h
  have h4 := MarshalLen_ge c
  simp [wire_length] at this
  omega

theorem ParseMultiIEs_wireChildren (cs : List IE)
    (h : ∀ c ∈ cs, ∀ tail : List Nat, Parse (wire c ++ tail) = .ok c) :
    ParseMultiIEs (wireChildren cs) = .ok cs := by
  induction cs with
  | nil => simp [wireChildren, ParseMultiIEs_nil]
  | cons c rest ih =>
    have ih2 := ih (fun y hy => h y (by simp [hy]))
    simp only [wireChildren]
    rw [ParseMultiIEs_cons _ (wire_ne_nil c _), h c (by simp), Res.bind_ok]
    have hs : sliceFrom (ε := Err) (wire c ++ wireChildren rest) (MarshalLen c)
        = .ok (wireChildren rest) := by
      simp [sliceFrom, ← wire_length]
    rw [hs, Res.bind_ok, ih2, Res.bind_ok]

theorem Parse_wire_built (ie : IE) (h : Built ie) :
    ∀ tail : List Nat, Parse (wire ie ++ tail) = .ok ie := by
  induction h with
  | leaf t ins p hg h1 h2 =>
    intro tail
    have hmod : p.length % 65536 = p.length := by omega
    have hne : p ++ tail ≠ [] := by
      intro hc
      have hp0 : p = [] := (List.append_eq_nil.mp hc).1
      rw [hp0] at h1
      simp at h1
    have := Parse_wire_leaf t p.length (ins &&& 0x0f) p tail [] hg rfl (by omega) hne
    rw [New_eq, hmod]
    exact this
  | group t cs g hg hne hcs hsum hnew ih =>
    intro tail
    rw [newGroupedIE_eq] at hnew
    cases hnew
    have hlen : (wireChildren cs).length = (cs.map MarshalLen).sum := by
      rw [wireChildren_length, marshalLenLoop_eq_sum]
    have hmod : (wireChildren cs).length % 65536 = (wireChildren cs).length := by omega
    have hrest : wireChildren cs ++ tail ≠ [] := by
      cases cs with
      | nil => exact absurd rfl hne
      | cons c rest =>
        simp only [wireChildren, List.append_assoc]
        exact wire_ne_nil c _
    have hpm := ParseMultiIEs_wireChildren cs ih
    simp only [wire, hg, if_true, List.cons_append, hmod]
    rw [Parse_cons4 _ _ _ _ _ hrest, uint16_split _ (by omega)]
    have hL : ¬ (wireChildren cs).length > (wireChildren cs ++ tail).length := by simp
    simp only [if_neg hL, hg, if_true, List.take_left, hpm, Res.bind_ok]

/-- C30: for every IE tree built only by `New` (non-grouped type code, payload of
1 to 65535 bytes) and `newGroupedIE` (grouped type code, at least one child,
children's encoded sizes summing to at most 65535), `Marshal` succeeds and `Parse`
of its output returns the very same tree. -/
theorem C30_tree_roundtrip (ie : IE) (h : Built ie) :
    ∃ b, Marshal ie = .ok b ∧ Parse b = .ok ie := by
  refine ⟨wire ie, Marshal_eq_wire ie, ?_⟩
  have := Parse_wire_built ie h []
  simpa using this

theorem C30_tree_roundtrip_witness :
    ∃ b, Marshal (IE.mk 93 14 0 [109, 0, 5, 0, 2, 0, 1, 0, 16, 3, 0, 1, 1, 17]
        [IE.mk 109 5 0 [2, 0, 1, 0, 16] [New 2 0 [16]], New 3 1 [17]]) = .ok b ∧
      Parse b = .ok (IE.mk 93 14 0 [109, 0, 5, 0, 2, 0, 1, 0, 16, 3, 0, 1, 1, 17]
        [IE.mk 109 5 0 [2, 0, 1, 0, 16] [New 2 0 [16]], New 3 1 [17]]) :=
  C30_tree_roundtrip _
    (Built.group 93 [IE.mk 109 5 0 [2, 0, 1, 0, 16] [New 2 0 [16]], New 3 1 [17]] _
      (by decide) (by simp)
      (by
        intro c hc
        simp only [List.mem_cons, List.mem_singleton, List.not_mem_nil, or_false] at hc
        rcases hc with rfl | rfl
        · exact Built.group 109 [New 2 0 [16]] _ (by decide) (by simp)
            (by
              intro c hc
              simp only [List.mem_singleton] at hc
              subst hc
              exact Built.leaf 2 0 [16] (by decide) (by decide) (by decide))
            (by decide) rfl
        · exact Built.leaf 3 1 [17] (by decide) (by decide) (by decide))
      (by decide) rfl)

/-! ## Tree operations: `Remove` followed by `FindByType` or `Remove` -/

theorem filter_idem {α : Type} (q : α → Bool) (l : List α) :
    (l.filter q).filter q = l.filter q :=
  List.filter_eq_self.mpr fun _ ha => (List.mem_filter.mp ha).2

theorem find?_filter_not {α : Type} (q : α → Bool) (l : List α) :
    (l.filter fun a => !q a).find? q = none := by
  rw [List.find?_eq_none]
  intro x hx
  have := (List.mem_filter.mp hx).2
  simpa using this

theorem FindByType_grouped (i : IE) (typ instance_ : Nat) (hg : IsGrouped i = true) :
    FindByType i typ instance_ =
      match i.ChildIEs.find? (fun c => c.Type_ == typ && Instance c == instance_) with
      | some c => .ok c
      | none => .err .ErrIENotFound := by
  unfold FindByType
  simp only [hg, Bool.not_true, Bool.false_eq_true, if_false, findLoop_eq_find]

/-- C31: for a grouped IE, after `Remove(typ, instance)` the call
`FindByType(typ, instance)` fails with `ErrIENotFound`, and a second
`Remove(typ, instance)` leaves the IE as the first one left it, so `ChildIEs`,
`Payload` and `Length` are the same. -/
theorem C31_remove_then_find (g : IE) (typ instance_ : Nat) (hg : IsGrouped g = true) :
    ∃ g1, Remove g typ instance_ = .ok g1 ∧
      FindByType g1 typ instance_ = .err .ErrIENotFound ∧
      ∃ g2, Remove g1 typ instance_ = .ok g2 ∧
        g2.ChildIEs = g1.ChildIEs ∧ g2.Payload = g1.Payload ∧ g2.Length = g1.Length := by
  refine ⟨_, Remove_grouped g typ instance_ hg, ?_, ?_⟩
  · rw [FindByType_grouped _ _ _ (by simpa [IsGrouped] using hg)]
    simp only [IE.ChildIEs_mk]
    rw [find?_filter_not (fun c => c.Type_ == typ && Instance c == instance_)]
  · refine ⟨_, Remove_grouped _ typ instance_ (by simpa [IsGrouped] using hg), ?_, ?_, ?_⟩
    · simp only [IE.ChildIEs_mk, filter_idem]
    · simp only [IE.ChildIEs_mk, IE.Payload_mk, filter_idem]
    · simp only [IE.ChildIEs_mk, IE.Length_mk, filter_idem]

theorem C31_remove_then_find_witness :
    ∃ g1, Remove (IE.mk 93 20 0 [] [New 2 0 [16], New 3 1 [17], New 2 0 [18]]) 2 0 = .ok g1 ∧
      FindByType g1 2 0 = .err .ErrIENotFound :=
  let ⟨g1, h1, h2, _⟩ :=
    C31_remove_then_find (IE.mk 93 20 0 [] [New 2 0 [16], New 3 1 [17], New 2 0 [18]]) 2 0
      (by decide)
  ⟨g1, h1, h2⟩

/-! ## `Length` is 16 bits wide -/

theorem MarshalLen_grouped_cache (t len ins : Nat) (cs : List IE) (hg : isGroupedType t = true) :
    MarshalLen (IE.mk t len ins (wireChildren cs) cs) = 4 + (wireChildren cs).length := by
  simp only [MarshalLen, hg, if_true, wireChildren_length]
  rw [marshalLenLoop_acc]

theorem MarshalLen_New_leaf (t ins : Nat) (p : List Nat) (hg : isGroupedType t = false) :
    MarshalLen (New t ins p) = 4 + p.length := by
  rw [New_eq]
  simp only [MarshalLen, hg, Bool.false_eq_true, if_false]

/-- C32: `SetLength` stores `len(Payload)` modulo 65536 in `Length`, and so do
`New`, `Add`, `Remove` and `newGroupedIE`, while `MarshalLen` counts all the bytes
of a leaf payload and of the child cache of a grouped IE; from 65536 bytes on the
two differ, and a leaf payload of 65536 bytes gives `Length` 0 and `MarshalLen`
65540. -/
theorem C32_length_mod_65536 :
    (∀ i : IE, (SetLength i).Length = i.Payload.length % 65536) ∧
    (∀ (t ins : Nat) (p : List Nat), (New t ins p).Length = p.length % 65536) ∧
    (∀ (t ins : Nat) (p : List Nat), isGroupedType t = false →
      MarshalLen (New t ins p) = 4 + p.length) ∧
    (∀ (g : IE) (xs : List IE), IsGrouped g = true →
      ∃ g1, Add g xs = .ok g1 ∧ g1.Length = g1.Payload.length % 65536 ∧
        MarshalLen g1 = 4 + g1.Payload.length) ∧
    (∀ (g : IE) (typ instance_ : Nat), IsGrouped g = true →
      ∃ g1, Remove g typ instance_ = .ok g1 ∧ g1.Length = g1.Payload.length % 65536 ∧
        MarshalLen g1 = 4 + g1.Payload.length) ∧
    (∀ (t : Nat) (cs : List IE), isGroupedType t = true →
      ∃ g, newGroupedIE t cs = .ok (some g) ∧ g.Length = g.Payload.length % 65536 ∧
        MarshalLen g = 4 + g.Payload.length) ∧
    (∀ n : Nat, 65536 ≤ n → n % 65536 ≠ n) ∧
    (∀ (t ins : Nat) (p : List Nat), isGroupedType t = false → p.length = 65536 →
      (New t ins p).Length = 0 ∧ MarshalLen (New t ins p) = 65540) := by
  refine ⟨?_, ?_, MarshalLen_New_leaf, ?_, ?_, ?_, ?_, ?_⟩
  · intro i
    rw [SetLength_eq]
    rfl
  · intro t ins p
    rw [New_eq]
    rfl
  · intro g xs hg
    exact ⟨_, Add_grouped g xs hg, rfl,
      MarshalLen_grouped_cache _ _ _ _ (by simpa [IsGrouped] using hg)⟩
  · intro g typ instance_ hg
    exact ⟨_, Remove_grouped g typ instance_ hg, rfl,
      MarshalLen_grouped_cache _ _ _ _ (by simpa [IsGrouped] using hg)⟩
  · intro t cs hg
    exact ⟨_, newGroupedIE_eq t cs, rfl, MarshalLen_grouped_cache _ _ _ _ hg⟩
  · intro n hn
    have := Nat.mod_lt n (show 0 < 65536 by omega)
    omega
  · intro t ins p hg hp
    refine ⟨?_, ?_⟩
    · rw [New_eq]
      simp only [IE.Length_mk, hp]
    · rw [MarshalLen_New_leaf t ins p hg, hp]

theorem C32_length_mod_65536_witness :
    (New 2 0 (List.replicate 65536 0)).Length = 0 ∧
    MarshalLen (New 2 0 (List.replicate 65536 0)) = 65540 :=
  C32_length_mod_65536.2.2.2.2.2.2.2 2 0 (List.replicate 65536 0) (by decide)
    (List.length_replicate 65536 0)

/-- C33: for a grouped type code and a payload of 1 to 65535 bytes, the IE
returned by `New` has no children, `Length` equal to the payload length and
`MarshalLen` 4, and `Marshal` returns only the four header bytes: the header
declares `Length` bytes, more than the none that follow. -/
theorem C33_new_grouped_type_header_only (t ins : Nat) (p : List Nat)
    (hg : isGroupedType t = true) (h1 : 1 ≤ p.length) (h2 : p.length ≤ 65535) :
    (New t ins p).ChildIEs = [] ∧ (New t ins p).Length = p.length ∧
    MarshalLen (New t ins p) = 4 ∧
    Marshal (New t ins p) = .ok [t, p.length / 256 % 256, p.length % 256, ins &&& 0x0f] ∧
    0 < (New t ins p).Length := by
  have hmod : p.length % 65536 = p.length := by omega
  rw [Marshal_eq_wire, New_eq, hmod]
  refine ⟨rfl, rfl, ?_, ?_, ?_⟩
  · simp only [MarshalLen, hg, if_true, marshalLenLoop]
  · simp only [wire, hg, if_true, wireChildren]
  · simp only [IE.Length_mk]
    omega

theorem C33_new_grouped_type_header_only_witness :
    (New 93 0xf1 [1, 2, 3]).ChildIEs = [] ∧ (New 93 0xf1 [1, 2, 3]).Length = 3 ∧
    MarshalLen (New 93 0xf1 [1, 2, 3]) = 4 ∧
    Marshal (New 93 0xf1 [1, 2, 3]) = .ok [93, 3 / 256 % 256, 3 % 256, 0xf1 &&& 0x0f] ∧
    0 < (New 93 0xf1 [1, 2, 3]).Length :=
  C33_new_grouped_type_header_only 93 0xf1 [1, 2, 3] (by decide) (by decide) (by decide)

/-! ## Instance arguments of 16 and more -/

theorem Instance_lt (c : IE) : Instance c < 16 := by
  unfold Instance
  exact and_0x0f_lt _

theorem no_match_of_ge (typ instance_ : Nat) (h16 : 16 ≤ instance_) (c : IE) :
    (c.Type_ == typ && Instance c == instance_) = false := by
  have := Instance_lt c
  have hne : ¬ Instance c = instance_ := by omega
  simp [hne]

/-- C34: the instance argument is compared as it is with the masked `Instance()`
of the children, so for a grouped IE and an instance argument of 16 or more
`FindByType` fails with `ErrIENotFound` and `Remove` keeps every child. -/
theorem C34_instance_argument_unmasked (g : IE) (typ instance_ : Nat)
    (hg : IsGrouped g = true) (h16 : 16 ≤ instance_) :
    FindByType g typ instance_ = .err .ErrIENotFound ∧
    ∃ g1, Remove g typ instance_ = .ok g1 ∧ g1.ChildIEs = g.ChildIEs := by
  refine ⟨?_, _, Remove_grouped g typ instance_ hg, ?_⟩
  · rw [FindByType_grouped g typ instance_ hg]
    have : g.ChildIEs.find? (fun c => c.Type_ == typ && Instance c == instance_) = none := by
      rw [List.find?_eq_none]
      intro x _
      simp [no_match_of_ge typ instance_ h16 x]
    rw [this]
  · simp only [IE.ChildIEs_mk]
    apply List.filter_eq_self.mpr
    intro a _
    simp [no_match_of_ge typ instance_ h16 a]

theorem C34_instance_argument_unmasked_witness :
    FindByType (IE.mk 93 5 0 [] [New 2 0xf1 [16]]) 2 0xf1 = .err .ErrIENotFound ∧
    ∃ g1, Remove (IE.mk 93 5 0 [] [New 2 0xf1 [16]]) 2 0xf1 = .ok g1 ∧
      g1.ChildIEs = (IE.mk 93 5 0 [] [New 2 0xf1 [16]]).ChildIEs :=
  C34_instance_argument_unmasked (IE.mk 93 5 0 [] [New 2 0xf1 [16]]) 2 0xf1 (by decide)
    (by decide)

end GoGtp
